import Mathlib

/-!
# blackbox_decode: frame merging and integrity statistics

A shallow embedding of `src/blackbox_decode.c`.

* The module's global variables (`lastFrameTime`, `bufferedMainFrame`,
  `haveBufferedMainFrame`, `bufferedFrameTime`, `bufferedGPSFrame`, `gpsCsvFile`, ...)
  are the fields of `State`; every C function that touches them is a function
  `State → State`.
* Everything the program hands to one of its sinks (the main CSV file, the GPS CSV
  file, the GPX writer, the attitude estimator) is appended, in program order, to
  `State.out`.  A row is recorded as the cells the writer loops produce: the field
  position and the raw value read from the frame at the moment of the call; turning a
  cell into text is a function of the cell and of the per-log unit tables.
* `uint32_t` values are naturals reduced modulo `2^32`; `int32_t`/`int64_t` values are
  integers, with the conversions `toU32`/`toI32` written where the C code converts.
* A frame pointer is `Option (List Int)`; `none` is the null pointer.
-/

namespace BlackboxDecode

/-! ## Machine integers and arrays -/

/-- Conversion of a C integer to `uint32_t`: reduction modulo `2^32`. -/
def toU32 (v : Int) : Nat := (v % 4294967296).toNat

/-- Conversion of a C integer to `int32_t` (two's complement wrap-around). -/
def toI32 (v : Int) : Int := (v + 2147483648) % 4294967296 - 2147483648

/-- The value `(uint32_t) -1`, which the source uses as the "time unknown" marker. -/
def UINT32_MINUS_ONE : Nat := 4294967295

/-- The array read `frame[i]` for a C `int` index.  A read outside the array is undefined
in C; here it yields `0`. -/
def rd (frame : List Int) (i : Int) : Int :=
  if 0 ≤ i then frame.getD i.toNat 0 else 0

/-- The call `memcpy(dst, src, sizeof(*dst) * n)`: the first `n` elements of `dst` are
replaced by the first `n` elements of `src`, the rest of `dst` is kept. -/
def memcpy (dst src : List Int) (n : Nat) : List Int :=
  src.take n ++ dst.drop n

/-- The call `memset(a, 0, sizeof(a))` on an array of `n` elements. -/
def memset0 (n : Nat) : List Int := List.replicate n 0

/-! ## Declarations of `parser.h` used by the translated file -/

/-- Modelled from the spec: the constants of `parser.h` (the header of the external
parsing engine, absent from the translated file) that the code names.  They are parameters
of the development: every theorem holds for all values of them. -/
structure parser_h where
  FLIGHT_LOG_MAX_FIELDS : Nat
  FLIGHT_LOG_FIELD_INDEX_ITERATION : Nat
  FLIGHT_LOG_FIELD_INDEX_TIME : Nat
deriving Repr, DecidableEq

/-- Modelled from the spec: the field-index lookups of the main stream exposed by the log
descriptor (`mainFieldIndexes` of `flightLog_t` in `parser.h`); `-1` means that the field
is absent. -/
structure mainFieldIndexes_t where
  gyroData0 : Int := -1
  gyroData1 : Int := -1
  gyroData2 : Int := -1
  accSmooth0 : Int := -1
  accSmooth1 : Int := -1
  accSmooth2 : Int := -1
  magADC0 : Int := -1
  magADC1 : Int := -1
  magADC2 : Int := -1
  vbatLatest : Int := -1
  amperageLatest : Int := -1
deriving Repr, DecidableEq

/-- Modelled from the spec: the field-index lookups of the positioning stream exposed by
the log descriptor (`gpsFieldIndexes` of `flightLog_t` in `parser.h`); `-1` means that the
field is absent. -/
structure gpsFieldIndexes_t where
  time : Int := -1
  GPS_coord0 : Int := -1
  GPS_coord1 : Int := -1
  GPS_altitude : Int := -1
  GPS_speed : Int := -1
deriving Repr, DecidableEq

/-- Modelled from the spec: the log descriptor `flightLog_t` of `parser.h`, reduced to the
members that the translated file reads (field counts, field names, signedness and the
field-index lookups). -/
structure flightLog_t where
  mainFieldCount : Nat := 0
  gpsFieldCount : Nat := 0
  mainFieldNames : List String := []
  gpsFieldNames : List String := []
  mainFieldSigned : List Bool := []
  mainFieldIndexes : mainFieldIndexes_t := {}
  gpsFieldIndexes : gpsFieldIndexes_t := {}
deriving Repr, DecidableEq

/-! ## Options -/

/-- The C enumeration `Unit`. -/
inductive Unit where
  | UNIT_RAW
  | UNIT_METERS_PER_SECOND
  | UNIT_KILOMETERS_PER_HOUR
  | UNIT_MILES_PER_HOUR
  | UNIT_MILLIVOLTS
  | UNIT_MILLIAMPS
  | UNIT_VOLTS
  | UNIT_AMPS
deriving Repr, DecidableEq

/-- The C structure `decodeOptions_t`; the `int` flags are booleans.  The defaults are the
initialiser of the global `options`. -/
structure decodeOptions_t where
  raw : Bool := false
  limits : Bool := false
  debug : Bool := false
  toStdout : Bool := false
  simulateIMU : Bool := false
  imuIgnoreMag : Bool := false
  mergeGPS : Bool := false
  unitGPSSpeed : Unit := Unit.UNIT_METERS_PER_SECOND
  unitVbat : Unit := Unit.UNIT_VOLTS
  unitAmperage : Unit := Unit.UNIT_AMPS
deriving Repr, DecidableEq

/-! ## Sinks -/

/-- One column produced by a row writer. -/
inductive Cell where
  /-- The time column when the caller passed `(uint32_t) -1`: the text `X`. -/
  | timeUnknown
  /-- The time column, printed with `%u`. -/
  | time (frameTime : Nat)
  /-- The column of field `i`, whose raw value in the frame is `v`. -/
  | field (i : Nat) (v : Int)
deriving Repr, DecidableEq

/-- What one call of `outputMainFrameFields` writes: the time it was given, one cell per
main field, and whether the three attitude columns follow. -/
structure MainFields where
  frameTime : Nat
  cells : List Cell
  attitude : Bool
deriving Repr, DecidableEq

/-- One thing handed to a sink. -/
inductive Output where
  /-- A row of the main CSV file written by `outputMergeFrame`. -/
  | mergeRow (main : MainFields) (gps : List Cell)
  /-- A row of the main CSV file written by `onFrameReady`; `debugInfo` is the
  `, %c, offset %d, size %d` suffix of debug mode. -/
  | mainRow (main : MainFields) (debugInfo : Option (Char × Int × Int))
  /-- A debug diagnostic on the main CSV file for a frame that is not written;
  `decoded` tells the two messages apart (`frame` non-null or null). -/
  | diagnostic (decoded : Bool) (frameType : Char) (frameOffset frameSize : Int)
  /-- The header line of the GPS CSV file. -/
  | gpsHeader
  /-- A row of the GPS CSV file. -/
  | gpsRow (gpsFrameTime : Nat) (gps : List Cell)
  /-- A call of `gpxWriterAddPoint`. -/
  | gpxPoint (time : Nat) (lat lon altitude : Int)
  /-- A call of `updateEstimatedAttitude`. -/
  | imuUpdate (gyroData accSmooth : List Int) (magADC : Option (List Int)) (currentTime : Nat)
deriving Repr, DecidableEq

/-- The global variables of the module that the frame callbacks read or write, and the
record of what has been written. -/
structure State where
  lastFrameTime : Nat := UINT32_MINUS_ONE
  bufferedMainFrame : List Int := []
  haveBufferedMainFrame : Bool := false
  bufferedFrameTime : Nat := 0
  bufferedGPSFrame : List Int := []
  /-- Whether `gpsCsvFilename` is non-null. -/
  gpsCsvFilename : Bool := false
  /-- Whether `gpsCsvFile` is non-null. -/
  gpsCsvFile : Bool := false
  /-- Whether `fopen(gpsCsvFilename, "wb")` succeeds (the file system's answer). -/
  fopenGpsCsv : Bool := true
  out : List Output := []
deriving Repr, DecidableEq

/-- The arguments of one frame-ready callback. -/
structure FrameCall where
  frameValid : Bool
  frame : Option (List Int)
  frameType : Char
  fieldCount : Nat
  frameOffset : Int := 0
  frameSize : Int := 0
deriving Repr, DecidableEq

/-! ## Row writers -/

/-- The loop of `outputGPSFields`, as data: one cell per GPS field except the time field,
in field order.  A cell records the field position and the raw value read from the frame;
the text of the cell is chosen from them by the switch on `gpsFieldTypes[i]`, which is not
evaluated here. -/
def outputGPSFields (log : flightLog_t) (frame : List Int) : List Cell :=
  ((List.range log.gpsFieldCount).filter
      (fun (i : Nat) => decide (Int.ofNat i ≠ log.gpsFieldIndexes.time))).map
    (fun i => Cell.field i (frame.getD i 0))

/-- The function `outputMainFrameFields`, as data: one cell per main field, in field order,
the time column taken from the caller (`X` for `(uint32_t) -1`), and the attitude columns
when `options.simulateIMU` is set.  A field cell records the field position and the raw
value read from the frame; the text of the cell is chosen from them by the switch on
`mainFieldUnit[i]`, which also stops the program when a unit does not fit its field; that
switch is not evaluated here. -/
def outputMainFrameFields (K : parser_h) (log : flightLog_t) (options : decodeOptions_t)
    (frameTime : Nat) (frame : List Int) : MainFields :=
  { frameTime := frameTime
    cells := (List.range log.mainFieldCount).map (fun i =>
      if i = K.FLIGHT_LOG_FIELD_INDEX_TIME then
        (if frameTime = UINT32_MINUS_ONE then Cell.timeUnknown else Cell.time frameTime)
      else Cell.field i (frame.getD i 0))
    attitude := options.simulateIMU }

/-- The call of `updateEstimatedAttitude` made by `updateIMU`: the gyroscope and
accelerometer samples, narrowed to `int16_t`, and the magnetometer sample when the log has
one and it is not ignored. -/
def updateIMU_call (log : flightLog_t) (options : decodeOptions_t) (frame : List Int)
    (currentTime : Nat) : Output :=
  let toI16 : Int → Int := fun v => (v + 32768) % 65536 - 32768
  let ix := log.mainFieldIndexes
  let hasMag : Bool := decide (ix.magADC0 > -1)
  let gyroData := [toI16 (rd frame ix.gyroData0), toI16 (rd frame ix.gyroData1), toI16 (rd frame ix.gyroData2)]
  let accSmooth := [toI16 (rd frame ix.accSmooth0), toI16 (rd frame ix.accSmooth1), toI16 (rd frame ix.accSmooth2)]
  let magADC := [toI16 (rd frame ix.magADC0), toI16 (rd frame ix.magADC1), toI16 (rd frame ix.magADC2)]
  Output.imuUpdate gyroData accSmooth (if hasMag && !options.imuIgnoreMag then some magADC else none)
    currentTime

/-- The function `updateIMU`: one call of the attitude estimator. -/
def updateIMU (log : flightLog_t) (options : decodeOptions_t) (frame : List Int)
    (currentTime : Nat) (s : State) : State :=
  { s with out := s.out ++ [updateIMU_call log options frame currentTime] }

/-- The function `createGPSCSVFile`. -/
def createGPSCSVFile (s : State) : State :=
  if !s.gpsCsvFile && s.gpsCsvFilename then
    if s.fopenGpsCsv then
      { s with gpsCsvFile := true, out := s.out ++ [Output.gpsHeader] }
    else s
  else s

/-- The function `outputGPSFrame` (independent mode). -/
def outputGPSFrame (log : flightLog_t) (frame : List Int) (s : State) : State :=
  let gpsFrameTime : Nat :=
    if log.gpsFieldIndexes.time ≠ -1 then toU32 (rd frame log.gpsFieldIndexes.time)
    else s.lastFrameTime
  let s1 : State :=
    if log.gpsFieldIndexes.GPS_coord0 ≠ -1 ∧ log.gpsFieldIndexes.GPS_coord0 ≠ -1
        ∧ log.gpsFieldIndexes.GPS_altitude ≠ -1 then
      { s with out := s.out ++ [Output.gpxPoint s.lastFrameTime
          (rd frame log.gpsFieldIndexes.GPS_coord0) (rd frame log.gpsFieldIndexes.GPS_coord1)
          (rd frame log.gpsFieldIndexes.GPS_altitude)] }
    else s
  let s2 := createGPSCSVFile s1
  if s2.gpsCsvFile then
    { s2 with out := s2.out ++ [Output.gpsRow gpsFrameTime (outputGPSFields log frame)] }
  else s2

/-- The function `outputMergeFrame`: one merge row made of the buffered main frame, with
the buffered time, and the buffered GPS frame; the main frame is no longer pending. -/
def outputMergeFrame (K : parser_h) (log : flightLog_t) (options : decodeOptions_t)
    (s : State) : State :=
  { s with
    out := s.out ++ [Output.mergeRow
      (outputMainFrameFields K log options s.bufferedFrameTime s.bufferedMainFrame)
      (outputGPSFields log s.bufferedGPSFrame)]
    haveBufferedMainFrame := false }

/-! ## Frame callbacks -/

/-- The function `onFrameReadyMerge`.  Reading through a null `frame` is undefined in C;
here a null frame reads as the empty array. -/
def onFrameReadyMerge (K : parser_h) (log : flightLog_t) (options : decodeOptions_t)
    (s : State) (frameValid : Bool) (frame : Option (List Int)) (frameType : Char)
    (fieldCount : Nat) (_frameOffset _frameSize : Int) : State :=
  let fr := frame.getD []
  if frameType = 'G' then
    if frameValid then
      let sameIteration : Bool :=
        decide (log.gpsFieldIndexes.time = -1)
          || decide (toU32 (rd fr log.gpsFieldIndexes.time) = s.lastFrameTime)
      let gpsFrameTime : Nat :=
        if sameIteration then s.lastFrameTime else toU32 (rd fr log.gpsFieldIndexes.time)
      let s1 : State :=
        if !sameIteration && s.haveBufferedMainFrame then outputMergeFrame K log options s else s
      let s2 : State :=
        { s1 with
          bufferedGPSFrame := memcpy s1.bufferedGPSFrame fr fieldCount
          bufferedFrameTime := gpsFrameTime }
      let s3 := outputMergeFrame K log options s2
      if log.gpsFieldIndexes.GPS_coord0 ≠ -1 ∧ log.gpsFieldIndexes.GPS_coord0 ≠ -1
          ∧ log.gpsFieldIndexes.GPS_altitude ≠ -1 then
        { s3 with out := s3.out ++ [Output.gpxPoint gpsFrameTime
            (rd fr log.gpsFieldIndexes.GPS_coord0) (rd fr log.gpsFieldIndexes.GPS_coord1)
            (rd fr log.gpsFieldIndexes.GPS_altitude)] }
      else s3
    else s
  else if frameType = 'P' || frameType = 'I' then
    if frameValid || (frame.isSome && options.raw) then
      let s1 : State := if s.haveBufferedMainFrame then outputMergeFrame K log options s else s
      let s2 : State :=
        if frameValid then
          { s1 with lastFrameTime := toU32 (rd fr (K.FLIGHT_LOG_FIELD_INDEX_TIME : Int)) }
        else s1
      let s3 : State := if options.simulateIMU then updateIMU log options fr s2.lastFrameTime s2 else s2
      { s3 with
        bufferedMainFrame := memcpy s3.bufferedMainFrame fr fieldCount
        bufferedFrameTime := if frameValid then s3.lastFrameTime else UINT32_MINUS_ONE
        haveBufferedMainFrame := true }
    else s
  else s

/-- The test at the head of `onFrameReady` that selects the merging routine:
`options.mergeGPS && log->gpsFieldCount > 0`. -/
def mergedMode (log : flightLog_t) (options : decodeOptions_t) : Bool :=
  options.mergeGPS && decide (log.gpsFieldCount > 0)

/-- The function `onFrameReady`. -/
def onFrameReady (K : parser_h) (log : flightLog_t) (options : decodeOptions_t)
    (s : State) (frameValid : Bool) (frame : Option (List Int)) (frameType : Char)
    (fieldCount : Nat) (frameOffset frameSize : Int) : State :=
  if mergedMode log options then
    onFrameReadyMerge K log options s frameValid frame frameType fieldCount frameOffset frameSize
  else
    let fr := frame.getD []
    if frameType = 'G' then
      if frameValid then outputGPSFrame log fr s else s
    else if frameType = 'P' || frameType = 'I' then
      if frameValid || (frame.isSome && options.raw) then
        let s1 : State := { s with lastFrameTime := toU32 (rd fr (K.FLIGHT_LOG_FIELD_INDEX_TIME : Int)) }
        let s2 : State := if options.simulateIMU then updateIMU log options fr s1.lastFrameTime s1 else s1
        let row := outputMainFrameFields K log options
          (if frameValid then toU32 (rd fr (K.FLIGHT_LOG_FIELD_INDEX_TIME : Int)) else UINT32_MINUS_ONE) fr
        { s2 with out := s2.out ++
            [Output.mainRow row (if options.debug then some (frameType, frameOffset, frameSize) else none)] }
      else if options.debug then
        { s with out := s.out ++ [Output.diagnostic frame.isSome frameType frameOffset frameSize] }
      else s
    else s

/-! ## The per-log driver -/

/-- One callback of the parsing engine. -/
def frameReady (K : parser_h) (log : flightLog_t) (options : decodeOptions_t)
    (s : State) (c : FrameCall) : State :=
  onFrameReady K log options s c.frameValid c.frame c.frameType c.fieldCount c.frameOffset c.frameSize

/-- The frame callbacks that `flightLogParse` makes for one log, in order. -/
def flightLogParse (K : parser_h) (log : flightLog_t) (options : decodeOptions_t)
    (s : State) (calls : List FrameCall) : State :=
  calls.foldl (frameReady K log options) s

/-- The part of `decodeFlightLog` before the parse: the sinks of the previous log are
forgotten (the new log writes to files of its own, so its record starts empty) and, with
`--merge-gps`, the merge buffers are cleared.  `lastFrameTime` is not touched. -/
def decodeFlightLog_begin (K : parser_h) (options : decodeOptions_t) (s : State) : State :=
  let s1 : State := { s with gpsCsvFile := false, gpsCsvFilename := !options.toStdout, out := [] }
  if options.mergeGPS then
    { s1 with
      haveBufferedMainFrame := false
      bufferedFrameTime := UINT32_MINUS_ONE
      bufferedGPSFrame := memset0 K.FLIGHT_LOG_MAX_FIELDS
      bufferedMainFrame := memset0 K.FLIGHT_LOG_MAX_FIELDS }
  else s1

/-- The part of `decodeFlightLog` after the parse: the last buffered main frame, if any,
is printed. -/
def decodeFlightLog_end (K : parser_h) (log : flightLog_t) (options : decodeOptions_t)
    (s : State) : State :=
  if options.mergeGPS && s.haveBufferedMainFrame then outputMergeFrame K log options s else s

/-- The function `decodeFlightLog` around the frame callbacks of one log, for a log whose
main CSV file could be created (otherwise the function returns before the parse).  The
construction of file names, the statistics report and the closing of the files are left
out. -/
def decodeFlightLog (K : parser_h) (log : flightLog_t) (options : decodeOptions_t)
    (s : State) (calls : List FrameCall) : State :=
  decodeFlightLog_end K log options
    (flightLogParse K log options (decodeFlightLog_begin K options s) calls)

/-! ## Statistics -/

/-- Modelled from the spec: the per-frame-type counters of the parsing engine's statistics
object (`flightLogFrameStatistics_t` in `parser.h`): byte total and valid, desynchronised
and corrupt frame counts. -/
structure flightLogFrameStatistics_t where
  bytes : Nat := 0
  validCount : Nat := 0
  desyncCount : Nat := 0
  corruptCount : Nat := 0
deriving Repr, DecidableEq

/-- Modelled from the spec: the running minimum and maximum of one field
(`flightLogFieldStatistics_t` in `parser.h`); the source prints them as 64-bit signed
integers. -/
structure flightLogFieldStatistics_t where
  min : Int := 0
  max : Int := 0
deriving Repr, DecidableEq

/-- Modelled from the spec: the statistics snapshot of the parsing engine
(`flightLogStatistics_t` in `parser.h`): global byte, corrupt-frame and
intentionally-absent-iteration counters, per-field minima and maxima indexed by field
position, and per-frame-type counters indexed by the frame type character. -/
structure flightLogStatistics_t where
  totalBytes : Nat := 0
  totalCorruptFrames : Nat := 0
  intentionallyAbsentIterations : Nat := 0
  field : Nat → flightLogFieldStatistics_t := fun _ => {}
  frame : Char → flightLogFrameStatistics_t := fun _ => {}

/-- The local `intervalMS` of `printStats`: the 64-bit difference of the time extremes,
divided by 1000 with C's truncating division, converted to `uint32_t`. -/
def printStats.intervalMS (K : parser_h) (stats : flightLogStatistics_t) : Nat :=
  toU32 (Int.tdiv ((stats.field K.FLIGHT_LOG_FIELD_INDEX_TIME).max
    - (stats.field K.FLIGHT_LOG_FIELD_INDEX_TIME).min) 1000)

/-- The local `goodFrames` of `printStats`, a `uint32_t`. -/
def printStats.goodFrames (stats : flightLogStatistics_t) : Nat :=
  toU32 (((stats.frame 'I').validCount : Int) + ((stats.frame 'P').validCount : Int))

/-- The local `totalFrames` of `printStats`: the 64-bit value `max - min + 1` of the
iteration field converted to `uint32_t`. -/
def printStats.totalFrames (K : parser_h) (stats : flightLogStatistics_t) : Nat :=
  toU32 ((stats.field K.FLIGHT_LOG_FIELD_INDEX_ITERATION).max
    - (stats.field K.FLIGHT_LOG_FIELD_INDEX_ITERATION).min + 1)

/-- The local `missingFrames` of `printStats`, an `int32_t`: the unsigned difference
converted to `int32_t`, then replaced by `0` when negative. -/
def printStats.missingFrames (K : parser_h) (stats : flightLogStatistics_t) : Int :=
  let missingFrames : Int :=
    toI32 ((printStats.totalFrames K stats : Int) - (printStats.goodFrames stats : Int)
      - (stats.intentionallyAbsentIterations : Int))
  if missingFrames < 0 then 0 else missingFrames

/-- The data-rate line of the statistics report. -/
inductive DataRateLine where
  /-- The line `Data rate %4uHz %6u bytes/s %10u baud`. -/
  | rate (hz bytesPerSecond baud : Nat)
  /-- The line `Data rate: Unknown, no timing information available.` -/
  | unknown
deriving Repr, DecidableEq

/-- The data-rate statement of `printStats`: the line it prints, and the divisors of the
integer divisions it executes, in order.  The dividends are 64-bit (`int64_t` casts in the
source) and each printed value is converted to `unsigned int` (32 bits). -/
def printStats.dataRate (K : parser_h) (stats : flightLogStatistics_t) (raw : Bool) :
    DataRateLine × List Int :=
  let intervalMS : Int := (printStats.intervalMS K stats : Int)
  if decide (intervalMS > 0) && !raw then
    (DataRateLine.rate
      (toU32 (Int.tdiv ((printStats.goodFrames stats : Int) * 1000) intervalMS))
      (toU32 (Int.tdiv ((stats.totalBytes : Int) * 1000) intervalMS))
      (toU32 (Int.tdiv (Int.tdiv ((stats.totalBytes : Int) * 1000 * 8) intervalMS + 100 - 1) 100 * 100)),
     [intervalMS, intervalMS, intervalMS, 100])
  else
    (DataRateLine.unknown, [])

/-! ## Vocabulary of the statements -/

/-- Whether an output is a row written to the main CSV file by `onFrameReady`
(independent mode). -/
def Output.isMainRow : Output → Bool
  | Output.mainRow _ _ => true
  | _ => false

/-- Whether an output is a merge row written by `outputMergeFrame`. -/
def Output.isMergeRow : Output → Bool
  | Output.mergeRow _ _ => true
  | _ => false

/-- The time column of a merge row. -/
def Output.mergeTime : Output → Option Nat
  | Output.mergeRow m _ => some m.frameTime
  | _ => none

/-- The merge rows of a record, in order. -/
def mergeRows (out : List Output) : List Output := out.filter Output.isMergeRow

/-- The time columns of the merge rows of a record, in order. -/
def mergeRowTimes (out : List Output) : List Nat := out.filterMap Output.mergeTime

/-- Whether an output is a merge row that carries the field snapshot of the main frame
`f`: its main part is what `outputMainFrameFields` produces from `f` for the row's time. -/
def Output.carriesMain (K : parser_h) (log : flightLog_t) (options : decodeOptions_t)
    (f : List Int) : Output → Bool
  | Output.mergeRow m _ => decide (m = outputMainFrameFields K log options m.frameTime f)
  | _ => false

/-- Whether the callback is for a main-stream frame (`'P'` or `'I'`). -/
def FrameCall.isMain (c : FrameCall) : Bool := c.frameType = 'P' || c.frameType = 'I'

/-- Whether the callback is for a positioning frame (`'G'`). -/
def FrameCall.isGPS (c : FrameCall) : Bool := c.frameType = 'G'

/-- Whether the callback is a valid positioning frame. -/
def FrameCall.isValidGPS (c : FrameCall) : Bool := c.isGPS && c.frameValid

/-- The guard under which both callbacks take a main frame:
`frameValid || (frame && options.raw)`. -/
def admitsMain (options : decodeOptions_t) (c : FrameCall) : Bool :=
  c.isMain && (c.frameValid || (c.frame.isSome && options.raw))

/-- A valid main-stream callback that carries the fields `f`, as the parsing engine makes
it: the frame type is `P` or `I`, the frame is non-null and its field sequence has the
length of the main field count. -/
def validMainFrame (log : flightLog_t) (c : FrameCall) (f : List Int) : Prop :=
  c.isMain = true ∧ c.frameValid = true ∧ c.frame = some f
    ∧ c.fieldCount = log.mainFieldCount ∧ f.length = log.mainFieldCount

/-- A valid positioning callback that carries the fields `g`, as the parsing engine makes
it: the frame type is `G`, the frame is non-null and its field sequence has the length of
the GPS field count. -/
def validGPSFrame (log : flightLog_t) (c : FrameCall) (g : List Int) : Prop :=
  c.frameType = 'G' ∧ c.frameValid = true ∧ c.frame = some g
    ∧ c.fieldCount = log.gpsFieldCount ∧ g.length = log.gpsFieldCount

instance instDecidableValidMainFrame (log : flightLog_t) (c : FrameCall) (f : List Int) :
    Decidable (validMainFrame log c f) := by
  unfold validMainFrame; infer_instance

instance instDecidableValidGPSFrame (log : flightLog_t) (c : FrameCall) (g : List Int) :
    Decidable (validGPSFrame log c g) := by
  unfold validGPSFrame; infer_instance

/-- The test of `onFrameReadyMerge` for a positioning frame logged in the same iteration as
the main frame before it. -/
def sameIteration (log : flightLog_t) (lastFrameTime : Nat) (fr : List Int) : Bool :=
  decide (log.gpsFieldIndexes.time = -1)
    || decide (toU32 (rd fr log.gpsFieldIndexes.time) = lastFrameTime)

/-- The local `gpsFrameTime` of `onFrameReadyMerge`. -/
def mergeGpsFrameTime (log : flightLog_t) (lastFrameTime : Nat) (fr : List Int) : Nat :=
  if sameIteration log lastFrameTime fr then lastFrameTime
  else toU32 (rd fr log.gpsFieldIndexes.time)

/-- The merge row that `outputMergeFrame` writes in state `s`. -/
def mergeRowOf (K : parser_h) (log : flightLog_t) (options : decodeOptions_t) (s : State) : Output :=
  Output.mergeRow (outputMainFrameFields K log options s.bufferedFrameTime s.bufferedMainFrame)
    (outputGPSFields log s.bufferedGPSFrame)

/-- The effective timestamp of a frame, in the words of the specification: a main frame
carries its own time; a positioning frame carries its embedded time when the positioning
stream has a time field, and otherwise the time of the most recently seen main frame
(`last`).  The function lists the effective timestamps of the main and positioning frames
of a callback sequence in arrival order. -/
def effectiveTimes (K : parser_h) (log : flightLog_t) (last : Nat) : List FrameCall → List Nat
  | [] => []
  | c :: cs =>
    if c.isGPS then
      (if log.gpsFieldIndexes.time = -1 then last
        else toU32 (rd (c.frame.getD []) log.gpsFieldIndexes.time))
        :: effectiveTimes K log last cs
    else if c.isMain then
      toU32 (rd (c.frame.getD []) (K.FLIGHT_LOG_FIELD_INDEX_TIME : Int))
        :: effectiveTimes K log (toU32 (rd (c.frame.getD []) (K.FLIGHT_LOG_FIELD_INDEX_TIME : Int))) cs
    else effectiveTimes K log last cs

/-- A list of times is in order and bounded by `h`. -/
def OrderedUpTo (l : List Nat) (h : Nat) : Prop :=
  l.Pairwise (· ≤ ·) ∧ ∀ t ∈ l, t ≤ h

/-- The invariant behind the ordering of the merge rows: the rows written so far are in
time order and none is later than the high-water mark `h`; a pending main frame carries the
time `h`, which is also the last main-frame time. -/
def TimeInv (s : State) (h : Nat) : Prop :=
  OrderedUpTo (mergeRowTimes s.out) h
    ∧ (s.haveBufferedMainFrame = true → s.bufferedFrameTime = h ∧ s.lastFrameTime = h)

/-- What follows a stretch of callbacks: the end of the log (`none`) or one more callback. -/
def closeSegment (K : parser_h) (log : flightLog_t) (options : decodeOptions_t) (s : State) :
    Option FrameCall → State
  | none => decodeFlightLog_end K log options s
  | some c => frameReady K log options s c

/-- The number `1` when the first valid positioning frame of `mid` does not take the
same-iteration branch against the main-frame time `last`, and `0` otherwise. -/
def extraFlush (log : flightLog_t) (last : Nat) (mid : List FrameCall) : Nat :=
  match mid.find? FrameCall.isValidGPS with
  | some g => if sameIteration log last (g.frame.getD []) then 0 else 1
  | none => 0

/-! ## Sample data -/

/-- Sample values for the constants of `parser.h`. -/
def exampleConsts : parser_h :=
  { FLIGHT_LOG_MAX_FIELDS := 128, FLIGHT_LOG_FIELD_INDEX_ITERATION := 0, FLIGHT_LOG_FIELD_INDEX_TIME := 1 }

/-- A log with three main fields and four positioning fields, the first of which is the
positioning time. -/
def exampleLog : flightLog_t :=
  { mainFieldCount := 3
    gpsFieldCount := 4
    mainFieldNames := ["loopIteration", "time", "vbatLatest"]
    gpsFieldNames := ["time", "GPS_coord[0]", "GPS_coord[1]", "GPS_altitude"]
    mainFieldSigned := [false, false, false]
    mainFieldIndexes := { vbatLatest := 2 }
    gpsFieldIndexes := { time := 0, GPS_coord0 := 1, GPS_coord1 := 2, GPS_altitude := 3 } }

/-- The default options with `--merge-gps`. -/
def mergeOptions : decodeOptions_t := { mergeGPS := true }

/-- The default options with `--raw`. -/
def rawOptions : decodeOptions_t := { raw := true }

/-- A valid `P` frame of `exampleLog`. -/
def mainCall (iteration time vbat : Int) : FrameCall :=
  { frameValid := true, frame := some [iteration, time, vbat], frameType := 'P', fieldCount := 3 }

/-- A valid `G` frame of `exampleLog`. -/
def gpsCall (time lat lon altitude : Int) : FrameCall :=
  { frameValid := true, frame := some [time, lat, lon, altitude], frameType := 'G', fieldCount := 4 }

/-- The callback for an `I` frame that could not be decoded at all: invalid, with a null
field array. -/
def undecodableFrame : FrameCall := { frameValid := false, frame := none, frameType := 'I', fieldCount := 0 }

/-- A state in which a main frame is waiting to be written. -/
def pendingState : State :=
  { lastFrameTime := 20, bufferedMainFrame := [2, 20, 397], haveBufferedMainFrame := true,
    bufferedFrameTime := 20, bufferedGPSFrame := [10, 515000000, -1270000, 30] }

/-- The statistics of a one-minute log: 29000 frames over 60000 iterations, half of which
were skipped on purpose. -/
def statsOrdinary : flightLogStatistics_t :=
  { totalBytes := 123456
    field := fun i => if i = 1 then { min := 5000000, max := 65000000 } else { min := 0, max := 59999 }
    frame := fun c => if c = 'I' then { bytes := 20000, validCount := 1000 }
      else if c = 'P' then { bytes := 100000, validCount := 28000 } else {}
    intentionallyAbsentIterations := 30000 }

/-- The statistics of a log with a single frame: no time elapses. -/
def statsNoTime : flightLogStatistics_t :=
  { totalBytes := 60
    field := fun i => if i = 1 then { min := 5000000, max := 5000000 } else {}
    frame := fun c => if c = 'I' then { bytes := 60, validCount := 1 } else {} }

/-- The statistics of a log of two frames whose iteration counters are three thousand million
apart. -/
def statsLongSpan : flightLogStatistics_t :=
  { field := fun i => if i = 0 then { min := 0, max := 3000000000 } else {}
    frame := fun c => if c = 'I' then { bytes := 40, validCount := 1 }
      else if c = 'P' then { bytes := 20, validCount := 1 } else {} }

/-- The statistics of a log of 600 megabytes whose time stamps span one second. -/
def statsFastLog : flightLogStatistics_t :=
  { totalBytes := 600000000
    field := fun i => if i = 1 then { min := 0, max := 1000000 } else {} }

/-! ## Formatted output -/

/-- The conversion `%u` of `printf`: the decimal digits of an unsigned value. -/
def fmt_u (n : Nat) : String := Nat.repr n

/-- The conversion `%d` of `printf`: a minus sign for a negative value, then the decimal
digits of the magnitude. -/
def fmt_d (v : Int) : String :=
  if v < 0 then "-" ++ Nat.repr v.natAbs else Nat.repr v.natAbs

/-- A minimum field width of `printf`: the text is preceded by as many copies of `pad` as
it is shorter than `width`. -/
def padLeft (pad : Char) (width : Nat) (text : String) : String :=
  String.mk (List.replicate (width - text.length) pad ++ text.data)

/-- What one `printf` conversion writes.  Integer conversions are text; a floating-point
conversion `%.Nf` is kept as the number of decimals and the exact value of its argument. -/
inductive Printed where
  /-- Literal text. -/
  | text (s : String)
  /-- The conversion `%.Nf` applied to `value`, with `N = decimals`. -/
  | fixed (decimals : Nat) (value : ℚ)
  /-- The conversion `%.2f` applied to one angle of the attitude estimate, in degrees:
  roll (`0`), pitch (`1`) or heading (`2`). -/
  | attitude (axis : Nat)
deriving Repr, DecidableEq

deriving instance DecidableEq for Except

/-- The C function `abs` on an `int`, for an argument other than `INT_MIN`. -/
def c_abs (v : Int) : Int := if v < 0 then -v else v

/-! ## Units and field types -/

/-- The C enumeration `GPSFieldType`. -/
inductive GPSFieldType where
  | GPS_FIELD_TYPE_INTEGER
  | GPS_FIELD_TYPE_DEGREES_TIMES_10
  | GPS_FIELD_TYPE_COORDINATE_DEGREES_TIMES_10000000
  | GPS_FIELD_TYPE_METERS_PER_SECOND_TIMES_100
  | GPS_FIELD_TYPE_METERS
deriving Repr, DecidableEq

/-- The table `UNIT_NAME`. -/
def UNIT_NAME : Unit → String
  | Unit.UNIT_RAW => "raw"
  | Unit.UNIT_METERS_PER_SECOND => "m/s"
  | Unit.UNIT_KILOMETERS_PER_HOUR => "km/h"
  | Unit.UNIT_MILES_PER_HOUR => "mi/h"
  | Unit.UNIT_MILLIVOLTS => "mV"
  | Unit.UNIT_MILLIAMPS => "mA"
  | Unit.UNIT_VOLTS => "V"
  | Unit.UNIT_AMPS => "A"

/-- The static arrays `gpsFieldTypes`, `mainFieldUnit` and `gpsGFieldUnit`, each of
`FLIGHT_LOG_MAX_FIELDS` elements.  A C program starts with all of them zero:
`GPS_FIELD_TYPE_INTEGER` and `UNIT_RAW`. -/
structure Tables where
  gpsFieldTypes : List GPSFieldType
  mainFieldUnit : List Unit
  gpsGFieldUnit : List Unit
deriving Repr, DecidableEq

/-- The tables at program start. -/
def Tables.initial (K : parser_h) : Tables :=
  { gpsFieldTypes := List.replicate K.FLIGHT_LOG_MAX_FIELDS GPSFieldType.GPS_FIELD_TYPE_INTEGER
    mainFieldUnit := List.replicate K.FLIGHT_LOG_MAX_FIELDS Unit.UNIT_RAW
    gpsGFieldUnit := List.replicate K.FLIGHT_LOG_MAX_FIELDS Unit.UNIT_RAW }

/-- The function `convertMetersPerSecondToUnit`, with the arithmetic of `double` taken
exactly (the constant `MILES_PER_METER` is the decimal `0.00062137`).  The two branches
that end in `exit(-1)` return the message written to `stderr`. -/
def convertMetersPerSecondToUnit (meterspersec : ℚ) (unit : Unit) : Except String ℚ :=
  match unit with
  | Unit.UNIT_KILOMETERS_PER_HOUR => Except.ok (meterspersec * 60 * 60 / 1000)
  | Unit.UNIT_MILES_PER_HOUR => Except.ok (meterspersec * (62137 / 100000000) * 60 * 60)
  | Unit.UNIT_METERS_PER_SECOND => Except.ok meterspersec
  | Unit.UNIT_RAW =>
    Except.error "Attempted to convert speed to raw units but this data is already cooked"
  | _ => Except.error "Bad speed unit in conversion"

/-- A writer loop: the columns are written in order, and the first one that ends the
program ends the loop. -/
def printAll {α : Type} (print : α → Except String Printed) : List α → Except String (List Printed)
  | [] => Except.ok []
  | x :: xs =>
    match print x with
    | Except.error e => Except.error e
    | Except.ok col =>
      match printAll print xs with
      | Except.error e => Except.error e
      | Except.ok cols => Except.ok (col :: cols)

/-- The body of the loop of `outputGPSFields` for one field: the text written for the
value `v` of field `i`. -/
def printGPSField (tables : Tables) (options : decodeOptions_t) (i : Nat) (v : Int) :
    Except String Printed :=
  match tables.gpsFieldTypes.getD i GPSFieldType.GPS_FIELD_TYPE_INTEGER with
  | GPSFieldType.GPS_FIELD_TYPE_COORDINATE_DEGREES_TIMES_10000000 =>
    Except.ok (Printed.text
      (fmt_d (Int.tdiv v 10000000) ++ "." ++ padLeft '0' 7 (fmt_u (toU32 (Int.tmod (c_abs v) 10000000)))))
  | GPSFieldType.GPS_FIELD_TYPE_DEGREES_TIMES_10 =>
    Except.ok (Printed.text
      (fmt_d (Int.tdiv v 10) ++ "." ++ padLeft '0' 1 (fmt_u (toU32 (Int.tmod (c_abs v) 10)))))
  | GPSFieldType.GPS_FIELD_TYPE_METERS_PER_SECOND_TIMES_100 =>
    if options.unitGPSSpeed = Unit.UNIT_RAW then
      Except.ok (Printed.text (fmt_d v))
    else if options.unitGPSSpeed = Unit.UNIT_METERS_PER_SECOND then
      Except.ok (Printed.text
        (fmt_d (Int.tdiv v 100) ++ "." ++ padLeft '0' 2 (fmt_u (toU32 (Int.tmod (c_abs v) 100)))))
    else
      (convertMetersPerSecondToUnit ((v : ℚ) / 100) options.unitGPSSpeed).map (Printed.fixed 2)
  | GPSFieldType.GPS_FIELD_TYPE_METERS => Except.ok (Printed.text (fmt_d v))
  | GPSFieldType.GPS_FIELD_TYPE_INTEGER => Except.ok (Printed.text (fmt_d v))

/-- The text of one cell of a positioning row. -/
def printGPSCell (tables : Tables) (options : decodeOptions_t) : Cell → Except String Printed
  | Cell.field i v => printGPSField tables options i v
  | Cell.time t => Except.ok (Printed.text (fmt_u t))
  | Cell.timeUnknown => Except.ok (Printed.text "X")

/-- Modelled from the spec: the two scalar transforms of the parsing engine (declared in
`parser.h`, absent from the translated file) that turn an ADC code into millivolts and
into milliamps with the calibration parameters of the log.  They are parameters of the
development. -/
structure Calibration where
  flightLogVbatADCToMillivolts : Nat → Nat
  flightLogAmperageADCToMilliamps : Nat → Int

/-- The conversion `(uint16_t) frame[i]`. -/
def toU16 (v : Int) : Nat := (v % 65536).toNat

/-- The body of the loop of `outputMainFrameFields` for a field other than the time: the
switch on `mainFieldUnit[i]`.  A unit that does not belong to the field ends the program
(`exit(-1)`); the result is then the message written to `stderr`. -/
def printMainField (cal : Calibration) (tables : Tables) (log : flightLog_t)
    (options : decodeOptions_t) (i : Nat) (v : Int) : Except String Printed :=
  match tables.mainFieldUnit.getD i Unit.UNIT_RAW with
  | Unit.UNIT_VOLTS =>
    if Int.ofNat i ≠ log.mainFieldIndexes.vbatLatest then
      Except.error ("Bad unit for field " ++ fmt_u i)
    else
      Except.ok (Printed.fixed 3 ((cal.flightLogVbatADCToMillivolts (toU16 v) : ℚ) / 1000))
  | Unit.UNIT_AMPS =>
    if Int.ofNat i ≠ log.mainFieldIndexes.amperageLatest then
      Except.error ("Bad unit for field " ++ fmt_u i)
    else
      Except.ok (Printed.fixed 3 ((cal.flightLogAmperageADCToMilliamps (toU16 v) : ℚ) / 1000))
  | Unit.UNIT_MILLIVOLTS =>
    if Int.ofNat i ≠ log.mainFieldIndexes.vbatLatest then
      Except.error ("Bad unit for field " ++ fmt_u i)
    else
      Except.ok (Printed.text (fmt_u (cal.flightLogVbatADCToMillivolts (toU16 v))))
  | Unit.UNIT_MILLIAMPS =>
    if Int.ofNat i ≠ log.mainFieldIndexes.amperageLatest then
      Except.error ("Bad unit for field " ++ fmt_u i)
    else
      Except.ok (Printed.text (fmt_u (toU32 (cal.flightLogAmperageADCToMilliamps (toU16 v)))))
  | _ =>
    if log.mainFieldSigned.getD i false || options.raw then
      Except.ok (Printed.text (padLeft ' ' 3 (fmt_d v)))
    else
      Except.ok (Printed.text (padLeft ' ' 3 (fmt_u (toU32 v))))

/-- The text of one cell of a main row: `X` for an unknown time, `%u` for a known one, and
the switch on the unit for any other field. -/
def printMainCell (cal : Calibration) (tables : Tables) (log : flightLog_t)
    (options : decodeOptions_t) : Cell → Except String Printed
  | Cell.timeUnknown => Except.ok (Printed.text "X")
  | Cell.time t => Except.ok (Printed.text (fmt_u t))
  | Cell.field i v => printMainField cal tables log options i v

/-- The function `outputMainFrameFields`, as text: the columns written for the cells of a
main row, followed by the three attitude columns when they are present, or the message of
the fatal error that stops the program. -/
def renderMainFrameFields (cal : Calibration) (tables : Tables) (log : flightLog_t)
    (options : decodeOptions_t) (m : MainFields) : Except String (List Printed) :=
  (printAll (printMainCell cal tables log options) m.cells).map
    (fun cols => cols ++ (if m.attitude then
      [Printed.attitude 0, Printed.attitude 1, Printed.attitude 2] else []))

/-- The columns of a merge row as `outputMergeFrame` writes them: the main columns, then
the positioning columns. -/
def renderMergeRow (cal : Calibration) (tables : Tables) (log : flightLog_t)
    (options : decodeOptions_t) (m : MainFields) (gps : List Cell) :
    Except String (List Printed) :=
  match renderMainFrameFields cal tables log options m with
  | Except.error e => Except.error e
  | Except.ok cols =>
    (printAll (printGPSCell tables options) gps).map (fun more => cols ++ more)

/-- The text of a row of the main CSV file; other outputs have none. -/
def renderRow (cal : Calibration) (tables : Tables) (log : flightLog_t)
    (options : decodeOptions_t) : Output → Option (Except String (List Printed))
  | Output.mainRow m _ => some (renderMainFrameFields cal tables log options m)
  | Output.mergeRow m gps => some (renderMergeRow cal tables log options m gps)
  | _ => none

/-! ## Metadata -/

/-- The chain of `strcmp` tests of `identifyGPSFields` for one field name. -/
def identifyGPSField (fieldName : String) : GPSFieldType :=
  if fieldName = "GPS_coord[0]" then GPSFieldType.GPS_FIELD_TYPE_COORDINATE_DEGREES_TIMES_10000000
  else if fieldName = "GPS_coord[1]" then GPSFieldType.GPS_FIELD_TYPE_COORDINATE_DEGREES_TIMES_10000000
  else if fieldName = "GPS_altitude" then GPSFieldType.GPS_FIELD_TYPE_METERS
  else if fieldName = "GPS_speed" then GPSFieldType.GPS_FIELD_TYPE_METERS_PER_SECOND_TIMES_100
  else if fieldName = "GPS_ground_course" then GPSFieldType.GPS_FIELD_TYPE_DEGREES_TIMES_10
  else GPSFieldType.GPS_FIELD_TYPE_INTEGER

/-- The function `identifyGPSFields`: the entries of `gpsFieldTypes` below `gpsFieldCount`
are set from the field names; the other entries keep their value. -/
def identifyGPSFields (log : flightLog_t) (gpsFieldTypes : List GPSFieldType) :
    List GPSFieldType :=
  (List.range log.gpsFieldCount).foldl
    (fun types i => types.set i (identifyGPSField (log.gpsFieldNames.getD i ""))) gpsFieldTypes

/-- The assignment `table[index] = unit` guarded by `index > -1`. -/
def setUnit (table : List Unit) (index : Int) (unit : Unit) : List Unit :=
  if index > -1 then table.set index.toNat unit else table

/-- The function `applyFieldUnits`: both unit tables are cleared to `UNIT_RAW`, then the
three configured units are stored; all three assignments go to `mainFieldUnit`. -/
def applyFieldUnits (K : parser_h) (log : flightLog_t) (options : decodeOptions_t)
    (tables : Tables) : Tables :=
  let cleared : List Unit := List.replicate K.FLIGHT_LOG_MAX_FIELDS Unit.UNIT_RAW
  let m1 := setUnit cleared log.mainFieldIndexes.vbatLatest options.unitVbat
  let m2 := setUnit m1 log.mainFieldIndexes.amperageLatest options.unitAmperage
  let m3 := setUnit m2 log.gpsFieldIndexes.GPS_speed options.unitGPSSpeed
  { tables with mainFieldUnit := m3, gpsGFieldUnit := cleared }

/-- The title of a column: the field name, followed by the unit in parentheses when the
unit is not `UNIT_RAW`. -/
def columnTitle (name : String) (unit : Unit) : String :=
  if unit ≠ Unit.UNIT_RAW then name ++ " (" ++ UNIT_NAME unit ++ ")" else name

/-- The function `outputGPSFieldNamesHeader`: the titles of the GPS columns, the time
field left out. -/
def outputGPSFieldNamesHeader (tables : Tables) (log : flightLog_t) : List String :=
  ((List.range log.gpsFieldCount).filter
      (fun (i : Nat) => decide (Int.ofNat i ≠ log.gpsFieldIndexes.time))).map
    (fun i => columnTitle (log.gpsFieldNames.getD i "") (tables.gpsGFieldUnit.getD i Unit.UNIT_RAW))

/-- The function `writeMainCSVHeader`: the titles of the columns of the main CSV file. -/
def writeMainCSVHeader (tables : Tables) (log : flightLog_t) (options : decodeOptions_t) :
    List String :=
  (List.range log.mainFieldCount).map
      (fun i => columnTitle (log.mainFieldNames.getD i "") (tables.mainFieldUnit.getD i Unit.UNIT_RAW))
    ++ (if options.simulateIMU then ["roll", "pitch", "heading"] else [])
    ++ (if mergedMode log options then outputGPSFieldNamesHeader tables log else [])

/-- What `onMetadataReady` leaves behind: the options (it may clear `simulateIMU`), the
tables, and the header line it wrote, if any. -/
structure Metadata where
  options : decodeOptions_t
  tables : Tables
  header : Option (List String)
deriving Repr, DecidableEq

/-- The function `onMetadataReady`. -/
def onMetadataReady (K : parser_h) (log : flightLog_t) (options : decodeOptions_t)
    (tables : Tables) : Metadata :=
  if log.mainFieldCount = 0 then
    { options := options, tables := tables, header := none }
  else
    let options1 : decodeOptions_t :=
      if options.simulateIMU
          && (decide (log.mainFieldIndexes.accSmooth0 = -1) || decide (log.mainFieldIndexes.gyroData0 = -1))
      then { options with simulateIMU := false } else options
    let tables1 : Tables := { tables with gpsFieldTypes := identifyGPSFields log tables.gpsFieldTypes }
    let tables2 := applyFieldUnits K log options1 tables1
    { options := options1, tables := tables2, header := some (writeMainCSVHeader tables2 log options1) }

/-- Modelled from the spec: the callback contract of the parsing engine for one log, one
metadata-ready call followed by the frame-ready calls, inside `decodeFlightLog`.  The
result is what metadata-ready left behind and the state after the end-of-log flush. -/
def decodeFlightLog_withMetadata (K : parser_h) (log : flightLog_t) (options : decodeOptions_t)
    (tables : Tables) (s : State) (calls : List FrameCall) : Metadata × State :=
  (onMetadataReady K log options tables,
   decodeFlightLog K log (onMetadataReady K log options tables).options s calls)

/-! ## Unit options -/

/-- The function `striequals`: equality of two C strings up to the case of ASCII letters. -/
def striequals (first second : String) : Bool :=
  first.data.map Char.toLower == second.data.map Char.toLower

/-- The speed units: the targets that `convertMetersPerSecondToUnit` supports. -/
def isSpeedUnit : Unit → Bool
  | Unit.UNIT_METERS_PER_SECOND => true
  | Unit.UNIT_KILOMETERS_PER_HOUR => true
  | Unit.UNIT_MILES_PER_HOUR => true
  | _ => false

/-- Whether a computation ended in `exit(-1)`. -/
def isFatal {α : Type} : Except String α → Bool
  | Except.error _ => true
  | Except.ok _ => false

/-- The value of a string of decimal digits; `none` when the string is empty or holds
another character. -/
def readDigits : List Char → Option Nat
  | [] => none
  | cs => cs.foldl
      (fun acc c => match acc with
        | some n => if c.isDigit then some (10 * n + (c.toNat - 48)) else none
        | none => none) (some 0)

/-- The number that a text of the form `[-]digits.digits` denotes, multiplied by `10 ^ k`,
for a text with exactly `k` digits after the point; `none` for any other text. -/
def readDecimalTimes (k : Nat) (text : String) : Option Int :=
  let negative := text.data.head? = some '-'
  let body := if negative then text.data.drop 1 else text.data
  let whole := body.takeWhile (fun c => c ≠ '.')
  let fraction := (body.dropWhile (fun c => c ≠ '.')).drop 1
  if fraction.length = k then
    match readDigits whole, readDigits fraction with
    | some a, some b =>
      some ((if negative then -1 else 1) * (Int.ofNat a * 10 ^ k + Int.ofNat b))
    | _, _ => none
  else none

/-- The tables of a log whose positioning field `0` is a coordinate. -/
def coordinateTables : Tables :=
  { gpsFieldTypes := [GPSFieldType.GPS_FIELD_TYPE_COORDINATE_DEGREES_TIMES_10000000]
    mainFieldUnit := []
    gpsGFieldUnit := [] }

/-- A log with six main fields and five positioning fields; the GPS speed is positioning
field `4`, the battery voltage main field `2` and the current main field `3`. -/
def exampleLogWithSpeed : flightLog_t :=
  { mainFieldCount := 6
    gpsFieldCount := 5
    mainFieldNames := ["loopIteration", "time", "vbatLatest", "amperageLatest", "rcCommand[0]",
      "rcCommand[1]"]
    gpsFieldNames := ["time", "GPS_coord[0]", "GPS_coord[1]", "GPS_altitude", "GPS_speed"]
    mainFieldSigned := [false, false, false, false, true, true]
    mainFieldIndexes := { vbatLatest := 2, amperageLatest := 3 }
    gpsFieldIndexes := { time := 0, GPS_coord0 := 1, GPS_coord1 := 2, GPS_altitude := 3,
                         GPS_speed := 4 } }

/-- A log whose header names the latitude and the altitude but not the longitude. -/
def exampleLogNoLongitude : flightLog_t :=
  { mainFieldCount := 3
    gpsFieldCount := 3
    mainFieldNames := ["loopIteration", "time", "vbatLatest"]
    gpsFieldNames := ["time", "GPS_coord[0]", "GPS_altitude"]
    mainFieldSigned := [false, false, false]
    mainFieldIndexes := { vbatLatest := 2 }
    gpsFieldIndexes := { time := 0, GPS_coord0 := 1, GPS_coord1 := -1, GPS_altitude := 2 } }

/-- A valid `G` frame of `exampleLogNoLongitude`. -/
def gpsCallNoLongitude : FrameCall :=
  { frameValid := true, frame := some [1500, 515000000, 30], frameType := 'G', fieldCount := 3 }

/-- A calibration: 11 millivolts and 10 milliamps per ADC step. -/
def exampleCalibration : Calibration :=
  { flightLogVbatADCToMillivolts := fun adc => 11 * adc
    flightLogAmperageADCToMilliamps := fun adc => 10 * (adc : Int) }


/-! ## Vocabulary of the statements on time columns and the estimator -/

/-- The main columns of a row of the main CSV file. -/
def Output.mainFields : Output → Option MainFields
  | Output.mainRow m _ => some m
  | Output.mergeRow m _ => some m
  | _ => none

/-- Whether an output is a row of the main CSV file whose time column is the marker `X`. -/
def Output.timeUnknown (o : Output) : Bool :=
  match o.mainFields with
  | some m => decide (Cell.timeUnknown ∈ m.cells)
  | none => false

/-- Whether an output is a row of the main CSV file that carries the attitude columns. -/
def Output.hasAttitude (o : Output) : Bool :=
  match o.mainFields with
  | some m => m.attitude
  | none => false

/-- The samples handed to the attitude estimator by an output that is a call of it. -/
def Output.imuSample : Output → Option (List Int × List Int × Option (List Int))
  | Output.imuUpdate gyroData accSmooth magADC _ => some (gyroData, accSmooth, magADC)
  | _ => none

/-- The samples that `updateIMU` takes from a frame. -/
def imuSampleOf (log : flightLog_t) (options : decodeOptions_t) (frame : List Int) :
    Option (List Int × List Int × Option (List Int)) :=
  (updateIMU_call log options frame 0).imuSample

/-- A log without any field: its header is missing. -/
def emptyLog : flightLog_t := {}

/-- A log whose positioning stream has no time field. -/
def exampleLogNoGpsTime : flightLog_t :=
  { mainFieldCount := 3
    gpsFieldCount := 3
    mainFieldNames := ["loopIteration", "time", "vbatLatest"]
    gpsFieldNames := ["GPS_coord[0]", "GPS_coord[1]", "GPS_altitude"]
    mainFieldSigned := [false, false, false]
    mainFieldIndexes := { vbatLatest := 2 }
    gpsFieldIndexes := { time := -1, GPS_coord0 := 0, GPS_coord1 := 1, GPS_altitude := 2 } }

/-- The default options with `--raw` and `--simulate-imu`. -/
def rawImuOptions : decodeOptions_t := { raw := true, simulateIMU := true }

/-- The default options with `--simulate-imu`. -/
def imuOptions : decodeOptions_t := { simulateIMU := true }

/-- An invalid `P` frame whose field array is not null, as raw mode receives it. -/
def invalidMainCall (iteration time vbat : Int) : FrameCall :=
  { frameValid := false, frame := some [iteration, time, vbat], frameType := 'P', fieldCount := 3 }

/-- A log with gyroscope and accelerometer fields. -/
def exampleLogWithImu : flightLog_t :=
  { mainFieldCount := 8
    gpsFieldCount := 0
    mainFieldNames := ["loopIteration", "time", "gyroData[0]", "gyroData[1]", "gyroData[2]",
      "accSmooth[0]", "accSmooth[1]", "accSmooth[2]"]
    mainFieldSigned := [false, false, true, true, true, true, true, true]
    mainFieldIndexes := { gyroData0 := 2, gyroData1 := 3, gyroData2 := 4,
                          accSmooth0 := 5, accSmooth1 := 6, accSmooth2 := 7 } }

/-- A valid `P` frame of `exampleLogWithImu`: iteration, time, three gyroscope rates and three
accelerations. -/
def imuMainCall (iteration time : Int) (gyro acc : Int) : FrameCall :=
  { frameValid := true, frame := some [iteration, time, gyro, 0, 0, 0, 0, acc],
    frameType := 'P', fieldCount := 8 }

/-- An invalid `P` frame of `exampleLogWithImu` whose field array is not null. -/
def invalidImuCall (iteration time : Int) (gyro acc : Int) : FrameCall :=
  { frameValid := false, frame := some [iteration, time, gyro, 0, 0, 0, 0, acc],
    frameType := 'P', fieldCount := 8 }

/-- A valid `G` frame of `exampleLogNoGpsTime`. -/
def gpsCallNoTime (lat lon altitude : Int) : FrameCall :=
  { frameValid := true, frame := some [lat, lon, altitude], frameType := 'G', fieldCount := 3 }

/-! ## Vocabulary of the statements on tracks, runs and counts -/

/-- The arguments of a call of the track writer. -/
def Output.trackPoint : Output → Option (Nat × Int × Int × Int)
  | Output.gpxPoint t lat lon altitude => some (t, lat, lon, altitude)
  | _ => none

/-- The time and the cells of a row of the GPS CSV file. -/
def Output.gpsRowOf : Output → Option (Nat × List Cell)
  | Output.gpsRow t gps => some (t, gps)
  | _ => none

/-- The loop of `main` over the logs of one run: each log is decoded in turn, the engine
calling metadata-ready and then the frame callbacks; the options, the tables and the
variables of the module are those that the log before left behind.  The result lists, for
each log, what metadata-ready left and the state at the end of the log. -/
def decodeLogs (K : parser_h) (options : decodeOptions_t) (tables : Tables) (s : State) :
    List (flightLog_t × List FrameCall) → List (Metadata × State)
  | [] => []
  | (log, calls) :: rest =>
    (decodeFlightLog_withMetadata K log options tables s calls)
      :: decodeLogs K (decodeFlightLog_withMetadata K log options tables s calls).1.options
          (decodeFlightLog_withMetadata K log options tables s calls).1.tables
          (decodeFlightLog_withMetadata K log options tables s calls).2 rest

/-- Whether an output is a record of the log: a row of the main CSV file or of the GPS CSV
file, or a track point. -/
def Output.isRecord : Output → Bool
  | Output.mainRow _ _ => true
  | Output.mergeRow _ _ => true
  | Output.gpsRow _ _ => true
  | Output.gpxPoint _ _ _ _ => true
  | _ => false

/-- The frames that the callbacks take: a main frame under the guard
`frameValid || (frame && options.raw)`, a positioning frame under the guard `frameValid`. -/
def takesFrame (options : decodeOptions_t) (c : FrameCall) : Bool :=
  admitsMain options c || c.isValidGPS

/-- An invalid `G` frame of `exampleLog` whose field array is not null. -/
def invalidGpsCall (time lat lon altitude : Int) : FrameCall :=
  { frameValid := false, frame := some [time, lat, lon, altitude], frameType := 'G', fieldCount := 4 }

/-- Whether a callback sets `lastFrameTime`: in merged mode a valid main frame, in
independent mode a main frame under the guard `frameValid || (frame && options.raw)`. -/
def setsLastFrameTime (log : flightLog_t) (options : decodeOptions_t) (c : FrameCall) : Bool :=
  if mergedMode log options then c.isMain && c.frameValid else admitsMain options c

/-- The time field of the last callback of a sequence that sets `lastFrameTime`, and `last`
when there is none. -/
def lastSeenMainTime (K : parser_h) (log : flightLog_t) (options : decodeOptions_t)
    (last : Nat) : List FrameCall → Nat
  | [] => last
  | c :: cs =>
    lastSeenMainTime K log options
      (if setsLastFrameTime log options c
        then toU32 (rd (c.frame.getD []) (K.FLIGHT_LOG_FIELD_INDEX_TIME : Int)) else last) cs

/-- Whether `createGPSCSVFile` leaves the GPS CSV file open: it is open already, or it has
a name and can be created. -/
def gpsCsvAvailable (s : State) : Bool :=
  s.gpsCsvFile || (s.gpsCsvFilename && s.fopenGpsCsv)

/-- The number of valid positioning frames of a callback sequence that arrive while a main
frame is buffered and take the same-iteration branch (the positioning stream has no time
field, or the embedded time equals the last main-frame time).  `buffered` tells whether a
main frame is buffered before the sequence and `last` is the last main-frame time before it:
a main frame that is taken becomes the buffered one, a valid main frame sets the last
main-frame time, and a valid positioning frame leaves no main frame buffered. -/
def sameIterationMerges (K : parser_h) (log : flightLog_t) (options : decodeOptions_t)
    (buffered : Bool) (last : Nat) : List FrameCall → Nat
  | [] => 0
  | c :: cs =>
    if c.isValidGPS then
      (if buffered && sameIteration log last (c.frame.getD []) then 1 else 0)
        + sameIterationMerges K log options false last cs
    else if admitsMain options c then
      sameIterationMerges K log options true
        (if c.frameValid then toU32 (rd (c.frame.getD []) (K.FLIGHT_LOG_FIELD_INDEX_TIME : Int))
          else last) cs
    else sameIterationMerges K log options buffered last cs

/-- The form of the rows of the main CSV file of a log: in independent mode a row is written
by `onFrameReady` from `outputMainFrameFields`, with the debug suffix only in debug mode; in
merged mode a row is written by `outputMergeFrame` from `outputMainFrameFields` and
`outputGPSFields`.  Other outputs are not concerned. -/
def Output.rowOfLog (K : parser_h) (log : flightLog_t) (options : decodeOptions_t) :
    Output → Prop
  | Output.mainRow m d =>
    mergedMode log options = false
      ∧ (∃ t f, m = outputMainFrameFields K log options t f)
      ∧ (options.debug = false → d = none)
  | Output.mergeRow m g =>
    mergedMode log options = true
      ∧ (∃ t f, m = outputMainFrameFields K log options t f)
      ∧ ∃ gf, g = outputGPSFields log gf
  | _ => True

/-- One division (or remainder) that `printStats` executes, with its divisor. -/
inductive StatDivision where
  /-- A division or remainder by the constant 1000 or 60 that splits a time into minutes,
  seconds and milliseconds. -/
  | timeSplit (divisor : Int)
  /-- The average frame size of one frame type: `bytes / validCount`. -/
  | frameAverage (frameType : Char) (divisor : Int)
  /-- The average size of the main frames: `goodBytes / goodFrames`. -/
  | overallAverage (divisor : Int)
  /-- A division of the data-rate line. -/
  | dataRate (divisor : Int)
  /-- The duration and the percentage of the missing iterations. -/
  | missingShare (divisor : Int)
  /-- The duration and the percentage of the iterations left out on purpose. -/
  | absentShare (divisor : Int)
deriving Repr, DecidableEq

/-- The divisor of a division. -/
def StatDivision.divisor : StatDivision → Int
  | StatDivision.timeSplit d => d
  | StatDivision.frameAverage _ d => d
  | StatDivision.overallAverage d => d
  | StatDivision.dataRate d => d
  | StatDivision.missingShare d => d
  | StatDivision.absentShare d => d

/-- The divisions and remainders that `printStats` executes, in program order: the interval
in milliseconds, the three times split into minutes, seconds and milliseconds, the average
size of each frame type with a non-zero valid count, the average size of the main frames
when there is one, the data-rate line, and the durations and percentages of the missing and
of the intentionally absent iterations under their guards. -/
def printStats.divisions (K : parser_h) (stats : flightLogStatistics_t) (raw : Bool) :
    List StatDivision :=
  let split : List StatDivision :=
    [StatDivision.timeSplit 1000, StatDivision.timeSplit 1000, StatDivision.timeSplit 60,
      StatDivision.timeSplit 60]
  let totalFrames : Int := (printStats.totalFrames K stats : Int)
  let missingFrames : Int := printStats.missingFrames K stats
  [StatDivision.timeSplit 1000] ++ split
    ++ [StatDivision.timeSplit 1000] ++ split
    ++ [StatDivision.timeSplit 1000] ++ split
    ++ (['I', 'P', 'H', 'G', 'E'].filter (fun ty => decide ((stats.frame ty).validCount ≠ 0))).map
        (fun ty => StatDivision.frameAverage ty ((stats.frame ty).validCount : Int))
    ++ (if printStats.goodFrames stats ≠ 0 then
        [StatDivision.overallAverage (printStats.goodFrames stats : Int)] else [])
    ++ (printStats.dataRate K stats raw).2.map StatDivision.dataRate
    ++ (if totalFrames ≠ 0 ∧ (stats.totalCorruptFrames ≠ 0 ∨ missingFrames ≠ 0
            ∨ stats.intentionallyAbsentIterations ≠ 0) then
        (if missingFrames ≠ 0 then
          [StatDivision.missingShare totalFrames, StatDivision.missingShare totalFrames] else [])
        ++ (if stats.intentionallyAbsentIterations ≠ 0 then
          [StatDivision.absentShare totalFrames, StatDivision.absentShare totalFrames] else [])
      else [])

/-! ## Machine integers -/

theorem toI32_of_range (v : Int) (h1 : -2147483648 ≤ v) (h2 : v < 2147483648) : toI32 v = v := by
  unfold toI32; omega

theorem toI32_toU32_sub (a b c : Int) :
    toI32 ((toU32 a : Int) - (toU32 b : Int) - c) = toI32 (a - b - c) := by
  unfold toI32 toU32
  have ha : ((a % 4294967296).toNat : Int) = a % 4294967296 := Int.toNat_of_nonneg (by omega)
  have hb : ((b % 4294967296).toNat : Int) = b % 4294967296 := Int.toNat_of_nonneg (by omega)
  rw [ha, hb]; omega

theorem toU32_natCast_of_lt (n : Nat) (h : n < 4294967296) : toU32 (n : Int) = n := by
  unfold toU32
  rw [Int.emod_eq_of_lt (by omega) (by omega)]
  exact Int.toNat_natCast n

theorem toU32_zero : toU32 0 = 0 := by decide

theorem toU32_ten : toU32 10 = 10 := by decide

theorem toU32_twenty : toU32 20 = 20 := by decide

/-- The baud expression of `printStats`, before its conversion to `unsigned int`, is the
natural-number rounding of the bit rate. -/
theorem baud_expr_eq (totalBytes intervalMS : Nat) :
    Int.tdiv (Int.tdiv ((totalBytes : Int) * 1000 * 8) (intervalMS : Int) + 100 - 1) 100 * 100
      = (((totalBytes * 8 * 1000 / intervalMS + 99) / 100 * 100 : Nat) : Int) := by
  have h1 : Int.tdiv ((totalBytes : Int) * 1000 * 8) (intervalMS : Int)
      = ((totalBytes * 8 * 1000 / intervalMS : Nat) : Int) := by
    rw [Int.tdiv_eq_ediv (by positivity) (by positivity)]
    push_cast
    ring_nf
  rw [h1]
  generalize totalBytes * 8 * 1000 / intervalMS = v
  have h2 : (0:Int) ≤ (v : Int) + 100 - 1 := by omega
  rw [Int.tdiv_eq_ediv h2 (by norm_num)]
  push_cast
  omega

/-! ## Buffers -/

theorem getD_memcpy (dst src : List Int) (n i : Nat) (hi : i < n) (hn : n ≤ src.length) :
    (memcpy dst src n).getD i 0 = src.getD i 0 := by
  unfold memcpy
  have h1 : i < (src.take n).length := by rw [List.length_take]; omega
  rw [List.getD_eq_getElem?_getD, List.getD_eq_getElem?_getD, List.getElem?_append_left h1,
    List.getElem?_take]
  simp [hi]

theorem outputGPSFields_memcpy (log : flightLog_t) (dst src : List Int) (n : Nat)
    (h1 : log.gpsFieldCount ≤ n) (h2 : n ≤ src.length) :
    outputGPSFields log (memcpy dst src n) = outputGPSFields log src := by
  unfold outputGPSFields
  apply List.map_congr_left
  intro i hi
  have : i < log.gpsFieldCount := by
    have := (List.mem_filter.mp hi).1
    exact List.mem_range.mp this
  rw [getD_memcpy dst src n i (by omega) h2]

theorem outputMainFrameFields_memcpy (K : parser_h) (log : flightLog_t) (options : decodeOptions_t)
    (t : Nat) (dst src : List Int) (n : Nat)
    (h1 : log.mainFieldCount ≤ n) (h2 : n ≤ src.length) :
    outputMainFrameFields K log options t (memcpy dst src n)
      = outputMainFrameFields K log options t src := by
  unfold outputMainFrameFields
  congr 1
  apply List.map_congr_left
  intro i hi
  have : i < log.mainFieldCount := List.mem_range.mp hi
  rw [getD_memcpy dst src n i (by omega) h2]

theorem outputGPSFields_cleared (log : flightLog_t) (n : Nat) :
    ∀ cell ∈ outputGPSFields log (memset0 n), ∃ i, cell = Cell.field i 0 := by
  intro cell hcell
  simp only [outputGPSFields, List.mem_map] at hcell
  obtain ⟨i, -, rfl⟩ := hcell
  refine ⟨i, ?_⟩
  congr 1
  simp only [memset0, List.getD_eq_getElem?_getD]
  by_cases hi : i < n
  · simp [List.getElem?_replicate, hi]
  · simp [List.getElem?_replicate, hi]

/-! ## Reading the record -/

@[simp]
theorem isMainRow_mainRow (m : MainFields) (d : Option (Char × Int × Int)) :
    Output.isMainRow (Output.mainRow m d) = true := rfl

@[simp]
theorem isMainRow_mergeRow (m : MainFields) (g : List Cell) :
    Output.isMainRow (Output.mergeRow m g) = false := rfl

@[simp]
theorem isMainRow_diagnostic (b : Bool) (t : Char) (o z : Int) :
    Output.isMainRow (Output.diagnostic b t o z) = false := rfl

@[simp]
theorem isMainRow_gpsHeader : Output.isMainRow Output.gpsHeader = false := rfl

@[simp]
theorem isMainRow_gpsRow (t : Nat) (g : List Cell) :
    Output.isMainRow (Output.gpsRow t g) = false := rfl

@[simp]
theorem isMainRow_gpxPoint (t : Nat) (a b c : Int) :
    Output.isMainRow (Output.gpxPoint t a b c) = false := rfl

@[simp]
theorem isMergeRow_mainRow (m : MainFields) (d : Option (Char × Int × Int)) :
    Output.isMergeRow (Output.mainRow m d) = false := rfl

@[simp]
theorem isMergeRow_mergeRow (m : MainFields) (g : List Cell) :
    Output.isMergeRow (Output.mergeRow m g) = true := rfl

@[simp]
theorem isMergeRow_diagnostic (b : Bool) (t : Char) (o z : Int) :
    Output.isMergeRow (Output.diagnostic b t o z) = false := rfl

@[simp]
theorem isMergeRow_gpsHeader : Output.isMergeRow Output.gpsHeader = false := rfl

@[simp]
theorem isMergeRow_gpsRow (t : Nat) (g : List Cell) :
    Output.isMergeRow (Output.gpsRow t g) = false := rfl

@[simp]
theorem isMergeRow_gpxPoint (t : Nat) (a b c : Int) :
    Output.isMergeRow (Output.gpxPoint t a b c) = false := rfl

@[simp]
theorem updateIMU_call_isMainRow (log : flightLog_t) (options : decodeOptions_t)
    (frame : List Int) (t : Nat) : Output.isMainRow (updateIMU_call log options frame t) = false := rfl

@[simp]
theorem updateIMU_call_isMergeRow (log : flightLog_t) (options : decodeOptions_t)
    (frame : List Int) (t : Nat) : Output.isMergeRow (updateIMU_call log options frame t) = false := rfl

@[simp]
theorem isMergeRow_mergeRowOf (K : parser_h) (log : flightLog_t) (options : decodeOptions_t)
    (s : State) : Output.isMergeRow (mergeRowOf K log options s) = true := rfl

@[simp]
theorem mergeTime_updateIMU_call (log : flightLog_t) (options : decodeOptions_t)
    (frame : List Int) (t : Nat) : Output.mergeTime (updateIMU_call log options frame t) = none := rfl

@[simp]
theorem mergeTime_mergeRow (m : MainFields) (g : List Cell) :
    Output.mergeTime (Output.mergeRow m g) = some m.frameTime := rfl

@[simp]
theorem mergeTime_gpxPoint (t : Nat) (a b c : Int) :
    Output.mergeTime (Output.gpxPoint t a b c) = none := rfl

@[simp]
theorem mergeTime_mergeRowOf (K : parser_h) (log : flightLog_t) (options : decodeOptions_t)
    (s : State) : Output.mergeTime (mergeRowOf K log options s) = some s.bufferedFrameTime := rfl

theorem mergeRowTimes_append (a b : List Output) :
    mergeRowTimes (a ++ b) = mergeRowTimes a ++ mergeRowTimes b := by
  simp [mergeRowTimes, List.filterMap_append]

theorem mergeRowTimes_imu (log : flightLog_t) (options : decodeOptions_t) (fr : List Int)
    (t : Nat) (b : Bool) :
    mergeRowTimes (if b then [updateIMU_call log options fr t] else []) = [] := by
  cases b <;> simp [mergeRowTimes]

theorem mergeRowTimes_gpx (p : Prop) [Decidable p] (t : Nat) (x y z : Int) :
    mergeRowTimes (if p then [Output.gpxPoint t x y z] else []) = [] := by
  by_cases h : p <;> simp [mergeRowTimes, h]

theorem mergeRowTimes_flush (K : parser_h) (log : flightLog_t) (options : decodeOptions_t)
    (s : State) (b : Bool) :
    mergeRowTimes (if b then [mergeRowOf K log options s] else [])
      = if b then [s.bufferedFrameTime] else [] := by
  cases b <;> simp [mergeRowTimes]

theorem mergeRows_append (a b : List Output) : mergeRows (a ++ b) = mergeRows a ++ mergeRows b := by
  simp [mergeRows]

theorem mergeRows_imu (log : flightLog_t) (options : decodeOptions_t) (fr : List Int)
    (t : Nat) (b : Bool) :
    mergeRows (if b then [updateIMU_call log options fr t] else []) = [] := by
  cases b <;> simp [mergeRows]

theorem mergeRows_gpx (p : Prop) [Decidable p] (t : Nat) (x y z : Int) :
    mergeRows (if p then [Output.gpxPoint t x y z] else []) = [] := by
  by_cases h : p <;> simp [mergeRows, h]

theorem mergeRows_flush (K : parser_h) (log : flightLog_t) (options : decodeOptions_t)
    (s : State) (b : Bool) :
    mergeRows (if b then [mergeRowOf K log options s] else [])
      = if b then [mergeRowOf K log options s] else [] := by
  cases b <;> simp [mergeRows]

theorem mergeRows_row (m : MainFields) (g : List Cell) :
    mergeRows [Output.mergeRow m g] = [Output.mergeRow m g] := by
  simp [mergeRows]

theorem carriesMain_mergeRowOf (K : parser_h) (log : flightLog_t) (options : decodeOptions_t)
    (f : List Int) (s : State)
    (hB : ∀ t, outputMainFrameFields K log options t s.bufferedMainFrame
      = outputMainFrameFields K log options t f) :
    (mergeRowOf K log options s).carriesMain K log options f = true := by
  simp only [mergeRowOf, Output.carriesMain, decide_eq_true_eq]
  rw [hB]
  simp [outputMainFrameFields]

theorem carriesMain_row (K : parser_h) (log : flightLog_t) (options : decodeOptions_t)
    (f B : List Int) (t : Nat) (g : List Cell)
    (hB : ∀ t, outputMainFrameFields K log options t B = outputMainFrameFields K log options t f) :
    (Output.mergeRow (outputMainFrameFields K log options t B) g).carriesMain K log options f
      = true := by
  simp only [Output.carriesMain, decide_eq_true_eq]
  rw [hB]
  simp [outputMainFrameFields]

/-! ## Independent mode -/

theorem outputGPSFrame_mainRows (log : flightLog_t) (fr : List Int) (s : State) :
    (outputGPSFrame log fr s).out.countP Output.isMainRow = s.out.countP Output.isMainRow
      ∧ (outputGPSFrame log fr s).haveBufferedMainFrame = s.haveBufferedMainFrame := by
  obtain ⟨lt, bm, hb, bt, bg, fn, ff, fo, out⟩ := s
  unfold outputGPSFrame createGPSCSVFile
  by_cases h : (log.gpsFieldIndexes.GPS_coord0 ≠ -1 ∧ log.gpsFieldIndexes.GPS_coord0 ≠ -1
        ∧ log.gpsFieldIndexes.GPS_altitude ≠ -1) <;>
    cases ff <;> cases fn <;> cases fo <;>
    simp [h, List.countP_append, List.countP_cons]

theorem independent_step_mainRows (K : parser_h) (log : flightLog_t) (options : decodeOptions_t)
    (hmode : mergedMode log options = false) (s : State) (c : FrameCall) :
    (frameReady K log options s c).out.countP Output.isMainRow
      = s.out.countP Output.isMainRow + (if admitsMain options c then 1 else 0)
    ∧ (frameReady K log options s c).haveBufferedMainFrame = s.haveBufferedMainFrame := by
  obtain ⟨valid, frame, ty, n, off, sz⟩ := c
  obtain ⟨raw, limits, debug, toStdout, simulateIMU, imuIgnoreMag, mergeGPS, u1, u2, u3⟩ := options
  unfold frameReady onFrameReady
  simp only [hmode, admitsMain, FrameCall.isMain]
  by_cases hG : ty = 'G'
  · subst hG
    cases valid <;> simp [outputGPSFrame_mainRows]
  · cases valid <;> cases frame <;> cases raw <;> cases simulateIMU <;> cases debug <;>
      by_cases hP : ty = 'P' <;> by_cases hI : ty = 'I' <;>
      simp [hG, hP, hI, updateIMU, List.countP_append, List.countP_cons]

theorem independent_parse_mainRows (K : parser_h) (log : flightLog_t) (options : decodeOptions_t)
    (hmode : mergedMode log options = false) (calls : List FrameCall) (s : State) :
    (flightLogParse K log options s calls).out.countP Output.isMainRow
      = s.out.countP Output.isMainRow + calls.countP (admitsMain options)
    ∧ (flightLogParse K log options s calls).haveBufferedMainFrame = s.haveBufferedMainFrame := by
  induction calls generalizing s with
  | nil => simp [flightLogParse]
  | cons c cs ih =>
    have h1 := ih (frameReady K log options s c)
    have h2 := independent_step_mainRows K log options hmode s c
    simp only [flightLogParse, List.foldl_cons] at h1 ⊢
    rw [h1.1, h1.2, h2.1, h2.2, List.countP_cons]
    exact ⟨by omega, rfl⟩

theorem countP_admitsMain (options : decodeOptions_t) (calls : List FrameCall) :
    calls.countP (admitsMain options)
      = calls.countP (fun c => c.isMain && c.frameValid)
        + (if options.raw then
            calls.countP (fun c => c.isMain && !c.frameValid && c.frame.isSome) else 0) := by
  induction calls with
  | nil => simp
  | cons c cs ih =>
    simp only [List.countP_cons, ih, admitsMain]
    generalize List.countP (fun c => c.isMain && c.frameValid) cs = a
    generalize List.countP (fun c => c.isMain && !c.frameValid && c.frame.isSome) cs = b
    by_cases h1 : c.isMain = true <;> by_cases h2 : c.frameValid = true <;>
      by_cases h3 : c.frame.isSome = true <;> by_cases h4 : options.raw = true <;>
      simp [h1, h2, h3, h4] <;> omega

/-! ## The merging callback in normal form -/

/-- In merged mode a valid positioning frame flushes the pending main frame when its time
differs, stores its payload and its time, and writes one merge row. -/
theorem merge_validG (K : parser_h) (log : flightLog_t) (options : decodeOptions_t)
    (hmode : mergedMode log options = true) (s : State) (c : FrameCall)
    (hG : c.frameType = 'G') (hv : c.frameValid = true) :
    frameReady K log options s c =
      { s with
        haveBufferedMainFrame := false
        bufferedFrameTime := mergeGpsFrameTime log s.lastFrameTime (c.frame.getD [])
        bufferedGPSFrame := memcpy s.bufferedGPSFrame (c.frame.getD []) c.fieldCount
        out := s.out
          ++ (if !sameIteration log s.lastFrameTime (c.frame.getD []) && s.haveBufferedMainFrame
                then [mergeRowOf K log options s] else [])
          ++ [Output.mergeRow
                (outputMainFrameFields K log options
                  (mergeGpsFrameTime log s.lastFrameTime (c.frame.getD [])) s.bufferedMainFrame)
                (outputGPSFields log (memcpy s.bufferedGPSFrame (c.frame.getD []) c.fieldCount))]
          ++ (if log.gpsFieldIndexes.GPS_coord0 ≠ -1 ∧ log.gpsFieldIndexes.GPS_coord0 ≠ -1
                ∧ log.gpsFieldIndexes.GPS_altitude ≠ -1 then
              [Output.gpxPoint (mergeGpsFrameTime log s.lastFrameTime (c.frame.getD []))
                (rd (c.frame.getD []) log.gpsFieldIndexes.GPS_coord0)
                (rd (c.frame.getD []) log.gpsFieldIndexes.GPS_coord1)
                (rd (c.frame.getD []) log.gpsFieldIndexes.GPS_altitude)] else []) } := by
  obtain ⟨valid, frame, ty, n, off, sz⟩ := c
  obtain ⟨lt, bm, hb, bt, bg, fn, ff, fo, out⟩ := s
  simp only at hG hv
  subst hG hv
  unfold frameReady onFrameReady onFrameReadyMerge
  by_cases h1 : log.gpsFieldIndexes.time = -1 <;>
    by_cases h2 : toU32 (rd (frame.getD []) log.gpsFieldIndexes.time) = lt <;>
    by_cases hc : (log.gpsFieldIndexes.GPS_coord0 ≠ -1 ∧ log.gpsFieldIndexes.GPS_coord0 ≠ -1
        ∧ log.gpsFieldIndexes.GPS_altitude ≠ -1) <;>
    cases hb <;>
    simp [hmode, sameIteration, mergeGpsFrameTime, mergeRowOf, h1, h2, hc, outputMergeFrame]

/-- In merged mode an admitted main frame flushes the pending main frame, if any, and takes
its place. -/
theorem merge_admitMain (K : parser_h) (log : flightLog_t) (options : decodeOptions_t)
    (hmode : mergedMode log options = true) (s : State) (c : FrameCall)
    (hadm : admitsMain options c = true) :
    frameReady K log options s c =
      { s with
        lastFrameTime := if c.frameValid
          then toU32 (rd (c.frame.getD []) (K.FLIGHT_LOG_FIELD_INDEX_TIME : Int)) else s.lastFrameTime
        bufferedMainFrame := memcpy s.bufferedMainFrame (c.frame.getD []) c.fieldCount
        bufferedFrameTime := if c.frameValid
          then toU32 (rd (c.frame.getD []) (K.FLIGHT_LOG_FIELD_INDEX_TIME : Int)) else UINT32_MINUS_ONE
        haveBufferedMainFrame := true
        out := s.out
          ++ (if s.haveBufferedMainFrame then [mergeRowOf K log options s] else [])
          ++ (if options.simulateIMU then
                [updateIMU_call log options (c.frame.getD [])
                  (if c.frameValid
                    then toU32 (rd (c.frame.getD []) (K.FLIGHT_LOG_FIELD_INDEX_TIME : Int))
                    else s.lastFrameTime)] else []) } := by
  obtain ⟨valid, frame, ty, n, off, sz⟩ := c
  obtain ⟨lt, bm, hb, bt, bg, fn, ff, fo, out⟩ := s
  obtain ⟨raw, limits, debug, toStdout, simulateIMU, imuIgnoreMag, mergeGPS, u1, u2, u3⟩ := options
  simp only [admitsMain, FrameCall.isMain, Bool.and_eq_true, Bool.or_eq_true, decide_eq_true_eq] at hadm
  obtain ⟨hty, hok⟩ := hadm
  have hG : ¬ ty = 'G' := by rcases hty with h | h <;> rw [h] <;> simp
  unfold frameReady onFrameReady onFrameReadyMerge
  cases valid <;> cases hb <;> cases simulateIMU <;>
    simp_all [mergeRowOf, outputMergeFrame, updateIMU]

/-- In merged mode every other callback leaves the state as it is. -/
theorem merge_ignored (K : parser_h) (log : flightLog_t) (options : decodeOptions_t)
    (hmode : mergedMode log options = true) (s : State) (c : FrameCall)
    (hadm : admitsMain options c = false) (hG : (c.isGPS && c.frameValid) = false) :
    frameReady K log options s c = s := by
  obtain ⟨valid, frame, ty, n, off, sz⟩ := c
  simp only [admitsMain, FrameCall.isMain, FrameCall.isGPS] at hadm hG
  unfold frameReady onFrameReady onFrameReadyMerge
  by_cases h : ty = 'G'
  · subst h
    simp_all
  · by_cases hP : ty = 'P' <;> by_cases hI : ty = 'I' <;> simp_all

theorem validMainFrame_admits (log : flightLog_t) (options : decodeOptions_t) (c : FrameCall)
    (f : List Int) (h : validMainFrame log c f) : admitsMain options c = true := by
  obtain ⟨h1, h2, -⟩ := h
  simp [admitsMain, h1, h2]

theorem mergeGpsFrameTime_eq (log : flightLog_t) (last : Nat) (fr : List Int) :
    mergeGpsFrameTime log last fr
      = if log.gpsFieldIndexes.time = -1 then last else toU32 (rd fr log.gpsFieldIndexes.time) := by
  unfold mergeGpsFrameTime sameIteration
  by_cases h1 : log.gpsFieldIndexes.time = -1 <;>
    by_cases h2 : toU32 (rd fr log.gpsFieldIndexes.time) = last <;> simp [h1, h2]

theorem flightLogParse_append (K : parser_h) (log : flightLog_t) (options : decodeOptions_t)
    (s : State) (xs ys : List FrameCall) :
    flightLogParse K log options s (xs ++ ys)
      = flightLogParse K log options (flightLogParse K log options s xs) ys := by
  simp [flightLogParse, List.foldl_append]

theorem flightLogParse_cons (K : parser_h) (log : flightLog_t) (options : decodeOptions_t)
    (s : State) (c : FrameCall) (cs : List FrameCall) :
    flightLogParse K log options s (c :: cs)
      = flightLogParse K log options (frameReady K log options s c) cs := rfl

/-! ## The record only grows -/

theorem frameReady_out (K : parser_h) (log : flightLog_t) (options : decodeOptions_t)
    (hmode : mergedMode log options = true) (s : State) (c : FrameCall) :
    s.out <+: (frameReady K log options s c).out := by
  by_cases hadm : admitsMain options c = true
  · rw [merge_admitMain K log options hmode s c hadm]
    exact (List.prefix_append _ _).trans (List.prefix_append _ _)
  · by_cases hg : (c.isGPS && c.frameValid) = true
    · simp only [FrameCall.isGPS, Bool.and_eq_true, decide_eq_true_eq] at hg
      rw [merge_validG K log options hmode s c hg.1 hg.2]
      exact ((List.prefix_append _ _).trans (List.prefix_append _ _)).trans (List.prefix_append _ _)
    · rw [merge_ignored K log options hmode s c (by simpa using hadm) (by simpa using hg)]

theorem flightLogParse_out (K : parser_h) (log : flightLog_t) (options : decodeOptions_t)
    (hmode : mergedMode log options = true) (calls : List FrameCall) (s : State) :
    s.out <+: (flightLogParse K log options s calls).out := by
  induction calls generalizing s with
  | nil => exact List.prefix_refl _
  | cons c cs ih =>
    exact (frameReady_out K log options hmode s c).trans (ih (frameReady K log options s c))

theorem decodeFlightLog_end_out (K : parser_h) (log : flightLog_t) (options : decodeOptions_t)
    (s : State) : s.out <+: (decodeFlightLog_end K log options s).out := by
  unfold decodeFlightLog_end
  split
  · exact List.prefix_append _ _
  · exact List.prefix_refl _

/-! ## Time order of the merge rows -/

theorem OrderedUpTo.mono {l : List Nat} {h k : Nat} (hl : OrderedUpTo l h) (hk : h ≤ k) :
    OrderedUpTo l k :=
  ⟨hl.1, fun t ht => le_trans (hl.2 t ht) hk⟩

theorem OrderedUpTo.snoc {l : List Nat} {h t : Nat} (hl : OrderedUpTo l h) (ht : h ≤ t) :
    OrderedUpTo (l ++ [t]) t := by
  refine ⟨?_, ?_⟩
  · rw [List.pairwise_append]
    refine ⟨hl.1, List.pairwise_singleton _ _, ?_⟩
    intro a ha b hb
    rw [List.mem_singleton] at hb
    subst hb
    exact le_trans (hl.2 a ha) ht
  · intro x hx
    rw [List.mem_append, List.mem_singleton] at hx
    rcases hx with hx | hx
    · exact le_trans (hl.2 x hx) ht
    · exact le_of_eq hx

theorem TimeInv_main (K : parser_h) (log : flightLog_t) (options : decodeOptions_t)
    (hmode : mergedMode log options = true) (s : State) (h : Nat) (c : FrameCall)
    (hinv : TimeInv s h) (hmain : c.isMain = true) (hv : c.frameValid = true)
    (hle : h ≤ toU32 (rd (c.frame.getD []) (K.FLIGHT_LOG_FIELD_INDEX_TIME : Int))) :
    TimeInv (frameReady K log options s c)
        (toU32 (rd (c.frame.getD []) (K.FLIGHT_LOG_FIELD_INDEX_TIME : Int)))
      ∧ (frameReady K log options s c).lastFrameTime
          = toU32 (rd (c.frame.getD []) (K.FLIGHT_LOG_FIELD_INDEX_TIME : Int)) := by
  have hadm : admitsMain options c = true := by simp [admitsMain, hmain, hv]
  rw [merge_admitMain K log options hmode s c hadm]
  obtain ⟨h1, h3⟩ := hinv
  simp only [hv, if_true, and_true, TimeInv, mergeRowTimes_append, mergeRowTimes_imu,
    mergeRowTimes_flush, List.append_nil, implies_true]
  by_cases hb : s.haveBufferedMainFrame = true
  · simp only [hb, if_true]
    rw [(h3 hb).1]
    exact (h1.snoc (le_refl h)).mono hle
  · simp only [hb]
    simpa using h1.mono hle

theorem TimeInv_gps (K : parser_h) (log : flightLog_t) (options : decodeOptions_t)
    (hmode : mergedMode log options = true) (s : State) (h : Nat) (c : FrameCall)
    (hinv : TimeInv s h) (hG : c.isGPS = true) (hv : c.frameValid = true)
    (hle : h ≤ (if log.gpsFieldIndexes.time = -1 then s.lastFrameTime
        else toU32 (rd (c.frame.getD []) log.gpsFieldIndexes.time))) :
    TimeInv (frameReady K log options s c)
        (if log.gpsFieldIndexes.time = -1 then s.lastFrameTime
          else toU32 (rd (c.frame.getD []) log.gpsFieldIndexes.time))
      ∧ (frameReady K log options s c).lastFrameTime = s.lastFrameTime := by
  simp only [FrameCall.isGPS, decide_eq_true_eq] at hG
  rw [merge_validG K log options hmode s c hG hv]
  obtain ⟨h1, h3⟩ := hinv
  rw [← mergeGpsFrameTime_eq] at hle ⊢
  simp only [TimeInv, mergeRowTimes_append, mergeRowTimes_gpx, mergeRowTimes_flush,
    List.append_nil, and_true, false_implies, Bool.false_eq_true]
  have hrow : ∀ m g, mergeRowTimes [Output.mergeRow m g] = [m.frameTime] := by
    intro m g; simp [mergeRowTimes]
  rw [hrow]
  simp only [outputMainFrameFields]
  by_cases hb : (!sameIteration log s.lastFrameTime (c.frame.getD []) && s.haveBufferedMainFrame) = true
  · have hb2 : s.haveBufferedMainFrame = true := by
      simp only [Bool.and_eq_true] at hb; exact hb.2
    simp only [hb, if_true]
    rw [(h3 hb2).1]
    exact (h1.snoc (le_refl h)).snoc hle
  · simp only [hb, Bool.false_eq_true, if_false, List.append_nil]
    exact h1.snoc hle

theorem TimeInv_parse (K : parser_h) (log : flightLog_t) (options : decodeOptions_t)
    (hmode : mergedMode log options = true) (calls : List FrameCall) (s : State) (h : Nat)
    (hinv : TimeInv s h) (hvalid : ∀ x ∈ calls, x.frameValid = true)
    (hsorted : (effectiveTimes K log s.lastFrameTime calls).Pairwise (· ≤ ·))
    (hlow : ∀ e ∈ effectiveTimes K log s.lastFrameTime calls, h ≤ e) :
    ∃ k, TimeInv (flightLogParse K log options s calls) k := by
  induction calls generalizing s h with
  | nil => exact ⟨h, hinv⟩
  | cons c cs ih =>
    rw [flightLogParse_cons]
    have hv : c.frameValid = true := hvalid c (List.mem_cons_self _ _)
    have hvs : ∀ x ∈ cs, x.frameValid = true := fun x hx => hvalid x (List.mem_cons_of_mem _ hx)
    by_cases hG : c.isGPS = true
    · simp only [effectiveTimes, hG, if_true, List.pairwise_cons, List.mem_cons,
        forall_eq_or_imp] at hsorted hlow
      obtain ⟨hstep, hlast⟩ := TimeInv_gps K log options hmode s h c hinv hG hv hlow.1
      exact ih _ _ hstep hvs (by rw [hlast]; exact hsorted.2) (by rw [hlast]; exact hsorted.1)
    · by_cases hM : c.isMain = true
      · simp only [effectiveTimes, hG, hM, if_true, List.pairwise_cons, List.mem_cons,
          forall_eq_or_imp, Bool.false_eq_true, if_false] at hsorted hlow
        obtain ⟨hstep, hlast⟩ := TimeInv_main K log options hmode s h c hinv hM hv hlow.1
        exact ih _ _ hstep hvs (by rw [hlast]; exact hsorted.2) (by rw [hlast]; exact hsorted.1)
      · simp only [effectiveTimes, hG, hM, Bool.false_eq_true, if_false] at hsorted hlow
        have hig : frameReady K log options s c = s :=
          merge_ignored K log options hmode s c (by simp [admitsMain, hM]) (by simp [hG])
        rw [hig]
        exact ih s h hinv hvs hsorted hlow

theorem effectiveTimes_first_main (K : parser_h) (log : flightLog_t) (a b : Nat) (c : FrameCall)
    (cs : List FrameCall) (hfirst : c.isMain = true) :
    effectiveTimes K log a (c :: cs) = effectiveTimes K log b (c :: cs) := by
  have hG : c.isGPS = false := by
    simp only [FrameCall.isMain, Bool.or_eq_true, decide_eq_true_eq] at hfirst
    rcases hfirst with h | h <;> simp [FrameCall.isGPS, h]
  simp [effectiveTimes, hG, hfirst]

/-! ## The rows that carry one main frame -/

/-- Once the buffered main frame has been written, every later valid positioning frame
writes it again, until a main frame is admitted. -/
theorem segment_after_flush (K : parser_h) (log : flightLog_t) (options : decodeOptions_t)
    (hmode : mergedMode log options = true) (f : List Int) (mid : List FrameCall) (s : State)
    (hmid : ∀ c ∈ mid, admitsMain options c = false)
    (hhave : s.haveBufferedMainFrame = false)
    (hB : ∀ t, outputMainFrameFields K log options t s.bufferedMainFrame
      = outputMainFrameFields K log options t f) :
    (flightLogParse K log options s mid).haveBufferedMainFrame = false
      ∧ (flightLogParse K log options s mid).bufferedMainFrame = s.bufferedMainFrame
      ∧ ∃ seg, mergeRows (flightLogParse K log options s mid).out = mergeRows s.out ++ seg
          ∧ seg.length = mid.countP FrameCall.isValidGPS
          ∧ ∀ r ∈ seg, r.carriesMain K log options f = true := by
  induction mid generalizing s with
  | nil => exact ⟨hhave, rfl, [], by simp [flightLogParse], rfl, by simp⟩
  | cons c cs ih =>
    rw [flightLogParse_cons]
    have hc : admitsMain options c = false := hmid c (List.mem_cons_self _ _)
    have hcs : ∀ x ∈ cs, admitsMain options x = false := fun x hx => hmid x (List.mem_cons_of_mem _ hx)
    by_cases hg : c.isValidGPS = true
    · have hg2 := hg
      simp only [FrameCall.isValidGPS, FrameCall.isGPS, Bool.and_eq_true, decide_eq_true_eq] at hg2
      have hstep := merge_validG K log options hmode s c hg2.1 hg2.2
      obtain ⟨i1, i2, seg, i3, i4, i5⟩ := ih (frameReady K log options s c) hcs
        (by rw [hstep]) (by rw [hstep]; exact hB)
      refine ⟨i1, by rw [i2, hstep], Output.mergeRow
          (outputMainFrameFields K log options
            (mergeGpsFrameTime log s.lastFrameTime (c.frame.getD [])) s.bufferedMainFrame)
          (outputGPSFields log (memcpy s.bufferedGPSFrame (c.frame.getD []) c.fieldCount))
          :: seg, ?_, ?_, ?_⟩
      · rw [i3, hstep]
        simp only [hhave, Bool.and_false, Bool.false_eq_true, if_false, List.append_nil,
          mergeRows_append, mergeRows_gpx, mergeRows_row, List.append_assoc]
        rfl
      · simp [i4, List.countP_cons, hg]
      · intro r hr
        rw [List.mem_cons] at hr
        rcases hr with hr | hr
        · rw [hr]; exact carriesMain_row K log options f _ _ _ hB
        · exact i5 r hr
    · have hig : frameReady K log options s c = s :=
        merge_ignored K log options hmode s c hc (by simpa [FrameCall.isValidGPS] using hg)
      rw [hig]
      obtain ⟨i1, i2, seg, i3, i4, i5⟩ := ih s hcs hhave hB
      exact ⟨i1, i2, seg, i3, by simp [i4, List.countP_cons, hg], i5⟩

theorem extraFlush_cons_valid (log : flightLog_t) (last : Nat) (c : FrameCall)
    (cs : List FrameCall) (hg : c.isValidGPS = true) :
    extraFlush log last (c :: cs) = if sameIteration log last (c.frame.getD []) then 0 else 1 := by
  simp [extraFlush, List.find?_cons, hg]

theorem extraFlush_cons_other (log : flightLog_t) (last : Nat) (c : FrameCall)
    (cs : List FrameCall) (hg : ¬ c.isValidGPS = true) :
    extraFlush log last (c :: cs) = extraFlush log last cs := by
  simp [extraFlush, List.find?_cons, hg]

/-- The end of the log and an admitted main frame both write the pending main frame, if
there is one, and no other merge row. -/
theorem closeSegment_rows (K : parser_h) (log : flightLog_t) (options : decodeOptions_t)
    (hmode : mergedMode log options = true) (s : State) (nxt : Option FrameCall)
    (hnxt : ∀ c, nxt = some c → admitsMain options c = true) :
    mergeRows (closeSegment K log options s nxt).out
      = mergeRows s.out ++ (if s.haveBufferedMainFrame then [mergeRowOf K log options s] else []) := by
  have hm : options.mergeGPS = true := by
    simp [mergedMode] at hmode; exact hmode.1
  cases nxt with
  | none =>
    by_cases hb : s.haveBufferedMainFrame = true
    · simp [closeSegment, decodeFlightLog_end, hm, hb, outputMergeFrame, mergeRows, mergeRowOf]
    · simp [closeSegment, decodeFlightLog_end, hm, hb]
  | some c =>
    simp only [closeSegment]
    rw [merge_admitMain K log options hmode s c (hnxt c rfl)]
    simp only [mergeRows_append, mergeRows_imu, mergeRows_flush, List.append_nil]

/-- While a main frame is pending, the rows written up to the next admitted main frame all
carry it; their number is counted together with the flush that is still owed. -/
theorem segment_pending (K : parser_h) (log : flightLog_t) (options : decodeOptions_t)
    (hmode : mergedMode log options = true) (f : List Int) (mid : List FrameCall) (s : State)
    (hmid : ∀ c ∈ mid, admitsMain options c = false)
    (hhave : s.haveBufferedMainFrame = true)
    (hB : ∀ t, outputMainFrameFields K log options t s.bufferedMainFrame
      = outputMainFrameFields K log options t f) :
    ∃ seg, mergeRows (flightLogParse K log options s mid).out = mergeRows s.out ++ seg
      ∧ (∀ r ∈ seg, r.carriesMain K log options f = true)
      ∧ (flightLogParse K log options s mid).bufferedMainFrame = s.bufferedMainFrame
      ∧ seg.length + (if (flightLogParse K log options s mid).haveBufferedMainFrame then 1 else 0)
          = max 1 (mid.countP FrameCall.isValidGPS + extraFlush log s.lastFrameTime mid) := by
  induction mid with
  | nil => exact ⟨[], by simp [flightLogParse], by simp, rfl, by simp [flightLogParse, hhave, extraFlush]⟩
  | cons c cs ih =>
    rw [flightLogParse_cons]
    have hc : admitsMain options c = false := hmid c (List.mem_cons_self _ _)
    have hcs : ∀ x ∈ cs, admitsMain options x = false := fun x hx => hmid x (List.mem_cons_of_mem _ hx)
    by_cases hg : c.isValidGPS = true
    · have hg2 := hg
      simp only [FrameCall.isValidGPS, FrameCall.isGPS, Bool.and_eq_true, decide_eq_true_eq] at hg2
      have hstep := merge_validG K log options hmode s c hg2.1 hg2.2
      obtain ⟨i1, i2, seg, i3, i4, i5⟩ := segment_after_flush K log options hmode f cs
        (frameReady K log options s c) hcs (by rw [hstep]) (by rw [hstep]; exact hB)
      refine ⟨(if !sameIteration log s.lastFrameTime (c.frame.getD []) then
            [mergeRowOf K log options s] else [])
          ++ Output.mergeRow
            (outputMainFrameFields K log options
              (mergeGpsFrameTime log s.lastFrameTime (c.frame.getD [])) s.bufferedMainFrame)
            (outputGPSFields log (memcpy s.bufferedGPSFrame (c.frame.getD []) c.fieldCount))
          :: seg, ?_, ?_, by rw [i2, hstep], ?_⟩
      · rw [i3, hstep]
        simp only [hhave, Bool.and_true, mergeRows_append, mergeRows_gpx, mergeRows_row,
          mergeRows_flush, List.append_nil, List.append_assoc]
        rfl
      · intro r hr
        rw [List.mem_append, List.mem_cons] at hr
        rcases hr with hr | hr | hr
        · by_cases hs : sameIteration log s.lastFrameTime (c.frame.getD []) = true
          · simp [hs] at hr
          · simp only [hs, Bool.not_false, Bool.not_eq_true] at hr
            simp only [Bool.not_eq_true] at hs
            simp only [hs, Bool.not_false, if_true, List.mem_singleton] at hr
            rw [hr]; exact carriesMain_mergeRowOf K log options f s hB
        · rw [hr]; exact carriesMain_row K log options f _ _ _ hB
        · exact i5 r hr
      · rw [i1, extraFlush_cons_valid log _ c cs hg, List.countP_cons, hg]
        by_cases hs : sameIteration log s.lastFrameTime (c.frame.getD []) = true
        · simp [hs, i4]
        · simp only [Bool.not_eq_true] at hs
          simp [hs, i4]
    · have hig : frameReady K log options s c = s :=
        merge_ignored K log options hmode s c hc (by simpa [FrameCall.isValidGPS] using hg)
      rw [hig]
      obtain ⟨seg, i1, i2, i3, i4⟩ := ih hcs
      refine ⟨seg, i1, i2, i3, ?_⟩
      rw [i4, extraFlush_cons_other log _ c cs hg, List.countP_cons]
      simp [hg]

/-! ## The claims -/

/-- C1, counterexample.  In merged mode, the valid main frame at time 1000 followed by a
valid positioning frame with embedded time 1500 is written in two merge rows, not one:
the flush row and the row of the positioning frame both carry its field snapshot. -/
theorem main_frame_written_twice :
    mergedMode exampleLog mergeOptions = true
    ∧ validMainFrame exampleLog (mainCall 0 1000 398) [0, 1000, 398]
    ∧ (mergeRows (decodeFlightLog exampleConsts exampleLog mergeOptions {}
          [mainCall 0 1000 398, gpsCall 1500 515000000 (-1270000) 30]).out).countP
        (Output.carriesMain exampleConsts exampleLog mergeOptions [0, 1000, 398]) = 2 := by
  refine ⟨by decide, ⟨rfl, rfl, rfl, rfl, rfl⟩, by decide⟩

/-- C1, amended.  In merged mode every valid main frame is written in at least one merge
row, and in more than one when positioning frames follow it.  Precisely: let a valid main
frame `m` with fields `f` be followed by callbacks `mid`, none of which is an admitted main
frame, and then by the end of the log or by an admitted main frame (`nxt`).  The merge rows
written after `m` has been taken, up to and including the flush made by `nxt`, all carry the
field snapshot of `f`, and there are exactly `max 1 (k + d)` of them, where `k` is the number
of valid positioning frames in `mid` and `d` is `1` when the first of them carries an embedded
time different from the time of `m`, and `0` otherwise. -/
theorem main_frame_rows (K : parser_h) (log : flightLog_t) (options : decodeOptions_t)
    (hmode : mergedMode log options = true) (s : State) (pre mid : List FrameCall)
    (m : FrameCall) (f : List Int) (nxt : Option FrameCall)
    (hm : validMainFrame log m f)
    (hmid : ∀ c ∈ mid, admitsMain options c = false)
    (hnxt : ∀ c, nxt = some c → admitsMain options c = true) :
    ∃ seg,
      mergeRows (closeSegment K log options
          (flightLogParse K log options (decodeFlightLog_begin K options s) (pre ++ m :: mid)) nxt).out
        = mergeRows (flightLogParse K log options (decodeFlightLog_begin K options s)
            (pre ++ [m])).out ++ seg
      ∧ seg.length = max 1 (mid.countP FrameCall.isValidGPS
          + extraFlush log (toU32 (rd f (K.FLIGHT_LOG_FIELD_INDEX_TIME : Int))) mid)
      ∧ ∀ r ∈ seg, r.carriesMain K log options f = true := by
  have hadm := validMainFrame_admits log options m f hm
  obtain ⟨-, hv, hf, hn, hl⟩ := hm
  have hsplit : pre ++ m :: mid = (pre ++ [m]) ++ mid := by simp
  rw [hsplit, flightLogParse_append K log options _ (pre ++ [m]) mid]
  have hs1 : flightLogParse K log options (decodeFlightLog_begin K options s) (pre ++ [m])
      = frameReady K log options
          (flightLogParse K log options (decodeFlightLog_begin K options s) pre) m := by
    rw [flightLogParse_append]; rfl
  generalize flightLogParse K log options (decodeFlightLog_begin K options s) pre = s0 at hs1
  generalize flightLogParse K log options (decodeFlightLog_begin K options s) (pre ++ [m]) = s1 at hs1 ⊢
  rw [merge_admitMain K log options hmode s0 m hadm] at hs1
  have hhave : s1.haveBufferedMainFrame = true := by rw [hs1]
  have hlast : s1.lastFrameTime = toU32 (rd f (K.FLIGHT_LOG_FIELD_INDEX_TIME : Int)) := by
    rw [hs1]; simp [hv, hf]
  have hB : ∀ t, outputMainFrameFields K log options t s1.bufferedMainFrame
      = outputMainFrameFields K log options t f := by
    intro t
    rw [hs1]
    simp only [hf, Option.getD_some]
    exact outputMainFrameFields_memcpy K log options t _ f _ (by omega) (by omega)
  obtain ⟨seg, i1, i2, i3, i4⟩ := segment_pending K log options hmode f mid s1 hmid hhave hB
  rw [hlast] at i4
  refine ⟨seg ++ (if (flightLogParse K log options s1 mid).haveBufferedMainFrame
      then [mergeRowOf K log options (flightLogParse K log options s1 mid)] else []), ?_, ?_, ?_⟩
  · rw [closeSegment_rows K log options hmode _ nxt hnxt, i1, List.append_assoc]
  · rw [← i4, List.length_append]
    by_cases hb : (flightLogParse K log options s1 mid).haveBufferedMainFrame = true <;> simp [hb]
  · intro r hr
    rw [List.mem_append] at hr
    rcases hr with hr | hr
    · exact i2 r hr
    · by_cases hb : (flightLogParse K log options s1 mid).haveBufferedMainFrame = true
      · simp only [hb, if_true, List.mem_singleton] at hr
        rw [hr]
        exact carriesMain_mergeRowOf K log options f _ (by rw [i3]; exact hB)
      · simp [hb] at hr

/-- C1, amended, at a concrete input: a main frame followed by a later positioning frame
and the end of the log. -/
theorem main_frame_rows_witness :
    ∃ seg,
      mergeRows (closeSegment exampleConsts exampleLog mergeOptions
          (flightLogParse exampleConsts exampleLog mergeOptions
            (decodeFlightLog_begin exampleConsts mergeOptions {})
            ([] ++ mainCall 0 1000 398 :: [gpsCall 1500 515000000 (-1270000) 30])) none).out
        = mergeRows (flightLogParse exampleConsts exampleLog mergeOptions
            (decodeFlightLog_begin exampleConsts mergeOptions {})
            ([] ++ [mainCall 0 1000 398])).out ++ seg
      ∧ seg.length = max 1 ([gpsCall 1500 515000000 (-1270000) 30].countP FrameCall.isValidGPS
          + extraFlush exampleLog
              (toU32 (rd [0, 1000, 398] (exampleConsts.FLIGHT_LOG_FIELD_INDEX_TIME : Int)))
              [gpsCall 1500 515000000 (-1270000) 30])
      ∧ ∀ r ∈ seg, r.carriesMain exampleConsts exampleLog mergeOptions [0, 1000, 398] = true :=
  main_frame_rows exampleConsts exampleLog mergeOptions (by decide) {} []
    [gpsCall 1500 515000000 (-1270000) 30] (mainCall 0 1000 398) [0, 1000, 398] none
    ⟨rfl, rfl, rfl, rfl, rfl⟩ (by decide) (fun _ h => nomatch h)

/-- C2.  In merged mode, from the cleared buffers, the callbacks main (time 0), main (time
10), positioning (embedded time 10), main (time 20), all valid and with a time field in the
positioning stream, followed by the end-of-log flush, write exactly three merge rows, with
times 0, 10 and 20; the first carries the cleared positioning buffer, whose cells are all
zero, and the second and third carry the fields of the positioning frame. -/
theorem scenario_three_main_one_gps (K : parser_h) (log : flightLog_t) (options : decodeOptions_t)
    (hmode : mergedMode log options = true) (htime : log.gpsFieldIndexes.time ≠ -1)
    (s : State) (c0 c1 cg c2 : FrameCall) (f0 f1 g f2 : List Int)
    (h0 : validMainFrame log c0 f0) (h1 : validMainFrame log c1 f1)
    (hg : validGPSFrame log cg g) (h2 : validMainFrame log c2 f2)
    (t0 : rd f0 (K.FLIGHT_LOG_FIELD_INDEX_TIME : Int) = 0)
    (t1 : rd f1 (K.FLIGHT_LOG_FIELD_INDEX_TIME : Int) = 10)
    (tg : rd g log.gpsFieldIndexes.time = 10)
    (t2 : rd f2 (K.FLIGHT_LOG_FIELD_INDEX_TIME : Int) = 20) :
    (decodeFlightLog K log options s [c0, c1, cg, c2]).out.filter Output.isMergeRow
      = [ Output.mergeRow (outputMainFrameFields K log options 0 f0)
            (outputGPSFields log (memset0 K.FLIGHT_LOG_MAX_FIELDS)),
          Output.mergeRow (outputMainFrameFields K log options 10 f1) (outputGPSFields log g),
          Output.mergeRow (outputMainFrameFields K log options 20 f2) (outputGPSFields log g) ]
      ∧ ∀ cell ∈ outputGPSFields log (memset0 K.FLIGHT_LOG_MAX_FIELDS), ∃ i, cell = Cell.field i 0 := by
  refine ⟨?_, outputGPSFields_cleared log _⟩
  have hm : options.mergeGPS = true := by
    simp [mergedMode] at hmode; exact hmode.1
  have a0 := validMainFrame_admits log options c0 f0 h0
  have a1 := validMainFrame_admits log options c1 f1 h1
  have a2 := validMainFrame_admits log options c2 f2 h2
  obtain ⟨-, v0, e0, n0, l0⟩ := h0
  obtain ⟨-, v1, e1, n1, l1⟩ := h1
  obtain ⟨-, v2, e2, n2, l2⟩ := h2
  obtain ⟨G, vg, eg, ng, lg⟩ := hg
  unfold decodeFlightLog flightLogParse
  simp only [List.foldl_cons, List.foldl_nil]
  rw [merge_admitMain K log options hmode _ c0 a0, merge_admitMain K log options hmode _ c1 a1,
    merge_validG K log options hmode _ cg G vg, merge_admitMain K log options hmode _ c2 a2]
  simp only [decodeFlightLog_end, decodeFlightLog_begin, hm, v0, v1, v2, e0, e1, e2, eg, n0, n1, n2, ng,
    t0, t1, t2, tg, if_true, Option.getD_some, Bool.and_self, mergeRowOf, mergeGpsFrameTime,
    sameIteration, toU32_zero, toU32_ten, toU32_twenty, htime, decide_False, decide_True,
    Bool.false_or, Bool.not_true, Bool.false_and, Bool.true_and, outputMergeFrame]
  rw [outputMainFrameFields_memcpy K log options _ _ f0 _ (le_refl _) (by omega),
    outputMainFrameFields_memcpy K log options _ _ f1 _ (le_refl _) (by omega),
    outputMainFrameFields_memcpy K log options _ _ f2 _ (le_refl _) (by omega),
    outputGPSFields_memcpy log _ g _ (le_refl _) (by omega)]
  by_cases hi : options.simulateIMU = true <;>
    by_cases hc : (log.gpsFieldIndexes.GPS_coord0 ≠ -1 ∧ log.gpsFieldIndexes.GPS_coord0 ≠ -1
        ∧ log.gpsFieldIndexes.GPS_altitude ≠ -1) <;>
    simp [hi, hc, List.filter_cons]

/-- C2 at concrete frames. -/
theorem scenario_three_main_one_gps_witness :
    (decodeFlightLog exampleConsts exampleLog mergeOptions {}
        [mainCall 0 0 398, mainCall 1 10 397, gpsCall 10 515000000 (-1270000) 30,
          mainCall 2 20 397]).out.filter Output.isMergeRow
      = [ Output.mergeRow (outputMainFrameFields exampleConsts exampleLog mergeOptions 0 [0, 0, 398])
            (outputGPSFields exampleLog (memset0 exampleConsts.FLIGHT_LOG_MAX_FIELDS)),
          Output.mergeRow (outputMainFrameFields exampleConsts exampleLog mergeOptions 10 [1, 10, 397])
            (outputGPSFields exampleLog [10, 515000000, -1270000, 30]),
          Output.mergeRow (outputMainFrameFields exampleConsts exampleLog mergeOptions 20 [2, 20, 397])
            (outputGPSFields exampleLog [10, 515000000, -1270000, 30]) ]
      ∧ ∀ cell ∈ outputGPSFields exampleLog (memset0 exampleConsts.FLIGHT_LOG_MAX_FIELDS),
          ∃ i, cell = Cell.field i 0 :=
  scenario_three_main_one_gps exampleConsts exampleLog mergeOptions (by decide) (by decide) {}
    (mainCall 0 0 398) (mainCall 1 10 397) (gpsCall 10 515000000 (-1270000) 30) (mainCall 2 20 397)
    [0, 0, 398] [1, 10, 397] [10, 515000000, -1270000, 30] [2, 20, 397]
    ⟨rfl, rfl, rfl, rfl, rfl⟩ ⟨rfl, rfl, rfl, rfl, rfl⟩ ⟨rfl, rfl, rfl, rfl, rfl⟩
    ⟨rfl, rfl, rfl, rfl, rfl⟩ (by decide) (by decide) (by decide) (by decide)

/-- C3.  In merged mode, when all frames are valid, the first frame is a main frame and the
effective timestamps are non-decreasing in arrival order, the time column of the merge rows
written for the log, the end-of-log flush included, is non-decreasing.  (`last` is the
main-frame time before the log; with a main frame first it plays no role.) -/
theorem merge_rows_time_ordered (K : parser_h) (log : flightLog_t) (options : decodeOptions_t)
    (hmode : mergedMode log options = true) (s : State) (c : FrameCall) (cs : List FrameCall)
    (last : Nat)
    (hfirst : c.isMain = true)
    (hvalid : ∀ x ∈ c :: cs, x.frameValid = true)
    (hsorted : (effectiveTimes K log last (c :: cs)).Pairwise (· ≤ ·)) :
    (mergeRowTimes (decodeFlightLog K log options s (c :: cs)).out).Pairwise (· ≤ ·) := by
  have hm : options.mergeGPS = true := by
    simp [mergedMode] at hmode; exact hmode.1
  have hb : TimeInv (decodeFlightLog_begin K options s) 0 := by
    simp [TimeInv, decodeFlightLog_begin, hm, OrderedUpTo, mergeRowTimes]
  rw [effectiveTimes_first_main K log last (decodeFlightLog_begin K options s).lastFrameTime c cs
    hfirst] at hsorted
  obtain ⟨k, hk⟩ := TimeInv_parse K log options hmode (c :: cs) (decodeFlightLog_begin K options s) 0
    hb hvalid hsorted (fun e _ => Nat.zero_le e)
  unfold decodeFlightLog decodeFlightLog_end
  generalize flightLogParse K log options (decodeFlightLog_begin K options s) (c :: cs) = s1 at hk ⊢
  obtain ⟨h1, h3⟩ := hk
  by_cases hbuf : s1.haveBufferedMainFrame = true
  · simp only [hm, hbuf, Bool.and_self, if_true, outputMergeFrame, mergeRowTimes_append]
    have : mergeRowTimes [Output.mergeRow
        (outputMainFrameFields K log options s1.bufferedFrameTime s1.bufferedMainFrame)
        (outputGPSFields log s1.bufferedGPSFrame)] = [s1.bufferedFrameTime] := by
      simp [mergeRowTimes, outputMainFrameFields]
    rw [this, (h3 hbuf).1]
    exact (h1.snoc (le_refl k)).1
  · simp only [hbuf, Bool.and_false, Bool.false_eq_true, if_false]
    exact h1.1

/-- C3 at a concrete callback sequence. -/
theorem merge_rows_time_ordered_witness :
    (mergeRowTimes (decodeFlightLog exampleConsts exampleLog mergeOptions {}
      (mainCall 0 0 398 :: [mainCall 1 10 397, gpsCall 15 515000000 (-1270000) 30,
        mainCall 2 20 397])).out).Pairwise (· ≤ ·) :=
  merge_rows_time_ordered exampleConsts exampleLog mergeOptions (by decide) {}
    (mainCall 0 0 398) [mainCall 1 10 397, gpsCall 15 515000000 (-1270000) 30, mainCall 2 20 397]
    0 (by decide) (by decide) (by decide)

/-- C4, counterexample.  In independent mode with `--raw`, an invalid main frame with a
null field array is not written: the main table has no row, while the count of valid main
frames plus invalid main frames is one. -/
theorem null_frame_not_written_in_raw_mode :
    mergedMode exampleLog rawOptions = false
    ∧ (decodeFlightLog exampleConsts exampleLog rawOptions {} [undecodableFrame]).out.countP
          Output.isMainRow
        ≠ [undecodableFrame].countP (fun c => c.isMain && c.frameValid)
          + (if rawOptions.raw then
              [undecodableFrame].countP (fun c => c.isMain && !c.frameValid) else 0) := by
  decide

/-- C4, amended.  In independent mode, for every callback sequence, the number of rows
written to the main table equals the number of valid main frames plus, only when raw mode is
set, the number of invalid main frames whose field array is non-null. -/
theorem independent_mainRow_count (K : parser_h) (log : flightLog_t) (options : decodeOptions_t)
    (hmode : mergedMode log options = false) (s : State) (calls : List FrameCall) :
    (decodeFlightLog K log options s calls).out.countP Output.isMainRow
      = calls.countP (fun c => c.isMain && c.frameValid)
        + (if options.raw then
            calls.countP (fun c => c.isMain && !c.frameValid && c.frame.isSome) else 0) := by
  have hend : decodeFlightLog_end K log options
      (flightLogParse K log options (decodeFlightLog_begin K options s) calls)
      = flightLogParse K log options (decodeFlightLog_begin K options s) calls := by
    unfold decodeFlightLog_end
    rw [(independent_parse_mainRows K log options hmode _ _).2]
    cases hm : options.mergeGPS <;> simp [decodeFlightLog_begin, hm]
  unfold decodeFlightLog
  rw [hend, (independent_parse_mainRows K log options hmode _ _).1, countP_admitsMain]
  have : (decodeFlightLog_begin K options s).out = [] := by
    unfold decodeFlightLog_begin; simp only; split <;> rfl
  rw [this]; simp

/-- C4, amended, at a concrete callback sequence in raw mode. -/
theorem independent_mainRow_count_witness :
    (decodeFlightLog exampleConsts exampleLog rawOptions {}
        [mainCall 0 0 398, undecodableFrame,
          { frameValid := false, frame := some [1, 10, 397], frameType := 'P', fieldCount := 3 }]
      ).out.countP Output.isMainRow
      = [mainCall 0 0 398, undecodableFrame,
          { frameValid := false, frame := some [1, 10, 397], frameType := 'P', fieldCount := 3 }
        ].countP (fun c => c.isMain && c.frameValid)
        + (if rawOptions.raw then
            [mainCall 0 0 398, undecodableFrame,
              { frameValid := false, frame := some [1, 10, 397], frameType := 'P', fieldCount := 3 }
            ].countP (fun c => c.isMain && !c.frameValid && c.frame.isSome) else 0) :=
  independent_mainRow_count exampleConsts exampleLog rawOptions (by decide) {} _

/-- C5.  In merged mode, the callback that receives a valid positioning frame writes a merge
row whose positioning columns are the cells of that frame, and this row is part of what the
log has written at its end. -/
theorem gps_payload_in_merge_row (K : parser_h) (log : flightLog_t) (options : decodeOptions_t)
    (hmode : mergedMode log options = true) (s : State) (pre post : List FrameCall)
    (c : FrameCall) (f : List Int)
    (hG : c.frameType = 'G') (hv : c.frameValid = true) (hf : c.frame = some f)
    (hcount : log.gpsFieldCount ≤ c.fieldCount) (hlen : c.fieldCount ≤ f.length) :
    ∃ m before after,
      (frameReady K log options
          (flightLogParse K log options (decodeFlightLog_begin K options s) pre) c).out
        = (flightLogParse K log options (decodeFlightLog_begin K options s) pre).out
            ++ before ++ [Output.mergeRow m (outputGPSFields log f)] ++ after
      ∧ Output.mergeRow m (outputGPSFields log f)
          ∈ (decodeFlightLog K log options s (pre ++ c :: post)).out := by
  generalize hs : flightLogParse K log options (decodeFlightLog_begin K options s) pre = s1
  have hstep := merge_validG K log options hmode s1 c hG hv
  rw [hf] at hstep
  simp only [Option.getD_some] at hstep
  rw [outputGPSFields_memcpy log _ f c.fieldCount hcount hlen] at hstep
  have hout := congrArg State.out hstep
  simp only at hout
  refine ⟨_, _, _, hout, ?_⟩
  unfold decodeFlightLog
  rw [flightLogParse_append, hs, flightLogParse_cons]
  apply (decodeFlightLog_end_out K log options _).subset
  apply (flightLogParse_out K log options hmode post _).subset
  rw [hout]
  simp

/-- C5 at a concrete callback sequence. -/
theorem gps_payload_in_merge_row_witness :
    ∃ m before after,
      (frameReady exampleConsts exampleLog mergeOptions
          (flightLogParse exampleConsts exampleLog mergeOptions
            (decodeFlightLog_begin exampleConsts mergeOptions {}) [mainCall 0 0 398])
          (gpsCall 10 515000000 (-1270000) 30)).out
        = (flightLogParse exampleConsts exampleLog mergeOptions
            (decodeFlightLog_begin exampleConsts mergeOptions {}) [mainCall 0 0 398]).out
            ++ before
            ++ [Output.mergeRow m (outputGPSFields exampleLog [10, 515000000, -1270000, 30])]
            ++ after
      ∧ Output.mergeRow m (outputGPSFields exampleLog [10, 515000000, -1270000, 30])
          ∈ (decodeFlightLog exampleConsts exampleLog mergeOptions {}
              ([mainCall 0 0 398] ++ gpsCall 10 515000000 (-1270000) 30 :: [mainCall 1 10 397])).out :=
  gps_payload_in_merge_row exampleConsts exampleLog mergeOptions (by decide) {}
    [mainCall 0 0 398] [mainCall 1 10 397] (gpsCall 10 515000000 (-1270000) 30)
    [10, 515000000, -1270000, 30] rfl rfl rfl (by decide) (by decide)

/-- C6.  In merged mode the end-of-log step writes exactly the merge row of the buffered main
frame when one is buffered and nothing otherwise; afterwards no main frame is buffered, and
a second end-of-log step would write nothing more. -/
theorem end_of_log_flush (K : parser_h) (log : flightLog_t) (options : decodeOptions_t)
    (s : State) (hmode : mergedMode log options = true) :
    (decodeFlightLog_end K log options s).out =
        s.out ++ (if s.haveBufferedMainFrame then
          [Output.mergeRow
            (outputMainFrameFields K log options s.bufferedFrameTime s.bufferedMainFrame)
            (outputGPSFields log s.bufferedGPSFrame)] else [])
      ∧ (decodeFlightLog_end K log options s).haveBufferedMainFrame = false
      ∧ decodeFlightLog_end K log options (decodeFlightLog_end K log options s)
          = decodeFlightLog_end K log options s := by
  have hm : options.mergeGPS = true := by
    simp [mergedMode] at hmode; exact hmode.1
  cases hb : s.haveBufferedMainFrame <;>
    simp [decodeFlightLog_end, outputMergeFrame, hm, hb]

/-- C6 at a state with a buffered main frame. -/
theorem end_of_log_flush_witness :
    (decodeFlightLog_end exampleConsts exampleLog mergeOptions pendingState).out =
        pendingState.out ++ (if pendingState.haveBufferedMainFrame then
          [Output.mergeRow
            (outputMainFrameFields exampleConsts exampleLog mergeOptions
              pendingState.bufferedFrameTime pendingState.bufferedMainFrame)
            (outputGPSFields exampleLog pendingState.bufferedGPSFrame)] else [])
      ∧ (decodeFlightLog_end exampleConsts exampleLog mergeOptions pendingState).haveBufferedMainFrame
          = false
      ∧ decodeFlightLog_end exampleConsts exampleLog mergeOptions
          (decodeFlightLog_end exampleConsts exampleLog mergeOptions pendingState)
          = decodeFlightLog_end exampleConsts exampleLog mergeOptions pendingState :=
  end_of_log_flush exampleConsts exampleLog mergeOptions pendingState (by decide)

/-- C7, counterexample.  For two valid frames whose iteration counters are 0 and
3000000000, the exact value of expected - good - absent is 2999999999, but `printStats`
computes a missing count of 0, because the 32-bit signed conversion of that value is
negative. -/
theorem missingFrames_wraps :
    printStats.missingFrames exampleConsts statsLongSpan
      ≠ max 0 ((statsLongSpan.field exampleConsts.FLIGHT_LOG_FIELD_INDEX_ITERATION).max
        - (statsLongSpan.field exampleConsts.FLIGHT_LOG_FIELD_INDEX_ITERATION).min + 1
        - (((statsLongSpan.frame 'I').validCount : Int) + ((statsLongSpan.frame 'P').validCount : Int))
        - (statsLongSpan.intentionallyAbsentIterations : Int)) := by
  decide

/-- C7, amended.  For every statistics snapshot in which the exact value of expected - good -
intentionallyAbsent fits a signed 32-bit integer, the missing-iteration count of `printStats`
equals the maximum of 0 and that value, where expected is the iteration maximum minus the
iteration minimum plus one and good is the number of valid I frames plus valid P frames. -/
theorem missingFrames_exact (K : parser_h) (stats : flightLogStatistics_t)
    (hlo : -2147483648 ≤
      (stats.field K.FLIGHT_LOG_FIELD_INDEX_ITERATION).max
        - (stats.field K.FLIGHT_LOG_FIELD_INDEX_ITERATION).min + 1
        - (((stats.frame 'I').validCount : Int) + ((stats.frame 'P').validCount : Int))
        - (stats.intentionallyAbsentIterations : Int))
    (hhi : (stats.field K.FLIGHT_LOG_FIELD_INDEX_ITERATION).max
        - (stats.field K.FLIGHT_LOG_FIELD_INDEX_ITERATION).min + 1
        - (((stats.frame 'I').validCount : Int) + ((stats.frame 'P').validCount : Int))
        - (stats.intentionallyAbsentIterations : Int) < 2147483648) :
    printStats.missingFrames K stats =
      max 0 ((stats.field K.FLIGHT_LOG_FIELD_INDEX_ITERATION).max
        - (stats.field K.FLIGHT_LOG_FIELD_INDEX_ITERATION).min + 1
        - (((stats.frame 'I').validCount : Int) + ((stats.frame 'P').validCount : Int))
        - (stats.intentionallyAbsentIterations : Int)) := by
  unfold printStats.missingFrames printStats.totalFrames printStats.goodFrames
  simp only
  rw [toI32_toU32_sub, toI32_of_range _ hlo hhi]
  split <;> omega

/-- C7, amended, at the statistics of a one-minute log. -/
theorem missingFrames_exact_witness :
    printStats.missingFrames exampleConsts statsOrdinary = max 0 (59999 - 0 + 1 - (1000 + 28000) - 30000) :=
  missingFrames_exact exampleConsts statsOrdinary (by decide) (by decide)

/-- C8.  For every statistics snapshot, whatever the iteration minimum and maximum and the
counters are, the missing-iteration count of `printStats` is not negative. -/
theorem missingFrames_nonneg (K : parser_h) (stats : flightLogStatistics_t) :
    0 ≤ printStats.missingFrames K stats := by
  unfold printStats.missingFrames
  simp only
  split
  · exact le_refl 0
  · omega

/-- C9.  When the maximum and the minimum of the time field are equal, the elapsed
milliseconds are 0 and the data-rate statement of `printStats` prints the line for an unknown
data rate and executes no division. -/
theorem dataRate_unknown_of_zero_elapsed (K : parser_h) (stats : flightLogStatistics_t)
    (raw : Bool)
    (h : (stats.field K.FLIGHT_LOG_FIELD_INDEX_TIME).max
        - (stats.field K.FLIGHT_LOG_FIELD_INDEX_TIME).min = 0) :
    printStats.intervalMS K stats = 0
      ∧ printStats.dataRate K stats raw = (DataRateLine.unknown, []) := by
  have h0 : printStats.intervalMS K stats = 0 := by
    unfold printStats.intervalMS
    rw [h]
    decide
  refine ⟨h0, ?_⟩
  unfold printStats.dataRate
  simp [h0]

/-- C9 at the statistics of a log with a single frame. -/
theorem dataRate_unknown_witness :
    printStats.intervalMS exampleConsts statsNoTime = 0
      ∧ printStats.dataRate exampleConsts statsNoTime false = (DataRateLine.unknown, []) :=
  dataRate_unknown_of_zero_elapsed exampleConsts statsNoTime false (by decide)

/-- C10, counterexample.  For 600000000 bytes in one second `printStats` reports a numeric
data rate whose baud value is 505032704: it is not a multiple of 100 and it is less than the
bit rate 4800000000, because the rounded value does not fit `unsigned int`. -/
theorem baud_wraps :
    (printStats.dataRate exampleConsts statsFastLog false).1
        = DataRateLine.rate 0 600000000 505032704
    ∧ statsFastLog.totalBytes * 8 * 1000 / printStats.intervalMS exampleConsts statsFastLog
        = 4800000000
    ∧ ¬ (100 ∣ 505032704
          ∧ statsFastLog.totalBytes * 8 * 1000 / printStats.intervalMS exampleConsts statsFastLog
              ≤ 505032704
          ∧ 505032704 < statsFastLog.totalBytes * 8 * 1000
              / printStats.intervalMS exampleConsts statsFastLog + 100) := by
  decide

/-- C10, amended.  Whenever `printStats` reports a numeric data rate and the bit rate
totalBytes * 8 * 1000 / intervalMS, rounded up to a multiple of 100, fits a 32-bit unsigned
integer, the elapsed milliseconds are positive and the reported baud value is that rounding:
a multiple of 100, not less than the bit rate and less than the bit rate plus 100. -/
theorem baud_rounded_up_to_hundred (K : parser_h) (stats : flightLogStatistics_t) (raw : Bool)
    (hz bytesPerSecond baud : Nat)
    (hrate : (printStats.dataRate K stats raw).1 = DataRateLine.rate hz bytesPerSecond baud)
    (hfit : (stats.totalBytes * 8 * 1000 / printStats.intervalMS K stats + 99) / 100 * 100
      < 4294967296) :
    0 < printStats.intervalMS K stats
      ∧ 100 ∣ baud
      ∧ stats.totalBytes * 8 * 1000 / printStats.intervalMS K stats ≤ baud
      ∧ baud < stats.totalBytes * 8 * 1000 / printStats.intervalMS K stats + 100 := by
  unfold printStats.dataRate at hrate
  simp only at hrate
  split at hrate
  · rename_i hc
    simp only [Bool.and_eq_true, decide_eq_true_eq] at hc
    simp only [DataRateLine.rate.injEq] at hrate
    obtain ⟨-, -, hb⟩ := hrate
    rw [baud_expr_eq, toU32_natCast_of_lt _ hfit] at hb
    subst hb
    refine ⟨by omega, Nat.dvd_mul_left _ _, by omega, by omega⟩
  · simp at hrate

/-- C10, amended, at the statistics of a one-minute log. -/
theorem baud_rounded_up_witness :
    0 < printStats.intervalMS exampleConsts statsOrdinary
      ∧ 100 ∣ 16500
      ∧ statsOrdinary.totalBytes * 8 * 1000 / printStats.intervalMS exampleConsts statsOrdinary ≤ 16500
      ∧ 16500 < statsOrdinary.totalBytes * 8 * 1000
          / printStats.intervalMS exampleConsts statsOrdinary + 100 :=
  baud_rounded_up_to_hundred exampleConsts statsOrdinary false 483 2057 16500 (by decide) (by decide)

/-! ## Text of the positioning fields -/

theorem identifyGPSFields_getD (log : flightLog_t) (types : List GPSFieldType) (i : Nat)
    (hi : i < log.gpsFieldCount) (hlen : i < types.length) :
    (identifyGPSFields log types).getD i GPSFieldType.GPS_FIELD_TYPE_INTEGER
      = identifyGPSField (log.gpsFieldNames.getD i "") := by
  unfold identifyGPSFields
  generalize log.gpsFieldCount = n at hi
  induction n with
  | zero => omega
  | succ n ih =>
    rw [List.range_succ, List.foldl_append]
    simp only [List.foldl_cons, List.foldl_nil]
    have hlen2 : ∀ (m : Nat) (t : List GPSFieldType),
        ((List.range m).foldl (fun types i =>
          types.set i (identifyGPSField (log.gpsFieldNames.getD i ""))) t).length = t.length := by
      intro m
      induction m with
      | zero => intro t; rfl
      | succ m ihm =>
        intro t
        rw [List.range_succ, List.foldl_append]
        simp only [List.foldl_cons, List.foldl_nil, List.length_set]
        exact ihm t
    by_cases h : i = n
    · subst h
      rw [List.getD_eq_getElem?_getD, List.getElem?_set_self]
      · rfl
      · rw [hlen2]; exact hlen
    · rw [List.getD_eq_getElem?_getD, List.getElem?_set_ne (Ne.symm h), ← List.getD_eq_getElem?_getD]
      exact ih (by omega)

theorem padLeft_length (pad : Char) (width : Nat) (text : String) (h : text.length ≤ width) :
    (padLeft pad width text).length = width := by
  unfold padLeft
  simp only [String.length, List.length_append, List.length_replicate] at h ⊢
  omega

theorem coordinate_text_nonneg (tables : Tables) (options : decodeOptions_t) (i : Nat) (v : Int)
    (htype : tables.gpsFieldTypes.getD i GPSFieldType.GPS_FIELD_TYPE_INTEGER
      = GPSFieldType.GPS_FIELD_TYPE_COORDINATE_DEGREES_TIMES_10000000)
    (hv : 0 ≤ v) (hmax : v < 2147483648) :
    printGPSField tables options i v
      = Except.ok (Printed.text (Nat.repr (v.toNat / 10000000) ++ "."
          ++ padLeft '0' 7 (Nat.repr (v.toNat % 10000000)))) := by
  unfold printGPSField
  rw [htype]
  simp only
  obtain ⟨n, rfl⟩ := Int.eq_ofNat_of_zero_le hv
  have h1 : fmt_d (Int.tdiv (n : Int) 10000000) = Nat.repr (n / 10000000) := by
    unfold fmt_d
    rw [Int.tdiv_eq_ediv (by omega) (by norm_num)]
    have hq : ((n : Int) / 10000000) = ((n / 10000000 : Nat) : Int) := by push_cast; rfl
    rw [hq]
    have hneg : ¬ (((n / 10000000 : Nat) : Int) < 0) := by omega
    simp only [hneg, if_false, Int.natAbs_ofNat]
  have h2 : toU32 (Int.tmod (c_abs (n : Int)) 10000000) = n % 10000000 := by
    unfold c_abs toU32
    have hn : ¬ ((n : Int) < 0) := by omega
    simp only [hn, if_false]
    rw [Int.tmod_eq_emod (by omega) (by norm_num)]
    have : ((n : Int) % 10000000) = ((n % 10000000 : Nat) : Int) := by push_cast; rfl
    rw [this, Int.emod_eq_of_lt (by omega) (by omega)]
    exact Int.toNat_natCast _
  rw [h1, h2]
  simp [fmt_u]

/-! ## Speed conversion -/

theorem isFatal_convert (v : ℚ) (u : Unit) :
    isFatal (convertMetersPerSecondToUnit v u) = !isSpeedUnit u := by
  cases u <;> rfl

/-! ## The independent callback in normal form -/

/-- In independent mode an admitted main frame sets the last frame time, calls the estimator
when the simulation is on, and writes one row. -/
theorem indep_admitMain (K : parser_h) (log : flightLog_t) (options : decodeOptions_t)
    (hmode : mergedMode log options = false) (s : State) (c : FrameCall)
    (hadm : admitsMain options c = true) :
    frameReady K log options s c =
      { s with
        lastFrameTime := toU32 (rd (c.frame.getD []) (K.FLIGHT_LOG_FIELD_INDEX_TIME : Int))
        out := s.out
          ++ (if options.simulateIMU then
                [updateIMU_call log options (c.frame.getD [])
                  (toU32 (rd (c.frame.getD []) (K.FLIGHT_LOG_FIELD_INDEX_TIME : Int)))] else [])
          ++ [Output.mainRow
                (outputMainFrameFields K log options
                  (if c.frameValid
                    then toU32 (rd (c.frame.getD []) (K.FLIGHT_LOG_FIELD_INDEX_TIME : Int))
                    else UINT32_MINUS_ONE) (c.frame.getD []))
                (if options.debug then some (c.frameType, c.frameOffset, c.frameSize) else none)] } := by
  obtain ⟨valid, frame, ty, n, off, sz⟩ := c
  obtain ⟨lt, bm, hb, bt, bg, fn, ff, fo, out⟩ := s
  obtain ⟨raw, limits, debug, toStdout, simulateIMU, imuIgnoreMag, mergeGPS, u1, u2, u3⟩ := options
  simp only [admitsMain, FrameCall.isMain, Bool.and_eq_true, Bool.or_eq_true, decide_eq_true_eq] at hadm
  obtain ⟨hty, hok⟩ := hadm
  have hG : ¬ ty = 'G' := by rcases hty with h | h <;> rw [h] <;> simp
  unfold frameReady onFrameReady
  cases valid <;> cases simulateIMU <;> cases debug <;>
    simp_all [updateIMU]

/-- In independent mode a valid positioning frame is handed to `outputGPSFrame`. -/
theorem indep_validG (K : parser_h) (log : flightLog_t) (options : decodeOptions_t)
    (hmode : mergedMode log options = false) (s : State) (c : FrameCall)
    (hg : c.isValidGPS = true) :
    frameReady K log options s c = outputGPSFrame log (c.frame.getD []) s := by
  obtain ⟨valid, frame, ty, n, off, sz⟩ := c
  simp only [FrameCall.isValidGPS, FrameCall.isGPS, Bool.and_eq_true, decide_eq_true_eq] at hg
  obtain ⟨h1, h2⟩ := hg
  subst h1 h2
  unfold frameReady onFrameReady
  simp [hmode]

/-- In independent mode every other callback writes at most a debug diagnostic. -/
theorem indep_ignored (K : parser_h) (log : flightLog_t) (options : decodeOptions_t)
    (hmode : mergedMode log options = false) (s : State) (c : FrameCall)
    (hadm : admitsMain options c = false) (hg : c.isValidGPS = false) :
    frameReady K log options s c =
      { s with out := s.out ++ (if c.isMain && options.debug then
          [Output.diagnostic c.frame.isSome c.frameType c.frameOffset c.frameSize] else []) } := by
  obtain ⟨valid, frame, ty, n, off, sz⟩ := c
  obtain ⟨lt, bm, hb, bt, bg, fn, ff, fo, out⟩ := s
  obtain ⟨raw, limits, debug, toStdout, simulateIMU, imuIgnoreMag, mergeGPS, u1, u2, u3⟩ := options
  simp only [admitsMain, FrameCall.isMain, FrameCall.isValidGPS, FrameCall.isGPS] at hadm hg
  unfold frameReady onFrameReady
  by_cases h : ty = 'G'
  · subst h
    cases valid <;> simp_all [FrameCall.isMain]
  · by_cases hP : ty = 'P' <;> by_cases hI : ty = 'I' <;> cases debug <;>
      simp_all [FrameCall.isMain]

/-- The function `outputGPSFrame` adds track points and rows of the GPS CSV file only, and
touches no other variable than `gpsCsvFile`. -/
theorem outputGPSFrame_delta (log : flightLog_t) (fr : List Int) (s : State) :
    ∃ d, (outputGPSFrame log fr s).out = s.out ++ d
      ∧ (∀ o ∈ d, o.imuSample = none ∧ o.mainFields = none)
      ∧ (outputGPSFrame log fr s).lastFrameTime = s.lastFrameTime := by
  obtain ⟨lt, bm, hb, bt, bg, fn, ff, fo, out⟩ := s
  unfold outputGPSFrame createGPSCSVFile
  by_cases h : (log.gpsFieldIndexes.GPS_coord0 ≠ -1 ∧ log.gpsFieldIndexes.GPS_coord0 ≠ -1
        ∧ log.gpsFieldIndexes.GPS_altitude ≠ -1) <;>
    cases ff <;> cases fn <;> cases fo <;>
    simp [h, Output.imuSample, Output.mainFields]

/-! ## Estimator calls and attitude columns -/

theorem imuSample_updateIMU_call (log : flightLog_t) (options : decodeOptions_t)
    (frame : List Int) (t : Nat) :
    (updateIMU_call log options frame t).imuSample = imuSampleOf log options frame := rfl

theorem imuSampleOf_isSome (log : flightLog_t) (options : decodeOptions_t) (frame : List Int) :
    (imuSampleOf log options frame).isSome = true := rfl

theorem hasAttitude_mainRow (K : parser_h) (log : flightLog_t) (options : decodeOptions_t)
    (t : Nat) (f : List Int) (d : Option (Char × Int × Int)) :
    (Output.mainRow (outputMainFrameFields K log options t f) d).hasAttitude
      = options.simulateIMU := rfl

theorem hasAttitude_mergeRow (K : parser_h) (log : flightLog_t) (options : decodeOptions_t)
    (t : Nat) (f : List Int) (g : List Cell) :
    (Output.mergeRow (outputMainFrameFields K log options t f) g).hasAttitude
      = options.simulateIMU := rfl

theorem filterMap_imu_call (log : flightLog_t) (options : decodeOptions_t)
    (frame : List Int) (t : Nat) :
    [updateIMU_call log options frame t].filterMap Output.imuSample
      = (imuSampleOf log options frame).toList := rfl

theorem imuSample_mergeRowOf (K : parser_h) (log : flightLog_t) (options : decodeOptions_t)
    (s : State) : (mergeRowOf K log options s).imuSample = none := rfl

theorem hasAttitude_mergeRowOf (K : parser_h) (log : flightLog_t) (options : decodeOptions_t)
    (s : State) : (mergeRowOf K log options s).hasAttitude = options.simulateIMU := rfl

/-- What one callback adds to the record, in either mode: the estimator is called exactly
when a main frame is admitted and the simulation is on, and a row carries the attitude
columns only when the simulation is on. -/
theorem frameReady_delta (K : parser_h) (log : flightLog_t) (options : decodeOptions_t)
    (s : State) (c : FrameCall) :
    ∃ d, (frameReady K log options s c).out = s.out ++ d
      ∧ d.filterMap Output.imuSample
          = (if options.simulateIMU && admitsMain options c
              then (imuSampleOf log options (c.frame.getD [])).toList else [])
      ∧ ∀ o ∈ d, o.hasAttitude = true → options.simulateIMU = true := by
  by_cases hmode : mergedMode log options = true
  · by_cases hadm : admitsMain options c = true
    · have hout := congrArg State.out (merge_admitMain K log options hmode s c hadm)
      simp only [List.append_assoc] at hout
      refine ⟨_, hout, ?_, ?_⟩
      · rw [List.filterMap_append]
        have h1 : (if s.haveBufferedMainFrame = true then [mergeRowOf K log options s] else []
            ).filterMap Output.imuSample = [] := by
          split <;> simp [imuSample_mergeRowOf]
        rw [h1, List.nil_append]
        by_cases hi : options.simulateIMU = true
        · simp only [hi, hadm, if_true, Bool.and_self]
          exact filterMap_imu_call _ _ _ _
        · simp [hi]
      · intro o ho hatt
        rw [List.mem_append] at ho
        rcases ho with ho | ho
        · split at ho
          · simp only [List.mem_singleton] at ho
            rw [ho, hasAttitude_mergeRowOf] at hatt; exact hatt
          · simp at ho
        · split at ho
          · assumption
          · simp at ho
    · have hadm2 : admitsMain options c = false := by simpa using hadm
      by_cases hg : c.isValidGPS = true
      · have hg2 := hg
        simp only [FrameCall.isValidGPS, FrameCall.isGPS, Bool.and_eq_true, decide_eq_true_eq] at hg2
        have hout := congrArg State.out (merge_validG K log options hmode s c hg2.1 hg2.2)
        simp only [List.append_assoc] at hout
        refine ⟨_, hout, ?_, ?_⟩
        · simp only [hadm2, Bool.and_false, Bool.false_eq_true, if_false]
          rw [List.filterMap_eq_nil_iff]
          intro o ho
          simp only [List.mem_append, List.mem_singleton] at ho
          rcases ho with ho | ho | ho
          · split at ho
            · simp only [List.mem_singleton] at ho
              rw [ho]; rfl
            · simp at ho
          · rw [ho]; rfl
          · split at ho
            · simp only [List.mem_singleton] at ho
              rw [ho]; rfl
            · simp at ho
        · intro o ho hatt
          simp only [List.mem_append, List.mem_singleton] at ho
          rcases ho with ho | ho | ho
          · split at ho
            · simp only [List.mem_singleton] at ho
              rw [ho, hasAttitude_mergeRowOf] at hatt; exact hatt
            · simp at ho
          · rw [ho, hasAttitude_mergeRow] at hatt; exact hatt
          · split at ho
            · simp only [List.mem_singleton] at ho
              rw [ho] at hatt; simp [Output.hasAttitude, Output.mainFields] at hatt
            · simp at ho
      · rw [merge_ignored K log options hmode s c hadm2
          (by simpa [FrameCall.isValidGPS] using hg)]
        exact ⟨[], by simp, by simp [hadm2], by simp⟩
  · have hmode : mergedMode log options = false := by simpa using hmode
    by_cases hadm : admitsMain options c = true
    · have hout := congrArg State.out (indep_admitMain K log options hmode s c hadm)
      simp only [List.append_assoc] at hout
      refine ⟨_, hout, ?_, ?_⟩
      · rw [List.filterMap_append]
        have h1 : [Output.mainRow
                (outputMainFrameFields K log options
                  (if c.frameValid
                    then toU32 (rd (c.frame.getD []) (K.FLIGHT_LOG_FIELD_INDEX_TIME : Int))
                    else UINT32_MINUS_ONE) (c.frame.getD []))
                (if options.debug then some (c.frameType, c.frameOffset, c.frameSize) else none)
              ].filterMap Output.imuSample = [] := rfl
        rw [h1, List.append_nil]
        by_cases hi : options.simulateIMU = true
        · simp only [hi, hadm, if_true, Bool.and_self]
          exact filterMap_imu_call _ _ _ _
        · simp [hi]
      · intro o ho hatt
        rw [List.mem_append] at ho
        rcases ho with ho | ho
        · split at ho
          · assumption
          · simp at ho
        · simp only [List.mem_singleton] at ho
          rw [ho, hasAttitude_mainRow] at hatt; exact hatt
    · have hadm2 : admitsMain options c = false := by simpa using hadm
      by_cases hg : c.isValidGPS = true
      · rw [indep_validG K log options hmode s c hg]
        obtain ⟨d, h1, h2, -⟩ := outputGPSFrame_delta log (c.frame.getD []) s
        refine ⟨d, h1, ?_, ?_⟩
        · simp only [hadm2, Bool.and_false, Bool.false_eq_true, if_false]
          rw [List.filterMap_eq_nil_iff]
          intro o ho; exact (h2 o ho).1
        · intro o ho hatt
          simp [Output.hasAttitude, (h2 o ho).2] at hatt
      · rw [indep_ignored K log options hmode s c hadm2 (by simpa using hg)]
        refine ⟨_, rfl, ?_, ?_⟩
        · simp only [hadm2, Bool.and_false, Bool.false_eq_true, if_false]
          split <;> rfl
        · intro o ho hatt
          split at ho
          · simp only [List.mem_singleton] at ho
            rw [ho] at hatt; simp [Output.hasAttitude, Output.mainFields] at hatt
          · simp at ho

/-- The end-of-log flush adds at most one merge row and no call of the estimator. -/
theorem decodeFlightLog_end_delta (K : parser_h) (log : flightLog_t) (options : decodeOptions_t)
    (s : State) :
    ∃ d, (decodeFlightLog_end K log options s).out = s.out ++ d
      ∧ d.filterMap Output.imuSample = []
      ∧ ∀ o ∈ d, o.hasAttitude = true → options.simulateIMU = true := by
  unfold decodeFlightLog_end
  split
  · refine ⟨[mergeRowOf K log options s], rfl, rfl, ?_⟩
    intro o ho hatt
    simp only [List.mem_singleton] at ho
    rw [ho, hasAttitude_mergeRowOf] at hatt; exact hatt
  · exact ⟨[], by simp, rfl, by simp⟩

theorem decodeFlightLog_begin_out (K : parser_h) (options : decodeOptions_t) (s : State) :
    (decodeFlightLog_begin K options s).out = [] := by
  unfold decodeFlightLog_begin; simp only; split <;> rfl

/-- The estimator calls of a parse, in order: one for each admitted main frame when the
simulation is on, with the samples of that frame. -/
theorem flightLogParse_imu (K : parser_h) (log : flightLog_t) (options : decodeOptions_t)
    (calls : List FrameCall) (s : State) :
    (flightLogParse K log options s calls).out.filterMap Output.imuSample
      = s.out.filterMap Output.imuSample
        ++ (calls.filter (fun c => options.simulateIMU && admitsMain options c)).filterMap
            (fun c => imuSampleOf log options (c.frame.getD [])) := by
  induction calls generalizing s with
  | nil => simp [flightLogParse]
  | cons c cs ih =>
    rw [flightLogParse_cons, ih]
    obtain ⟨d, hd, himu, -⟩ := frameReady_delta K log options s c
    rw [hd, List.filterMap_append, himu, List.append_assoc]
    congr 1
    by_cases h : (options.simulateIMU && admitsMain options c) = true
    · simp only [List.filter_cons, h, if_true, List.filterMap_cons]
      have := imuSampleOf_isSome log options (c.frame.getD [])
      cases hh : imuSampleOf log options (c.frame.getD []) with
      | none => rw [hh] at this; simp at this
      | some x => simp
    · simp only [List.filter_cons, h, if_false, List.nil_append]
      rfl

/-- A row of a parse carries the attitude columns only when the simulation is on. -/
theorem flightLogParse_attitude (K : parser_h) (log : flightLog_t) (options : decodeOptions_t)
    (calls : List FrameCall) (s : State)
    (hs : ∀ o ∈ s.out, o.hasAttitude = true → options.simulateIMU = true) :
    ∀ o ∈ (flightLogParse K log options s calls).out,
      o.hasAttitude = true → options.simulateIMU = true := by
  induction calls generalizing s with
  | nil => exact hs
  | cons c cs ih =>
    rw [flightLogParse_cons]
    apply ih
    obtain ⟨d, hd, -, hatt⟩ := frameReady_delta K log options s c
    rw [hd]
    intro o ho
    rw [List.mem_append] at ho
    rcases ho with ho | ho
    · exact hs o ho
    · exact hatt o ho

/-- The estimator calls of one log. -/
theorem decodeFlightLog_imu (K : parser_h) (log : flightLog_t) (options : decodeOptions_t)
    (s : State) (calls : List FrameCall) :
    (decodeFlightLog K log options s calls).out.filterMap Output.imuSample
      = (calls.filter (fun c => options.simulateIMU && admitsMain options c)).filterMap
          (fun c => imuSampleOf log options (c.frame.getD [])) := by
  unfold decodeFlightLog
  obtain ⟨d, hd, himu, -⟩ := decodeFlightLog_end_delta K log options
    (flightLogParse K log options (decodeFlightLog_begin K options s) calls)
  rw [hd, List.filterMap_append, himu, List.append_nil, flightLogParse_imu,
    decodeFlightLog_begin_out]
  rfl

/-- The rows of one log carry the attitude columns only when the simulation is on. -/
theorem decodeFlightLog_attitude (K : parser_h) (log : flightLog_t) (options : decodeOptions_t)
    (s : State) (calls : List FrameCall) :
    ∀ o ∈ (decodeFlightLog K log options s calls).out,
      o.hasAttitude = true → options.simulateIMU = true := by
  unfold decodeFlightLog
  obtain ⟨d, hd, -, hatt⟩ := decodeFlightLog_end_delta K log options
    (flightLogParse K log options (decodeFlightLog_begin K options s) calls)
  rw [hd]
  intro o ho
  rw [List.mem_append] at ho
  rcases ho with ho | ho
  · exact flightLogParse_attitude K log options calls _
      (by rw [decodeFlightLog_begin_out]; simp) o ho
  · exact hatt o ho

theorem filterMap_imuSampleOf_length (log : flightLog_t) (options : decodeOptions_t)
    (cs : List FrameCall) :
    (cs.filterMap (fun c => imuSampleOf log options (c.frame.getD []))).length = cs.length := by
  induction cs with
  | nil => rfl
  | cons c cs ih =>
    have := imuSampleOf_isSome log options (c.frame.getD [])
    cases hh : imuSampleOf log options (c.frame.getD []) with
    | none => rw [hh] at this; simp at this
    | some x => simp [List.filterMap_cons, hh, ih]

/-! ## Units that fit their field -/

theorem admitsMain_isMain (options : decodeOptions_t) (c : FrameCall)
    (h : admitsMain options c = true) : c.isMain = true := by
  simp only [admitsMain, Bool.and_eq_true] at h
  exact h.1

/-- In merged mode a callback changes the last frame time only for a valid main frame. -/
theorem merge_step_lastFrameTime (K : parser_h) (log : flightLog_t) (options : decodeOptions_t)
    (hmode : mergedMode log options = true) (s : State) (c : FrameCall) :
    (frameReady K log options s c).lastFrameTime
      = if c.isMain && c.frameValid
          then toU32 (rd (c.frame.getD []) (K.FLIGHT_LOG_FIELD_INDEX_TIME : Int))
          else s.lastFrameTime := by
  by_cases hadm : admitsMain options c = true
  · rw [merge_admitMain K log options hmode s c hadm]
    simp [admitsMain_isMain options c hadm]
  · have hadm2 : admitsMain options c = false := by simpa using hadm
    have hno : (c.isMain && c.frameValid) = false := by
      simp only [admitsMain] at hadm2
      by_cases h1 : c.isMain = true <;> by_cases h2 : c.frameValid = true <;> simp_all
    by_cases hg : c.isValidGPS = true
    · have hg2 := hg
      simp only [FrameCall.isValidGPS, FrameCall.isGPS, Bool.and_eq_true, decide_eq_true_eq] at hg2
      rw [merge_validG K log options hmode s c hg2.1 hg2.2, hno]
      simp
    · rw [merge_ignored K log options hmode s c hadm2
        (by simpa [FrameCall.isValidGPS] using hg), hno]
      simp

/-- C11, the code at the failing input.  The coordinate value -1276000 (0.1276 degrees
west) is written as `0.1276000`: the text denotes +1276000 ten-millionths of a degree, the
sign is lost. -/
theorem coordinate_sign_lost :
    printGPSField coordinateTables {} 0 (-1276000) = Except.ok (Printed.text "0.1276000")
      ∧ readDecimalTimes 7 "0.1276000" = some 1276000
      ∧ readDecimalTimes 7 "0.1276000" ≠ some (-1276000) := by
  decide

/-- C12.  A positioning field named `GPS_coord[0]` is classified as a coordinate; for such
a field the value 123456789 is written as `12.3456789`, and every non-negative 32-bit value
`v` is written as the decimal digits of `v / 10^7`, a point, and `v % 10^7` padded with
zeros to exactly seven digits. -/
theorem coordinate_classified_and_formatted (log : flightLog_t) (tables : Tables)
    (options : decodeOptions_t) (i : Nat) (v : Int)
    (hi : i < log.gpsFieldCount) (hlen : i < tables.gpsFieldTypes.length)
    (hname : log.gpsFieldNames.getD i "" = "GPS_coord[0]")
    (hv : 0 ≤ v) (hmax : v < 2147483648) :
    (identifyGPSFields log tables.gpsFieldTypes).getD i GPSFieldType.GPS_FIELD_TYPE_INTEGER
        = GPSFieldType.GPS_FIELD_TYPE_COORDINATE_DEGREES_TIMES_10000000
      ∧ printGPSField { tables with gpsFieldTypes := identifyGPSFields log tables.gpsFieldTypes }
          options i 123456789 = Except.ok (Printed.text "12.3456789")
      ∧ printGPSField { tables with gpsFieldTypes := identifyGPSFields log tables.gpsFieldTypes }
          options i v
        = Except.ok (Printed.text (Nat.repr (v.toNat / 10000000) ++ "."
            ++ padLeft '0' 7 (Nat.repr (v.toNat % 10000000))))
      ∧ (padLeft '0' 7 (Nat.repr (v.toNat % 10000000))).length = 7 := by
  have htype : (identifyGPSFields log tables.gpsFieldTypes).getD i
      GPSFieldType.GPS_FIELD_TYPE_INTEGER
      = GPSFieldType.GPS_FIELD_TYPE_COORDINATE_DEGREES_TIMES_10000000 := by
    rw [identifyGPSFields_getD log _ i hi hlen, hname]
    rfl
  refine ⟨htype, ?_, ?_, ?_⟩
  · rw [coordinate_text_nonneg _ options i 123456789 htype (by norm_num) (by norm_num)]
    decide
  · exact coordinate_text_nonneg _ options i v htype hv hmax
  · apply padLeft_length
    exact Nat.repr_length _ 7 (by norm_num) (Nat.mod_lt _ (by norm_num))

/-- C12 at the positioning field `1` of the sample log and the value 515000000. -/
theorem coordinate_classified_and_formatted_witness :
    (identifyGPSFields exampleLog (Tables.initial exampleConsts).gpsFieldTypes).getD 1
        GPSFieldType.GPS_FIELD_TYPE_INTEGER
        = GPSFieldType.GPS_FIELD_TYPE_COORDINATE_DEGREES_TIMES_10000000
      ∧ printGPSField { Tables.initial exampleConsts with
            gpsFieldTypes := identifyGPSFields exampleLog (Tables.initial exampleConsts).gpsFieldTypes }
          {} 1 123456789 = Except.ok (Printed.text "12.3456789")
      ∧ printGPSField { Tables.initial exampleConsts with
            gpsFieldTypes := identifyGPSFields exampleLog (Tables.initial exampleConsts).gpsFieldTypes }
          {} 1 515000000
        = Except.ok (Printed.text (Nat.repr ((515000000 : Int).toNat / 10000000) ++ "."
            ++ padLeft '0' 7 (Nat.repr ((515000000 : Int).toNat % 10000000))))
      ∧ (padLeft '0' 7 (Nat.repr ((515000000 : Int).toNat % 10000000))).length = 7 :=
  coordinate_classified_and_formatted exampleLog (Tables.initial exampleConsts) {} 1 515000000
    (by decide) (by simp [Tables.initial, exampleConsts]) (by decide) (by decide) (by decide)

/-- C13, the code at the failing input.  For a log whose GPS speed is positioning field 4,
with the default units, `applyFieldUnits` leaves the positioning table raw at position 4 and
stores the GPS-speed unit at position 4 of the main table, which is a stick command; the
header then titles that main column `rcCommand[0] (m/s)` and the speed column `GPS_speed`. -/
theorem gps_speed_unit_in_main_table :
    (applyFieldUnits exampleConsts exampleLogWithSpeed {} (Tables.initial exampleConsts)
        ).gpsGFieldUnit.getD 4 Unit.UNIT_RAW = Unit.UNIT_RAW
      ∧ (applyFieldUnits exampleConsts exampleLogWithSpeed {} (Tables.initial exampleConsts)
        ).mainFieldUnit.getD 4 Unit.UNIT_RAW = Unit.UNIT_METERS_PER_SECOND
      ∧ (onMetadataReady exampleConsts exampleLogWithSpeed mergeOptions
          (Tables.initial exampleConsts)).header
        = some ["loopIteration", "time", "vbatLatest (V)", "amperageLatest (A)",
            "rcCommand[0] (m/s)", "rcCommand[1]",
            "GPS_coord[0]", "GPS_coord[1]", "GPS_altitude", "GPS_speed"] := by
  decide

/-- C14, the code at the failing input.  For a log that names the latitude and the altitude
but not the longitude (index -1), a valid positioning frame still produces a track point, in
independent and in merged mode; its longitude is what the read at index -1 yields. -/
theorem track_point_without_longitude :
    exampleLogNoLongitude.gpsFieldIndexes.GPS_coord1 = -1
      ∧ (decodeFlightLog exampleConsts exampleLogNoLongitude {} {} [gpsCallNoLongitude]).out
          = [Output.gpxPoint 4294967295 515000000 (rd [1500, 515000000, 30] (-1)) 30,
             Output.gpsHeader,
             Output.gpsRow 1500 [Cell.field 1 515000000, Cell.field 2 30]]
      ∧ (decodeFlightLog exampleConsts exampleLogNoLongitude mergeOptions {}
            [gpsCallNoLongitude]).out.filter (fun o => !o.isMergeRow)
          = [Output.gpxPoint 1500 515000000 (rd [1500, 515000000, 30] (-1)) 30] := by
  decide

/-- C18.  With exact arithmetic, `convertMetersPerSecondToUnit` returns `v` for meters per
second, `v * 3600 / 1000 = 3.6 * v` for kilometers per hour and `v * 3600 * 0.00062137` for
miles per hour; 1 m/s becomes 3.6 km/h and a miles-per-hour value within 0.00001 of
2.23694. -/
theorem convert_speed_exact (v : ℚ) :
    convertMetersPerSecondToUnit v Unit.UNIT_METERS_PER_SECOND = Except.ok v
      ∧ convertMetersPerSecondToUnit v Unit.UNIT_KILOMETERS_PER_HOUR = Except.ok (v * 3600 / 1000)
      ∧ v * 3600 / 1000 = 36 / 10 * v
      ∧ convertMetersPerSecondToUnit v Unit.UNIT_MILES_PER_HOUR
          = Except.ok (v * 3600 * (62137 / 100000000))
      ∧ convertMetersPerSecondToUnit 1 Unit.UNIT_KILOMETERS_PER_HOUR = Except.ok (36 / 10)
      ∧ ∃ mph, convertMetersPerSecondToUnit 1 Unit.UNIT_MILES_PER_HOUR = Except.ok mph
          ∧ |mph - 223694 / 100000| < 1 / 100000 := by
  refine ⟨rfl, ?_, by ring, ?_, ?_, ?_⟩
  · simp only [convertMetersPerSecondToUnit]; congr 1; ring
  · simp only [convertMetersPerSecondToUnit]; congr 1; ring
  · simp only [convertMetersPerSecondToUnit]; congr 1; norm_num
  · refine ⟨1 * (62137 / 100000000) * 60 * 60, rfl, ?_⟩
    rw [abs_lt]
    constructor <;> norm_num

/-- C19.  `convertMetersPerSecondToUnit` ends the program, returning no value, exactly when
the target unit is not a speed unit: for raw, mV, mA, V and A on every input, and never for
m/s, km/h and mi/h. -/
theorem convert_speed_fatal_iff (v : ℚ) (u : Unit) :
    (isFatal (convertMetersPerSecondToUnit v u) = true
        ↔ u ≠ Unit.UNIT_METERS_PER_SECOND ∧ u ≠ Unit.UNIT_KILOMETERS_PER_HOUR
          ∧ u ≠ Unit.UNIT_MILES_PER_HOUR)
      ∧ (isFatal (convertMetersPerSecondToUnit v u) = false
        ↔ ∃ x, convertMetersPerSecondToUnit v u = Except.ok x)
      ∧ isFatal (convertMetersPerSecondToUnit v Unit.UNIT_RAW) = true
      ∧ isFatal (convertMetersPerSecondToUnit v Unit.UNIT_MILLIVOLTS) = true
      ∧ isFatal (convertMetersPerSecondToUnit v Unit.UNIT_MILLIAMPS) = true
      ∧ isFatal (convertMetersPerSecondToUnit v Unit.UNIT_VOLTS) = true
      ∧ isFatal (convertMetersPerSecondToUnit v Unit.UNIT_AMPS) = true := by
  refine ⟨?_, ?_, rfl, rfl, rfl, rfl, rfl⟩
  · cases u <;> simp [convertMetersPerSecondToUnit, isFatal]
  · cases u <;> simp [convertMetersPerSecondToUnit, isFatal]

/-- C16, counterexample.  In raw mode with the attitude simulation on, an invalid main frame
whose field array is not null is handed to the estimator, in independent and in merged
mode. -/
theorem estimator_called_for_invalid_frame :
    (invalidImuCall 0 1000 7 512).frameValid = false
      ∧ (decodeFlightLog exampleConsts exampleLogWithImu rawImuOptions {}
          [invalidImuCall 0 1000 7 512]).out.filterMap Output.imuSample
        = [([7, 0, 0], [0, 0, 512], none)]
      ∧ mergedMode exampleLog { raw := true, simulateIMU := true, mergeGPS := true } = true
      ∧ (decodeFlightLog exampleConsts exampleLog
          { raw := true, simulateIMU := true, mergeGPS := true } {}
          [invalidMainCall 0 1000 398]).out.filterMap Output.imuSample
        = [([0, 0, 0], [0, 0, 0], none)] := by
  decide

/-- C16, amended.  With the attitude simulation on, in either mode, the calls of the
estimator made for one log are, in order, one call for each main frame that is valid or, in
raw mode, invalid with a non-null field array, with the samples of that frame; no call is
made for a positioning frame or any other callback.  Their number is the number of valid
main frames plus, in raw mode only, the number of invalid main frames with a non-null field
array. -/
theorem estimator_called_once_per_admitted_main_frame (K : parser_h) (log : flightLog_t)
    (options : decodeOptions_t) (s : State) (calls : List FrameCall)
    (hsim : options.simulateIMU = true) :
    (decodeFlightLog K log options s calls).out.filterMap Output.imuSample
        = (calls.filter (admitsMain options)).filterMap
            (fun c => imuSampleOf log options (c.frame.getD []))
      ∧ ((decodeFlightLog K log options s calls).out.filterMap Output.imuSample).length
        = calls.countP (fun c => c.isMain && c.frameValid)
          + (if options.raw then
              calls.countP (fun c => c.isMain && !c.frameValid && c.frame.isSome) else 0)
      ∧ (options.raw = false →
          ((decodeFlightLog K log options s calls).out.filterMap Output.imuSample).length
            = calls.countP (fun c => c.isMain && c.frameValid)) := by
  have h1 : (decodeFlightLog K log options s calls).out.filterMap Output.imuSample
        = (calls.filter (admitsMain options)).filterMap
            (fun c => imuSampleOf log options (c.frame.getD [])) := by
    rw [decodeFlightLog_imu]
    simp [hsim]
  have h2 : ((decodeFlightLog K log options s calls).out.filterMap Output.imuSample).length
        = calls.countP (fun c => c.isMain && c.frameValid)
          + (if options.raw then
              calls.countP (fun c => c.isMain && !c.frameValid && c.frame.isSome) else 0) := by
    rw [h1, filterMap_imuSampleOf_length, ← List.countP_eq_length_filter, countP_admitsMain]
  refine ⟨h1, h2, ?_⟩
  intro hraw
  rw [h2]
  simp [hraw]

/-- C16, amended, on a log with gyroscope and accelerometer fields: two valid main frames
and, in raw mode, one invalid frame between them give three calls of the estimator. -/
theorem estimator_called_once_per_admitted_main_frame_witness :
    (decodeFlightLog exampleConsts exampleLogWithImu rawImuOptions {}
          [imuMainCall 0 1000 7 512, invalidImuCall 1 2000 8 511, imuMainCall 2 3000 9 510]
        ).out.filterMap Output.imuSample
        = ([imuMainCall 0 1000 7 512, invalidImuCall 1 2000 8 511, imuMainCall 2 3000 9 510].filter
            (admitsMain rawImuOptions)).filterMap
            (fun c => imuSampleOf exampleLogWithImu rawImuOptions (c.frame.getD []))
      ∧ ((decodeFlightLog exampleConsts exampleLogWithImu rawImuOptions {}
          [imuMainCall 0 1000 7 512, invalidImuCall 1 2000 8 511, imuMainCall 2 3000 9 510]
        ).out.filterMap Output.imuSample).length
        = [imuMainCall 0 1000 7 512, invalidImuCall 1 2000 8 511, imuMainCall 2 3000 9 510].countP
            (fun c => c.isMain && c.frameValid)
          + (if rawImuOptions.raw then
              [imuMainCall 0 1000 7 512, invalidImuCall 1 2000 8 511,
                imuMainCall 2 3000 9 510].countP
                (fun c => c.isMain && !c.frameValid && c.frame.isSome) else 0)
      ∧ (rawImuOptions.raw = false →
          ((decodeFlightLog exampleConsts exampleLogWithImu rawImuOptions {}
            [imuMainCall 0 1000 7 512, invalidImuCall 1 2000 8 511, imuMainCall 2 3000 9 510]
          ).out.filterMap Output.imuSample).length
            = [imuMainCall 0 1000 7 512, invalidImuCall 1 2000 8 511,
                imuMainCall 2 3000 9 510].countP (fun c => c.isMain && c.frameValid)) :=
  estimator_called_once_per_admitted_main_frame exampleConsts exampleLogWithImu rawImuOptions {}
    [imuMainCall 0 1000 7 512, invalidImuCall 1 2000 8 511, imuMainCall 2 3000 9 510] rfl

/-- C17, counterexample.  For a log without any field (so without accelerometer and
gyroscope fields) `onMetadataReady` returns before the test: the simulation stays requested,
and a frame callback that follows calls the estimator, which reads the frame at the absent
index -1. -/
theorem simulation_kept_for_log_without_fields :
    emptyLog.mainFieldIndexes.accSmooth0 = -1 ∧ emptyLog.mainFieldIndexes.gyroData0 = -1
      ∧ (onMetadataReady exampleConsts emptyLog imuOptions (Tables.initial exampleConsts)
          ).options.simulateIMU = true
      ∧ (decodeFlightLog_withMetadata exampleConsts emptyLog imuOptions
            (Tables.initial exampleConsts) {}
            [{ frameValid := true, frame := some [], frameType := 'I', fieldCount := 0 }]
          ).2.out
        = [Output.imuUpdate [0, 0, 0] [0, 0, 0] none 0,
           Output.mainRow { frameTime := 0, cells := [], attitude := true } none] := by
  decide

/-- C17, amended.  For a log that has at least one main field, when the attitude simulation
is requested and the accelerometer field or the gyroscope field of axis 0 is absent,
`onMetadataReady` clears the request: the header is the titles of the main fields, followed
in merged mode by the titles of the positioning fields, with no attitude column; and in the
callbacks that follow no row carries the attitude columns and the estimator is never
called. -/
theorem simulation_disabled_without_sensors (K : parser_h) (log : flightLog_t)
    (options : decodeOptions_t) (tables : Tables)
    (hfields : log.mainFieldCount ≠ 0) (hsim : options.simulateIMU = true)
    (habsent : log.mainFieldIndexes.accSmooth0 = -1 ∨ log.mainFieldIndexes.gyroData0 = -1) :
    (onMetadataReady K log options tables).options = { options with simulateIMU := false }
      ∧ (onMetadataReady K log options tables).header
        = some ((List.range log.mainFieldCount).map
              (fun i => columnTitle (log.mainFieldNames.getD i "")
                ((onMetadataReady K log options tables).tables.mainFieldUnit.getD i Unit.UNIT_RAW))
            ++ (if mergedMode log options
                then outputGPSFieldNamesHeader (onMetadataReady K log options tables).tables log
                else []))
      ∧ ∀ (s : State) (calls : List FrameCall),
          ∀ o ∈ (decodeFlightLog_withMetadata K log options tables s calls).2.out,
            o.imuSample = none ∧ o.hasAttitude = false := by
  have hopt : (onMetadataReady K log options tables).options
      = { options with simulateIMU := false } := by
    unfold onMetadataReady
    rcases habsent with h | h <;> simp [hfields, hsim, h]
  refine ⟨hopt, ?_, ?_⟩
  · unfold onMetadataReady
    rcases habsent with h | h <;>
      simp [hfields, hsim, h, writeMainCSVHeader, mergedMode]
  · intro s calls o ho
    have hoff : (onMetadataReady K log options tables).options.simulateIMU = false := by
      rw [hopt]
    simp only [decodeFlightLog_withMetadata] at ho
    constructor
    · have himu := decodeFlightLog_imu K log (onMetadataReady K log options tables).options s calls
      rw [hoff] at himu
      simp only [Bool.false_and, List.filter_false, List.filterMap_nil] at himu
      rw [List.filterMap_eq_nil_iff] at himu
      exact himu o ho
    · have hatt := decodeFlightLog_attitude K log (onMetadataReady K log options tables).options
        s calls o ho
      rw [hoff] at hatt
      cases h : o.hasAttitude with
      | false => rfl
      | true => exact absurd (hatt h) (by simp)

/-- C17, amended, on the sample log (no accelerometer, no gyroscope) with `--simulate-imu`. -/
theorem simulation_disabled_without_sensors_witness :
    (onMetadataReady exampleConsts exampleLog imuOptions (Tables.initial exampleConsts)).options
        = { imuOptions with simulateIMU := false }
      ∧ (onMetadataReady exampleConsts exampleLog imuOptions (Tables.initial exampleConsts)).header
        = some ((List.range exampleLog.mainFieldCount).map
              (fun i => columnTitle (exampleLog.mainFieldNames.getD i "")
                ((onMetadataReady exampleConsts exampleLog imuOptions
                  (Tables.initial exampleConsts)).tables.mainFieldUnit.getD i Unit.UNIT_RAW))
            ++ (if mergedMode exampleLog imuOptions
                then outputGPSFieldNamesHeader (onMetadataReady exampleConsts exampleLog imuOptions
                  (Tables.initial exampleConsts)).tables exampleLog
                else []))
      ∧ ∀ o ∈ (decodeFlightLog_withMetadata exampleConsts exampleLog imuOptions
              (Tables.initial exampleConsts) {} [mainCall 0 1000 398, mainCall 1 2000 397]).2.out,
            o.imuSample = none ∧ o.hasAttitude = false :=
  ⟨(simulation_disabled_without_sensors exampleConsts exampleLog imuOptions
      (Tables.initial exampleConsts) (by decide) rfl (Or.inl rfl)).1,
   (simulation_disabled_without_sensors exampleConsts exampleLog imuOptions
      (Tables.initial exampleConsts) (by decide) rfl (Or.inl rfl)).2.1,
   (simulation_disabled_without_sensors exampleConsts exampleLog imuOptions
      (Tables.initial exampleConsts) (by decide) rfl (Or.inl rfl)).2.2 {}
      [mainCall 0 1000 398, mainCall 1 2000 397]⟩

/-- Equality up to case with a different spelling excludes equality with any of the five
names of the vocabulary. -/
theorem identifyGPSField_other_spelling (name target : String)
    (htarget : target ∈ ["GPS_coord[0]", "GPS_coord[1]", "GPS_altitude", "GPS_speed",
      "GPS_ground_course"])
    (hcase : striequals name target = true) (hne : name ≠ target) :
    identifyGPSField name = GPSFieldType.GPS_FIELD_TYPE_INTEGER := by
  simp only [List.mem_cons, List.mem_singleton, List.not_mem_nil, or_false] at htarget
  have h0 : name ≠ "GPS_coord[0]" := by
    intro h; subst h
    rcases htarget with h | h | h | h | h <;> subst h <;> first | exact hne rfl | revert hcase; decide
  have h1 : name ≠ "GPS_coord[1]" := by
    intro h; subst h
    rcases htarget with h | h | h | h | h <;> subst h <;> first | exact hne rfl | revert hcase; decide
  have h2 : name ≠ "GPS_altitude" := by
    intro h; subst h
    rcases htarget with h | h | h | h | h <;> subst h <;> first | exact hne rfl | revert hcase; decide
  have h3 : name ≠ "GPS_speed" := by
    intro h; subst h
    rcases htarget with h | h | h | h | h <;> subst h <;> first | exact hne rfl | revert hcase; decide
  have h4 : name ≠ "GPS_ground_course" := by
    intro h; subst h
    rcases htarget with h | h | h | h | h <;> subst h <;> first | exact hne rfl | revert hcase; decide
  simp [identifyGPSField, h0, h1, h2, h3, h4]

/-! ## Frames taken and frames dropped -/

theorem isGPS_not_isMain (c : FrameCall) (h : c.isGPS = true) : c.isMain = false := by
  simp only [FrameCall.isGPS, decide_eq_true_eq] at h
  simp [FrameCall.isMain, h]

theorem isGPS_not_admitsMain (options : decodeOptions_t) (c : FrameCall) (h : c.isGPS = true) :
    admitsMain options c = false := by
  simp [admitsMain, isGPS_not_isMain c h]

/-- A callback that is not taken writes no record and leaves the variables of the module as
they are, in either mode. -/
theorem frameReady_not_taken (K : parser_h) (log : flightLog_t) (options : decodeOptions_t)
    (s : State) (c : FrameCall) (h : takesFrame options c = false) :
    (frameReady K log options s c).out.filter Output.isRecord = s.out.filter Output.isRecord
      ∧ (frameReady K log options s c).bufferedMainFrame = s.bufferedMainFrame
      ∧ (frameReady K log options s c).haveBufferedMainFrame = s.haveBufferedMainFrame
      ∧ (frameReady K log options s c).bufferedFrameTime = s.bufferedFrameTime
      ∧ (frameReady K log options s c).bufferedGPSFrame = s.bufferedGPSFrame
      ∧ (frameReady K log options s c).lastFrameTime = s.lastFrameTime := by
  simp only [takesFrame, Bool.or_eq_false_iff] at h
  obtain ⟨hadm, hg⟩ := h
  by_cases hmode : mergedMode log options = true
  · rw [merge_ignored K log options hmode s c hadm (by simpa [FrameCall.isValidGPS] using hg)]
    exact ⟨rfl, rfl, rfl, rfl, rfl, rfl⟩
  · have hmode : mergedMode log options = false := by simpa using hmode
    rw [indep_ignored K log options hmode s c hadm hg]
    refine ⟨?_, rfl, rfl, rfl, rfl, rfl⟩
    simp only [List.filter_append]
    split <;> simp [Output.isRecord]

/-- An invalid positioning frame changes nothing, in either mode and whatever the options. -/
theorem frameReady_invalid_gps (K : parser_h) (log : flightLog_t) (options : decodeOptions_t)
    (s : State) (c : FrameCall) (hG : c.isGPS = true) (hv : c.frameValid = false) :
    frameReady K log options s c = s := by
  have hadm := isGPS_not_admitsMain options c hG
  have hg : c.isValidGPS = false := by simp [FrameCall.isValidGPS, hv]
  by_cases hmode : mergedMode log options = true
  · exact merge_ignored K log options hmode s c hadm (by simpa [FrameCall.isValidGPS] using hg)
  · have hmode : mergedMode log options = false := by simpa using hmode
    rw [indep_ignored K log options hmode s c hadm hg, isGPS_not_isMain c hG]
    simp

/-- In merged mode a main frame that is waiting is written by what follows, whatever
follows: some merge row added before the end of the log carries it. -/
theorem pending_written (K : parser_h) (log : flightLog_t) (options : decodeOptions_t)
    (hmode : mergedMode log options = true) (rest : List FrameCall) (s : State)
    (hhave : s.haveBufferedMainFrame = true) :
    ∃ d, (decodeFlightLog_end K log options (flightLogParse K log options s rest)).out
          = s.out ++ d
      ∧ ∃ r ∈ d, r.carriesMain K log options s.bufferedMainFrame = true := by
  have hm : options.mergeGPS = true := by
    simp only [mergedMode, Bool.and_eq_true] at hmode
    exact hmode.1
  induction rest generalizing s with
  | nil =>
    refine ⟨[mergeRowOf K log options s], ?_, _, List.mem_singleton_self _,
      carriesMain_mergeRowOf K log options _ s (fun _ => rfl)⟩
    simp [flightLogParse, decodeFlightLog_end, hm, hhave, outputMergeFrame, mergeRowOf]
  | cons c cs ih =>
    rw [flightLogParse_cons]
    obtain ⟨d2, hd2⟩ := (flightLogParse_out K log options hmode cs
      (frameReady K log options s c)).trans
      (decodeFlightLog_end_out K log options
        (flightLogParse K log options (frameReady K log options s c) cs))
    by_cases hadm : admitsMain options c = true
    · have hout := congrArg State.out (merge_admitMain K log options hmode s c hadm)
      simp only [hhave, if_true, List.append_assoc] at hout
      refine ⟨_, by rw [← hd2, hout, List.append_assoc], mergeRowOf K log options s, ?_,
        carriesMain_mergeRowOf K log options _ s (fun _ => rfl)⟩
      simp
    · have hadm2 : admitsMain options c = false := by simpa using hadm
      by_cases hg : c.isValidGPS = true
      · have hg2 := hg
        simp only [FrameCall.isValidGPS, FrameCall.isGPS, Bool.and_eq_true,
          decide_eq_true_eq] at hg2
        have hout := congrArg State.out (merge_validG K log options hmode s c hg2.1 hg2.2)
        simp only [List.append_assoc] at hout
        refine ⟨_, by rw [← hd2, hout, List.append_assoc], _, ?_,
          carriesMain_row K log options s.bufferedMainFrame s.bufferedMainFrame
            (mergeGpsFrameTime log s.lastFrameTime (c.frame.getD []))
            (outputGPSFields log (memcpy s.bufferedGPSFrame (c.frame.getD []) c.fieldCount))
            (fun _ => rfl)⟩
        simp
      · rw [merge_ignored K log options hmode s c hadm2
          (by simpa [FrameCall.isValidGPS] using hg)]
        exact ih s hhave

/-! ## The time of a positioning frame -/

/-- What `outputGPSFrame` writes: the track point when the log has the coordinates, the
header when the file is created by this call, and the row when the file is open. -/
theorem outputGPSFrame_out (log : flightLog_t) (fr : List Int) (s : State) :
    (outputGPSFrame log fr s).out
      = s.out
        ++ (if log.gpsFieldIndexes.GPS_coord0 ≠ -1 ∧ log.gpsFieldIndexes.GPS_coord0 ≠ -1
              ∧ log.gpsFieldIndexes.GPS_altitude ≠ -1 then
            [Output.gpxPoint s.lastFrameTime (rd fr log.gpsFieldIndexes.GPS_coord0)
              (rd fr log.gpsFieldIndexes.GPS_coord1) (rd fr log.gpsFieldIndexes.GPS_altitude)]
            else [])
        ++ (if !s.gpsCsvFile && (s.gpsCsvFilename && s.fopenGpsCsv) then [Output.gpsHeader]
            else [])
        ++ (if gpsCsvAvailable s then
            [Output.gpsRow
              (if log.gpsFieldIndexes.time ≠ -1 then toU32 (rd fr log.gpsFieldIndexes.time)
                else s.lastFrameTime) (outputGPSFields log fr)]
            else []) := by
  obtain ⟨lt, bm, hb, bt, bg, fn, ff, fo, out⟩ := s
  unfold outputGPSFrame createGPSCSVFile gpsCsvAvailable
  by_cases h : (log.gpsFieldIndexes.GPS_coord0 ≠ -1 ∧ log.gpsFieldIndexes.GPS_coord0 ≠ -1
        ∧ log.gpsFieldIndexes.GPS_altitude ≠ -1) <;>
    cases ff <;> cases fn <;> cases fo <;> simp [h]

/-- In independent mode a callback changes the last frame time exactly for a main frame that
it takes. -/
theorem indep_step_lastFrameTime (K : parser_h) (log : flightLog_t) (options : decodeOptions_t)
    (hmode : mergedMode log options = false) (s : State) (c : FrameCall) :
    (frameReady K log options s c).lastFrameTime
      = if admitsMain options c
          then toU32 (rd (c.frame.getD []) (K.FLIGHT_LOG_FIELD_INDEX_TIME : Int))
          else s.lastFrameTime := by
  by_cases hadm : admitsMain options c = true
  · rw [indep_admitMain K log options hmode s c hadm]
    simp [hadm]
  · have hadm2 : admitsMain options c = false := by simpa using hadm
    by_cases hg : c.isValidGPS = true
    · rw [indep_validG K log options hmode s c hg, hadm2]
      obtain ⟨d, -, -, h3⟩ := outputGPSFrame_delta log (c.frame.getD []) s
      simpa using h3
    · rw [indep_ignored K log options hmode s c hadm2 (by simpa using hg), hadm2]
      simp

/-- The last frame time after a sequence of callbacks. -/
theorem flightLogParse_lastFrameTime (K : parser_h) (log : flightLog_t)
    (options : decodeOptions_t) (calls : List FrameCall) (s : State) :
    (flightLogParse K log options s calls).lastFrameTime
      = lastSeenMainTime K log options s.lastFrameTime calls := by
  induction calls generalizing s with
  | nil => rfl
  | cons c cs ih =>
    rw [flightLogParse_cons, ih]
    simp only [lastSeenMainTime, setsLastFrameTime]
    congr 1
    by_cases hmode : mergedMode log options = true
    · rw [merge_step_lastFrameTime K log options hmode s c]
      simp [hmode]
    · have hmode : mergedMode log options = false := by simpa using hmode
      rw [indep_step_lastFrameTime K log options hmode s c]
      simp [hmode]

/-- In merged mode callbacks that are not taken leave the state as it is. -/
theorem flightLogParse_not_taken (K : parser_h) (log : flightLog_t) (options : decodeOptions_t)
    (hmode : mergedMode log options = true) (mid : List FrameCall) (s : State)
    (hmid : ∀ x ∈ mid, takesFrame options x = false) :
    flightLogParse K log options s mid = s := by
  induction mid with
  | nil => rfl
  | cons c cs ih =>
    have hc := hmid c (List.mem_cons_self _ _)
    simp only [takesFrame, Bool.or_eq_false_iff] at hc
    rw [flightLogParse_cons,
      merge_ignored K log options hmode s c hc.1 (by simpa [FrameCall.isValidGPS] using hc.2)]
    exact ih (fun x hx => hmid x (List.mem_cons_of_mem _ hx))

/-! ## The buffered positioning payload -/

/-- In merged mode a callback other than a valid positioning frame keeps the buffered
positioning payload, and every merge row it writes carries that payload. -/
theorem merge_step_payload (K : parser_h) (log : flightLog_t) (options : decodeOptions_t)
    (hmode : mergedMode log options = true) (s : State) (c : FrameCall)
    (hc : c.isValidGPS = false) :
    (frameReady K log options s c).bufferedGPSFrame = s.bufferedGPSFrame
      ∧ ∃ d, (frameReady K log options s c).out = s.out ++ d
          ∧ ∀ o ∈ d, ∀ m g, o = Output.mergeRow m g → g = outputGPSFields log s.bufferedGPSFrame := by
  by_cases hadm : admitsMain options c = true
  · have hstep := merge_admitMain K log options hmode s c hadm
    have hout := congrArg State.out hstep
    simp only [List.append_assoc] at hout
    refine ⟨by rw [hstep], _, hout, ?_⟩
    intro o ho m g hmg
    rw [List.mem_append] at ho
    rcases ho with ho | ho
    · split at ho
      · simp only [List.mem_singleton] at ho
        rw [ho, mergeRowOf] at hmg
        injection hmg with h1 h2
        exact h2.symm
      · simp at ho
    · split at ho
      · simp only [List.mem_singleton] at ho
        rw [ho] at hmg
        simp [updateIMU_call] at hmg
      · simp at ho
  · rw [merge_ignored K log options hmode s c (by simpa using hadm)
      (by simpa [FrameCall.isValidGPS] using hc)]
    exact ⟨rfl, [], by simp, by simp⟩

/-- In merged mode a sequence of callbacks without a valid positioning frame keeps the
buffered positioning payload, and every merge row it writes carries that payload. -/
theorem merge_parse_payload (K : parser_h) (log : flightLog_t) (options : decodeOptions_t)
    (hmode : mergedMode log options = true) (calls : List FrameCall) (s : State)
    (hcalls : ∀ c ∈ calls, c.isValidGPS = false) :
    (flightLogParse K log options s calls).bufferedGPSFrame = s.bufferedGPSFrame
      ∧ ∃ d, (flightLogParse K log options s calls).out = s.out ++ d
          ∧ ∀ o ∈ d, ∀ m g, o = Output.mergeRow m g → g = outputGPSFields log s.bufferedGPSFrame := by
  induction calls generalizing s with
  | nil => exact ⟨rfl, [], by simp [flightLogParse], by simp⟩
  | cons c cs ih =>
    rw [flightLogParse_cons]
    obtain ⟨h1, d1, hd1, hr1⟩ := merge_step_payload K log options hmode s c
      (hcalls c (List.mem_cons_self _ _))
    obtain ⟨h2, d2, hd2, hr2⟩ := ih (frameReady K log options s c)
      (fun x hx => hcalls x (List.mem_cons_of_mem _ hx))
    refine ⟨by rw [h2, h1], d1 ++ d2, by rw [hd2, hd1, List.append_assoc], ?_⟩
    intro o ho m g hmg
    rw [List.mem_append] at ho
    rcases ho with ho | ho
    · exact hr1 o ho m g hmg
    · rw [← h1]
      exact hr2 o ho m g hmg

/-! ## The number of merge rows -/

/-- The merge rows of a parse in merged mode, counted together with the row owed to a
waiting main frame. -/
theorem merge_parse_rowCount (K : parser_h) (log : flightLog_t) (options : decodeOptions_t)
    (hmode : mergedMode log options = true) (calls : List FrameCall) (s : State) :
    (mergeRows (flightLogParse K log options s calls).out).length
        + (if (flightLogParse K log options s calls).haveBufferedMainFrame then 1 else 0)
        + sameIterationMerges K log options s.haveBufferedMainFrame s.lastFrameTime calls
      = (mergeRows s.out).length + (if s.haveBufferedMainFrame then 1 else 0)
        + calls.countP (admitsMain options) + calls.countP FrameCall.isValidGPS := by
  induction calls generalizing s with
  | nil => simp [flightLogParse, sameIterationMerges]
  | cons c cs ih =>
    rw [flightLogParse_cons]
    have h := ih (frameReady K log options s c)
    by_cases hg : c.isValidGPS = true
    · have hg2 := hg
      simp only [FrameCall.isValidGPS, FrameCall.isGPS, Bool.and_eq_true,
        decide_eq_true_eq] at hg2
      have hadm : admitsMain options c = false := isGPS_not_admitsMain options c (by
        simp [FrameCall.isGPS, hg2.1])
      have hstep := merge_validG K log options hmode s c hg2.1 hg2.2
      have h1 : (frameReady K log options s c).haveBufferedMainFrame = false := by rw [hstep]
      have h2 : (frameReady K log options s c).lastFrameTime = s.lastFrameTime := by rw [hstep]
      have h3 : (mergeRows (frameReady K log options s c).out).length
          = (mergeRows s.out).length
            + (if (!sameIteration log s.lastFrameTime (c.frame.getD [])
                && s.haveBufferedMainFrame) = true then 1 else 0) + 1 := by
        rw [hstep]
        simp only [mergeRows_append, mergeRows_gpx, mergeRows_row, mergeRows_flush,
          List.length_append, List.append_nil, List.length_singleton]
        split <;> simp
      rw [h1, h2] at h
      simp only [sameIterationMerges, hg, if_true, List.countP_cons, hadm]
      rw [h3] at h
      by_cases ha : s.haveBufferedMainFrame = true <;>
        by_cases hb : sameIteration log s.lastFrameTime (c.frame.getD []) = true <;>
        simp [ha, hb] at h ⊢ <;> omega
    · have hg3 : c.isValidGPS = false := by simpa using hg
      by_cases hadm : admitsMain options c = true
      · have hstep := merge_admitMain K log options hmode s c hadm
        have h1 : (frameReady K log options s c).haveBufferedMainFrame = true := by rw [hstep]
        have h2 : (frameReady K log options s c).lastFrameTime
            = (if c.frameValid
                then toU32 (rd (c.frame.getD []) (K.FLIGHT_LOG_FIELD_INDEX_TIME : Int))
                else s.lastFrameTime) := by rw [hstep]
        have h3 : (mergeRows (frameReady K log options s c).out).length
            = (mergeRows s.out).length + (if s.haveBufferedMainFrame then 1 else 0) := by
          rw [hstep]
          simp only [mergeRows_append, mergeRows_imu, mergeRows_flush, List.length_append,
            List.append_nil]
          split <;> simp
        rw [h1, h2, h3] at h
        simp only [sameIterationMerges, hg3, hadm, if_true, List.countP_cons]
        simp at h ⊢
        omega
      · have hadm2 : admitsMain options c = false := by simpa using hadm
        rw [merge_ignored K log options hmode s c hadm2
          (by simpa [FrameCall.isValidGPS] using hg3)] at h ⊢
        simp only [sameIterationMerges, hg3, hadm2, List.countP_cons]
        simp at h ⊢
        omega

/-! ## The columns of the rows and of the header -/

theorem rowOfLog_mergeRowOf (K : parser_h) (log : flightLog_t) (options : decodeOptions_t)
    (hmode : mergedMode log options = true) (s : State) :
    (mergeRowOf K log options s).rowOfLog K log options :=
  ⟨hmode, ⟨_, _, rfl⟩, ⟨_, rfl⟩⟩

theorem rowOfLog_updateIMU_call (K : parser_h) (log : flightLog_t) (options : decodeOptions_t)
    (f : List Int) (t : Nat) : (updateIMU_call log options f t).rowOfLog K log options :=
  trivial

/-- Every row that a callback writes to the main CSV file has the form of its mode. -/
theorem frameReady_rowOfLog (K : parser_h) (log : flightLog_t) (options : decodeOptions_t)
    (s : State) (c : FrameCall) :
    ∃ d, (frameReady K log options s c).out = s.out ++ d
      ∧ ∀ o ∈ d, o.rowOfLog K log options := by
  by_cases hmode : mergedMode log options = true
  · by_cases hadm : admitsMain options c = true
    · have hout := congrArg State.out (merge_admitMain K log options hmode s c hadm)
      simp only [List.append_assoc] at hout
      refine ⟨_, hout, ?_⟩
      intro o ho
      rw [List.mem_append] at ho
      rcases ho with ho | ho
      · split at ho
        · simp only [List.mem_singleton] at ho
          rw [ho]; exact rowOfLog_mergeRowOf K log options hmode s
        · simp at ho
      · split at ho
        · simp only [List.mem_singleton] at ho
          rw [ho]; exact rowOfLog_updateIMU_call K log options _ _
        · simp at ho
    · have hadm2 : admitsMain options c = false := by simpa using hadm
      by_cases hg : c.isValidGPS = true
      · have hg2 := hg
        simp only [FrameCall.isValidGPS, FrameCall.isGPS, Bool.and_eq_true, decide_eq_true_eq] at hg2
        have hout := congrArg State.out (merge_validG K log options hmode s c hg2.1 hg2.2)
        simp only [List.append_assoc] at hout
        refine ⟨_, hout, ?_⟩
        intro o ho
        simp only [List.mem_append, List.mem_singleton] at ho
        rcases ho with ho | ho | ho
        · split at ho
          · simp only [List.mem_singleton] at ho
            rw [ho]; exact rowOfLog_mergeRowOf K log options hmode s
          · simp at ho
        · rw [ho]; exact ⟨hmode, ⟨_, _, rfl⟩, ⟨_, rfl⟩⟩
        · split at ho
          · simp only [List.mem_singleton] at ho
            rw [ho]; trivial
          · simp at ho
      · rw [merge_ignored K log options hmode s c hadm2
          (by simpa [FrameCall.isValidGPS] using hg)]
        exact ⟨[], by simp, by simp⟩
  · have hmode : mergedMode log options = false := by simpa using hmode
    by_cases hadm : admitsMain options c = true
    · have hout := congrArg State.out (indep_admitMain K log options hmode s c hadm)
      simp only [List.append_assoc] at hout
      refine ⟨_, hout, ?_⟩
      intro o ho
      rw [List.mem_append] at ho
      rcases ho with ho | ho
      · split at ho
        · simp only [List.mem_singleton] at ho
          rw [ho]; exact rowOfLog_updateIMU_call K log options _ _
        · simp at ho
      · simp only [List.mem_singleton] at ho
        rw [ho]
        refine ⟨hmode, ⟨_, _, rfl⟩, ?_⟩
        intro hd
        simp [hd]
    · have hadm2 : admitsMain options c = false := by simpa using hadm
      by_cases hg : c.isValidGPS = true
      · rw [indep_validG K log options hmode s c hg]
        obtain ⟨d, h1, h2, -⟩ := outputGPSFrame_delta log (c.frame.getD []) s
        refine ⟨d, h1, ?_⟩
        intro o ho
        have h3 := (h2 o ho).2
        cases o <;> trivial
      · rw [indep_ignored K log options hmode s c hadm2 (by simpa using hg)]
        refine ⟨_, rfl, ?_⟩
        intro o ho
        split at ho
        · simp only [List.mem_singleton] at ho
          rw [ho]; trivial
        · simp at ho

/-- Every row written to the main CSV file for one log has the form of its mode. -/
theorem decodeFlightLog_rowOfLog (K : parser_h) (log : flightLog_t) (options : decodeOptions_t)
    (s : State) (calls : List FrameCall) :
    ∀ o ∈ (decodeFlightLog K log options s calls).out, o.rowOfLog K log options := by
  have hparse : ∀ (calls : List FrameCall) (s : State),
      (∀ o ∈ s.out, o.rowOfLog K log options) →
      ∀ o ∈ (flightLogParse K log options s calls).out, o.rowOfLog K log options := by
    intro calls
    induction calls with
    | nil => intro s hs; exact hs
    | cons c cs ih =>
      intro s hs
      rw [flightLogParse_cons]
      apply ih
      obtain ⟨d, hd, hrow⟩ := frameReady_rowOfLog K log options s c
      rw [hd]
      intro o ho
      rw [List.mem_append] at ho
      rcases ho with ho | ho
      · exact hs o ho
      · exact hrow o ho
  have hp := hparse calls (decodeFlightLog_begin K options s)
    (by rw [decodeFlightLog_begin_out]; simp)
  by_cases hmode : mergedMode log options = true
  · unfold decodeFlightLog decodeFlightLog_end
    split
    · intro o ho
      simp only [outputMergeFrame, List.mem_append, List.mem_singleton] at ho
      rcases ho with ho | ho
      · exact hp o ho
      · rw [ho]; exact ⟨hmode, ⟨_, _, rfl⟩, ⟨_, rfl⟩⟩
    · exact hp
  · have hmode : mergedMode log options = false := by simpa using hmode
    have hhave := (independent_parse_mainRows K log options hmode calls
      (decodeFlightLog_begin K options s)).2
    have hend : decodeFlightLog_end K log options
        (flightLogParse K log options (decodeFlightLog_begin K options s) calls)
        = flightLogParse K log options (decodeFlightLog_begin K options s) calls := by
      unfold decodeFlightLog_end
      rw [hhave]
      cases hm : options.mergeGPS <;> simp [decodeFlightLog_begin, hm]
    unfold decodeFlightLog
    rw [hend]
    exact hp

/-- A writer loop that ends writes one column for each element. -/
theorem printAll_length {α : Type} (print : α → Except String Printed) (xs : List α)
    (cols : List Printed) (h : printAll print xs = Except.ok cols) : cols.length = xs.length := by
  induction xs generalizing cols with
  | nil =>
    simp only [printAll] at h
    injection h with h
    subst h
    rfl
  | cons x xs ih =>
    unfold printAll at h
    cases h1 : print x with
    | error e => rw [h1] at h; simp at h
    | ok col =>
      cases h2 : printAll print xs with
      | error e => rw [h1, h2] at h; simp at h
      | ok rest =>
        rw [h1, h2] at h
        simp only at h
        injection h with h
        rw [← h, List.length_cons, ih rest h2, List.length_cons]

theorem renderMainFrameFields_length (K : parser_h) (cal : Calibration) (tables : Tables)
    (log : flightLog_t) (options o2 : decodeOptions_t) (t : Nat) (f : List Int)
    (cols : List Printed)
    (h : renderMainFrameFields cal tables log options (outputMainFrameFields K log o2 t f)
      = Except.ok cols) :
    cols.length = log.mainFieldCount + (if o2.simulateIMU then 3 else 0) := by
  unfold renderMainFrameFields at h
  cases h1 : printAll (printMainCell cal tables log options)
      (outputMainFrameFields K log o2 t f).cells with
  | error e => rw [h1] at h; simp [Except.map] at h
  | ok main =>
    rw [h1] at h
    simp only [Except.map, Except.ok.injEq] at h
    have hl := printAll_length _ _ _ h1
    simp only [outputMainFrameFields, List.length_map, List.length_range] at hl
    rw [← h, List.length_append, hl]
    simp only [outputMainFrameFields]
    split <;> rfl

theorem onMetadataReady_mergedMode (K : parser_h) (log : flightLog_t)
    (options : decodeOptions_t) (tables : Tables) :
    mergedMode log (onMetadataReady K log options tables).options = mergedMode log options := by
  unfold onMetadataReady
  by_cases hn : log.mainFieldCount = 0
  · simp [hn]
  · simp only [hn, if_false]
    split <;> rfl

theorem onMetadataReady_debug (K : parser_h) (log : flightLog_t)
    (options : decodeOptions_t) (tables : Tables) :
    (onMetadataReady K log options tables).options.debug = options.debug := by
  unfold onMetadataReady
  by_cases hn : log.mainFieldCount = 0
  · simp [hn]
  · simp only [hn, if_false]
    split <;> rfl

theorem writeMainCSVHeader_length (tables : Tables) (log : flightLog_t)
    (options : decodeOptions_t) :
    (writeMainCSVHeader tables log options).length
      = log.mainFieldCount + (if options.simulateIMU then 3 else 0)
        + (if mergedMode log options then
            ((List.range log.gpsFieldCount).filter
              (fun (i : Nat) => decide (Int.ofNat i ≠ log.gpsFieldIndexes.time))).length
          else 0) := by
  simp only [writeMainCSVHeader, List.length_append, List.length_map, List.length_range,
    outputGPSFieldNamesHeader]
  by_cases h1 : options.simulateIMU = true <;> by_cases h2 : mergedMode log options = true <;>
    simp [h1, h2]

theorem onMetadataReady_header (K : parser_h) (log : flightLog_t)
    (options : decodeOptions_t) (tables : Tables) (header : List String)
    (h : (onMetadataReady K log options tables).header = some header) :
    header = writeMainCSVHeader (onMetadataReady K log options tables).tables log
      (onMetadataReady K log options tables).options := by
  unfold onMetadataReady at h ⊢
  by_cases hn : log.mainFieldCount = 0
  · simp [hn] at h
  · simp only [hn, if_false, Option.some.injEq] at h ⊢
    exact h.symm

/-- The header that `onMetadataReady` writes has one title for each main field, three for
the attitude when the simulation is on, and in merged mode one for each positioning field
other than the time. -/
theorem onMetadataReady_header_length (K : parser_h) (log : flightLog_t)
    (options : decodeOptions_t) (tables : Tables) (header : List String)
    (h : (onMetadataReady K log options tables).header = some header) :
    header.length
      = log.mainFieldCount
        + (if (onMetadataReady K log options tables).options.simulateIMU then 3 else 0)
        + (if mergedMode log options then
            ((List.range log.gpsFieldCount).filter
              (fun (i : Nat) => decide (Int.ofNat i ≠ log.gpsFieldIndexes.time))).length
          else 0) := by
  rw [onMetadataReady_header K log options tables header h, writeMainCSVHeader_length,
    onMetadataReady_mergedMode]

/-! ## The claims on classification, emission, state and counts -/

/-- C21.  `identifyGPSFields` gives every positioning field below the field count the type
chosen from its name by exact comparison: `GPS_coord[0]` and `GPS_coord[1]` are coordinates,
`GPS_altitude` is meters, `GPS_speed` is a speed in centimeters per second,
`GPS_ground_course` is a heading in tenths of a degree, and every other name is a plain
integer, in particular every name that equals one of the five up to case but is spelled
differently. -/
theorem classifier_exact_name_match (log : flightLog_t) (types : List GPSFieldType) (i : Nat)
    (hi : i < log.gpsFieldCount) (hlen : i < types.length) :
    (identifyGPSFields log types).getD i GPSFieldType.GPS_FIELD_TYPE_INTEGER
        = identifyGPSField (log.gpsFieldNames.getD i "")
      ∧ identifyGPSField "GPS_coord[0]"
          = GPSFieldType.GPS_FIELD_TYPE_COORDINATE_DEGREES_TIMES_10000000
      ∧ identifyGPSField "GPS_coord[1]"
          = GPSFieldType.GPS_FIELD_TYPE_COORDINATE_DEGREES_TIMES_10000000
      ∧ identifyGPSField "GPS_altitude" = GPSFieldType.GPS_FIELD_TYPE_METERS
      ∧ identifyGPSField "GPS_speed" = GPSFieldType.GPS_FIELD_TYPE_METERS_PER_SECOND_TIMES_100
      ∧ identifyGPSField "GPS_ground_course" = GPSFieldType.GPS_FIELD_TYPE_DEGREES_TIMES_10
      ∧ (∀ name : String, name ≠ "GPS_coord[0]" → name ≠ "GPS_coord[1]" → name ≠ "GPS_altitude"
          → name ≠ "GPS_speed" → name ≠ "GPS_ground_course"
          → identifyGPSField name = GPSFieldType.GPS_FIELD_TYPE_INTEGER)
      ∧ (∀ name target : String,
          target ∈ ["GPS_coord[0]", "GPS_coord[1]", "GPS_altitude", "GPS_speed",
            "GPS_ground_course"]
          → striequals name target = true → name ≠ target
          → identifyGPSField name = GPSFieldType.GPS_FIELD_TYPE_INTEGER)
      ∧ identifyGPSField "gps_coord[0]" = GPSFieldType.GPS_FIELD_TYPE_INTEGER
      ∧ identifyGPSField "GPS_Speed" = GPSFieldType.GPS_FIELD_TYPE_INTEGER := by
  refine ⟨identifyGPSFields_getD log types i hi hlen, by decide, by decide, by decide,
    by decide, by decide, ?_, identifyGPSField_other_spelling, by decide, by decide⟩
  intro name h0 h1 h2 h3 h4
  simp [identifyGPSField, h0, h1, h2, h3, h4]

/-- C21 at the positioning field `3` of the sample log with speed (`GPS_altitude`). -/
theorem classifier_exact_name_match_witness :
    (identifyGPSFields exampleLogWithSpeed (Tables.initial exampleConsts).gpsFieldTypes).getD 3
        GPSFieldType.GPS_FIELD_TYPE_INTEGER
      = identifyGPSField (exampleLogWithSpeed.gpsFieldNames.getD 3 "") :=
  (classifier_exact_name_match exampleLogWithSpeed (Tables.initial exampleConsts).gpsFieldTypes 3
    (by decide) (by simp [Tables.initial, exampleConsts])).1

/-- C29, the code at the failing input.  For a main frame at time 1000 followed by a valid
positioning frame whose embedded time is 1500, independent mode hands the track writer the
time 1000 (the last main-frame time) while the row of the positioning table has the time
1500; merged mode hands the track writer 1500, the time of the frame's merge row. -/
theorem track_point_time_differs_between_modes :
    (decodeFlightLog exampleConsts exampleLog {} {}
        [mainCall 0 1000 398, gpsCall 1500 515000000 (-1270000) 30]).out.filterMap
        Output.trackPoint = [(1000, 515000000, -1270000, 30)]
      ∧ (decodeFlightLog exampleConsts exampleLog {} {}
        [mainCall 0 1000 398, gpsCall 1500 515000000 (-1270000) 30]).out.filterMap
        Output.gpsRowOf
        = [(1500, [Cell.field 1 515000000, Cell.field 2 (-1270000), Cell.field 3 30])]
      ∧ (decodeFlightLog exampleConsts exampleLog mergeOptions {}
        [mainCall 0 1000 398, gpsCall 1500 515000000 (-1270000) 30]).out.filterMap
        Output.trackPoint = [(1500, 515000000, -1270000, 30)]
      ∧ mergeRowTimes (decodeFlightLog exampleConsts exampleLog mergeOptions {}
        [mainCall 0 1000 398, gpsCall 1500 515000000 (-1270000) 30]).out = [1000, 1500] := by
  decide

/-- C23, the code at the failing input.  The last frame time survives the end of a log: a
log whose first frame is undecodable and whose positioning frame has no time field gets the
time 4294967295 when it is the first log of the run, and the time 1000 of the last main frame
of the log before when it is the second.  The request for the attitude simulation does not
survive a log without sensors: the log that follows has gyroscope and accelerometer fields,
yet its header has no attitude columns and the estimator is not called, unlike when it is
decoded first. -/
theorem records_depend_on_previous_log :
    (decodeLogs exampleConsts {} (Tables.initial exampleConsts) {}
        [(exampleLogNoGpsTime, [undecodableFrame, gpsCallNoTime 515000000 (-1270000) 30])]).map
        (fun r => r.2.out.filterMap Output.gpsRowOf)
      = [[(4294967295, [Cell.field 0 515000000, Cell.field 1 (-1270000), Cell.field 2 30])]]
    ∧ (decodeLogs exampleConsts {} (Tables.initial exampleConsts) {}
        [(exampleLogNoGpsTime, [mainCall 0 1000 398]),
         (exampleLogNoGpsTime, [undecodableFrame, gpsCallNoTime 515000000 (-1270000) 30])]).map
        (fun r => r.2.out.filterMap Output.gpsRowOf)
      = [[], [(1000, [Cell.field 0 515000000, Cell.field 1 (-1270000), Cell.field 2 30])]]
    ∧ (decodeLogs exampleConsts imuOptions (Tables.initial exampleConsts) {}
        [(exampleLogWithImu, [imuMainCall 0 1000 7 512])]).map (fun r => r.1.header)
      = [some ["loopIteration", "time", "gyroData[0]", "gyroData[1]", "gyroData[2]",
            "accSmooth[0]", "accSmooth[1]", "accSmooth[2]", "roll", "pitch", "heading"]]
    ∧ (decodeLogs exampleConsts imuOptions (Tables.initial exampleConsts) {}
        [(exampleLogWithImu, [imuMainCall 0 1000 7 512])]).map
        (fun r => r.2.out.filterMap Output.imuSample)
      = [[([7, 0, 0], [0, 0, 512], none)]]
    ∧ (decodeLogs exampleConsts imuOptions (Tables.initial exampleConsts) {}
        [(exampleLog, [mainCall 0 1000 398]),
         (exampleLogWithImu, [imuMainCall 0 1000 7 512])]).map (fun r => r.1.header)
      = [some ["loopIteration", "time", "vbatLatest (V)"],
         some ["loopIteration", "time", "gyroData[0]", "gyroData[1]", "gyroData[2]",
            "accSmooth[0]", "accSmooth[1]", "accSmooth[2]"]]
    ∧ (decodeLogs exampleConsts imuOptions (Tables.initial exampleConsts) {}
        [(exampleLog, [mainCall 0 1000 398]),
         (exampleLogWithImu, [imuMainCall 0 1000 7 512])]).map
        (fun r => r.2.out.filterMap Output.imuSample)
      = [[], []] := by
  refine ⟨by decide, by decide, by decide, by decide, by decide, by decide⟩

/-- C22, counterexample.  In raw mode an invalid positioning frame whose field array is not
null is not emitted: the log writes nothing for it, in independent and in merged mode. -/
theorem invalid_gps_frame_dropped_in_raw_mode :
    rawOptions.raw = true
      ∧ (invalidGpsCall 1500 515000000 (-1270000) 30).frameValid = false
      ∧ (invalidGpsCall 1500 515000000 (-1270000) 30).frame.isSome = true
      ∧ (decodeFlightLog exampleConsts exampleLog rawOptions {}
          [invalidGpsCall 1500 515000000 (-1270000) 30]).out = []
      ∧ mergedMode exampleLog { raw := true, mergeGPS := true } = true
      ∧ (decodeFlightLog exampleConsts exampleLog { raw := true, mergeGPS := true } {}
          [invalidGpsCall 1500 515000000 (-1270000) 30]).out = [] := by
  decide

/-- C22, amended.  A main frame is taken exactly when it is valid, or raw mode is set and
its field array is not null; a positioning frame is taken exactly when it is valid, in raw
mode too.  A callback that is not taken writes no record and changes no variable, and an
invalid positioning frame changes nothing at all.  A main frame that is taken is written as
one row in independent mode, and in merged mode it is buffered and carried by a merge row
written later, whatever follows.  A valid positioning frame writes a merge row with its
payload in merged mode, and in independent mode a row of the positioning table when that
file is open or can be created. -/
theorem frame_taken_iff (K : parser_h) (log : flightLog_t) (options : decodeOptions_t)
    (s : State) (c : FrameCall) :
    takesFrame options c
        = ((c.isMain && (c.frameValid || (c.frame.isSome && options.raw)))
            || (c.isGPS && c.frameValid))
      ∧ (takesFrame options c = false →
          (frameReady K log options s c).out.filter Output.isRecord
              = s.out.filter Output.isRecord
            ∧ (frameReady K log options s c).bufferedMainFrame = s.bufferedMainFrame
            ∧ (frameReady K log options s c).haveBufferedMainFrame = s.haveBufferedMainFrame
            ∧ (frameReady K log options s c).bufferedFrameTime = s.bufferedFrameTime
            ∧ (frameReady K log options s c).bufferedGPSFrame = s.bufferedGPSFrame
            ∧ (frameReady K log options s c).lastFrameTime = s.lastFrameTime)
      ∧ (c.isGPS = true → c.frameValid = false → frameReady K log options s c = s)
      ∧ (admitsMain options c = true → mergedMode log options = false →
          (frameReady K log options s c).out.filter Output.isRecord
            = s.out.filter Output.isRecord
              ++ [Output.mainRow
                    (outputMainFrameFields K log options
                      (if c.frameValid
                        then toU32 (rd (c.frame.getD []) (K.FLIGHT_LOG_FIELD_INDEX_TIME : Int))
                        else UINT32_MINUS_ONE) (c.frame.getD []))
                    (if options.debug then some (c.frameType, c.frameOffset, c.frameSize)
                      else none)])
      ∧ (admitsMain options c = true → mergedMode log options = true →
          (frameReady K log options s c).haveBufferedMainFrame = true
            ∧ (frameReady K log options s c).bufferedMainFrame
                = memcpy s.bufferedMainFrame (c.frame.getD []) c.fieldCount
            ∧ ∀ rest : List FrameCall,
                ∃ d, (decodeFlightLog_end K log options
                      (flightLogParse K log options (frameReady K log options s c) rest)).out
                    = (frameReady K log options s c).out ++ d
                  ∧ ∃ r ∈ d, r.carriesMain K log options
                      (memcpy s.bufferedMainFrame (c.frame.getD []) c.fieldCount) = true)
      ∧ (c.isValidGPS = true → mergedMode log options = true →
          ∃ m before after,
            (frameReady K log options s c).out
              = s.out ++ before
                ++ [Output.mergeRow m
                      (outputGPSFields log
                        (memcpy s.bufferedGPSFrame (c.frame.getD []) c.fieldCount))]
                ++ after)
      ∧ (c.isValidGPS = true → mergedMode log options = false →
          frameReady K log options s c = outputGPSFrame log (c.frame.getD []) s
            ∧ ((s.gpsCsvFile = true ∨ (s.gpsCsvFilename = true ∧ s.fopenGpsCsv = true)) →
                ∃ t, (frameReady K log options s c).out.getLast?
                  = some (Output.gpsRow t (outputGPSFields log (c.frame.getD []))))) := by
  refine ⟨rfl, frameReady_not_taken K log options s c, frameReady_invalid_gps K log options s c,
    ?_, ?_, ?_, ?_⟩
  · intro hadm hmode
    rw [indep_admitMain K log options hmode s c hadm]
    simp only [List.filter_append]
    have h1 : (if options.simulateIMU then
        [updateIMU_call log options (c.frame.getD [])
          (toU32 (rd (c.frame.getD []) (K.FLIGHT_LOG_FIELD_INDEX_TIME : Int)))] else []).filter
        Output.isRecord = [] := by
      split <;> rfl
    rw [h1, List.append_nil]
    rfl
  · intro hadm hmode
    have hstep := merge_admitMain K log options hmode s c hadm
    have h1 : (frameReady K log options s c).haveBufferedMainFrame = true := by rw [hstep]
    have h2 : (frameReady K log options s c).bufferedMainFrame
        = memcpy s.bufferedMainFrame (c.frame.getD []) c.fieldCount := by rw [hstep]
    refine ⟨h1, h2, ?_⟩
    intro rest
    rw [← h2]
    exact pending_written K log options hmode rest _ h1
  · intro hg hmode
    have hg2 := hg
    simp only [FrameCall.isValidGPS, FrameCall.isGPS, Bool.and_eq_true, decide_eq_true_eq] at hg2
    have hout := congrArg State.out (merge_validG K log options hmode s c hg2.1 hg2.2)
    exact ⟨_, _, _, hout⟩
  · intro hg hmode
    refine ⟨indep_validG K log options hmode s c hg, ?_⟩
    intro hfile
    rw [indep_validG K log options hmode s c hg]
    obtain ⟨lt, bm, hb, bt, bg, fn, ff, fo, out⟩ := s
    simp only at hfile
    unfold outputGPSFrame createGPSCSVFile
    by_cases h : (log.gpsFieldIndexes.GPS_coord0 ≠ -1 ∧ log.gpsFieldIndexes.GPS_coord0 ≠ -1
        ∧ log.gpsFieldIndexes.GPS_altitude ≠ -1) <;>
      cases ff <;> cases fn <;> cases fo <;> simp [h] at hfile ⊢

/-- C22, amended, on the sample log in raw mode: an invalid positioning frame changes
nothing, and an invalid main frame with a field array is written as one row. -/
theorem frame_taken_iff_witness :
    frameReady exampleConsts exampleLog rawOptions {}
        (invalidGpsCall 1500 515000000 (-1270000) 30) = {}
      ∧ (frameReady exampleConsts exampleLog rawOptions {}
          (invalidMainCall 1 2000 397)).out.filter Output.isRecord
        = ({} : State).out.filter Output.isRecord
          ++ [Output.mainRow
                (outputMainFrameFields exampleConsts exampleLog rawOptions
                  (if (invalidMainCall 1 2000 397).frameValid
                    then toU32 (rd ((invalidMainCall 1 2000 397).frame.getD [])
                      (exampleConsts.FLIGHT_LOG_FIELD_INDEX_TIME : Int))
                    else UINT32_MINUS_ONE) ((invalidMainCall 1 2000 397).frame.getD []))
                (if rawOptions.debug
                  then some ((invalidMainCall 1 2000 397).frameType,
                    (invalidMainCall 1 2000 397).frameOffset, (invalidMainCall 1 2000 397).frameSize)
                  else none)] :=
  ⟨(frame_taken_iff exampleConsts exampleLog rawOptions {}
      (invalidGpsCall 1500 515000000 (-1270000) 30)).2.2.1 rfl rfl,
   (frame_taken_iff exampleConsts exampleLog rawOptions {}
      (invalidMainCall 1 2000 397)).2.2.2.1 (by decide) (by decide)⟩

/-- C24, the code at the failing input.  In raw mode, for a valid main frame at time 1000,
an invalid main frame whose time field holds 2000 and a valid positioning frame of a stream
without time field: independent mode writes the invalid frame with the marker in its time
column, and yet writes the positioning frame (row and track point) with the time 2000 taken
from that frame; merged mode writes the positioning frame with the time 1000 of the last
valid main frame. -/
theorem gps_time_differs_between_modes_in_raw_mode :
    (decodeFlightLog exampleConsts exampleLogNoGpsTime rawOptions {}
        [mainCall 0 1000 398, invalidMainCall 1 2000 397,
          gpsCallNoTime 515000000 (-1270000) 30]).out
      = [Output.mainRow
          { frameTime := 1000
            cells := [Cell.field 0 0, Cell.time 1000, Cell.field 2 398]
            attitude := false } none,
         Output.mainRow
          { frameTime := 4294967295
            cells := [Cell.field 0 1, Cell.timeUnknown, Cell.field 2 397]
            attitude := false } none,
         Output.gpxPoint 2000 515000000 (-1270000) 30,
         Output.gpsHeader,
         Output.gpsRow 2000
          [Cell.field 0 515000000, Cell.field 1 (-1270000), Cell.field 2 30]]
    ∧ mergedMode exampleLogNoGpsTime { raw := true, mergeGPS := true } = true
    ∧ (decodeFlightLog exampleConsts exampleLogNoGpsTime { raw := true, mergeGPS := true } {}
        [mainCall 0 1000 398, invalidMainCall 1 2000 397,
          gpsCallNoTime 515000000 (-1270000) 30]).out
      = [Output.mergeRow
          { frameTime := 1000
            cells := [Cell.field 0 0, Cell.time 1000, Cell.field 2 398]
            attitude := false }
          [Cell.field 0 0, Cell.field 1 0, Cell.field 2 0],
         Output.mergeRow
          { frameTime := 1000
            cells := [Cell.field 0 1, Cell.time 1000, Cell.field 2 397]
            attitude := false }
          [Cell.field 0 515000000, Cell.field 1 (-1270000), Cell.field 2 30],
         Output.gpxPoint 1000 515000000 (-1270000) 30] := by
  refine ⟨by decide, by decide, by decide⟩

/-- What both callbacks write as the time of a valid positioning frame, in terms of the
variable `lastFrameTime`: the embedded time when the positioning stream has a time field,
and otherwise the value of the variable, which merged mode sets from valid main frames only
and independent mode from every main frame it takes. -/
theorem gps_frame_time_written (K : parser_h) (log : flightLog_t) (options : decodeOptions_t)
    (s : State) (pre : List FrameCall) (c : FrameCall) (hg : c.isValidGPS = true) :
    (mergedMode log options = true →
        ∃ before after,
          (frameReady K log options (flightLogParse K log options s pre) c).out
            = (flightLogParse K log options s pre).out ++ before
              ++ [Output.mergeRow
                    (outputMainFrameFields K log options
                      (if log.gpsFieldIndexes.time = -1
                        then lastSeenMainTime K log options s.lastFrameTime pre
                        else toU32 (rd (c.frame.getD []) log.gpsFieldIndexes.time))
                      (flightLogParse K log options s pre).bufferedMainFrame)
                    (outputGPSFields log
                      (memcpy (flightLogParse K log options s pre).bufferedGPSFrame
                        (c.frame.getD []) c.fieldCount))]
              ++ after)
      ∧ (mergedMode log options = false →
          (frameReady K log options (flightLogParse K log options s pre) c).out.filterMap
              Output.gpsRowOf
            = (flightLogParse K log options s pre).out.filterMap Output.gpsRowOf
              ++ (if gpsCsvAvailable (flightLogParse K log options s pre) then
                  [((if log.gpsFieldIndexes.time ≠ -1
                      then toU32 (rd (c.frame.getD []) log.gpsFieldIndexes.time)
                      else lastSeenMainTime K log options s.lastFrameTime pre),
                    outputGPSFields log (c.frame.getD []))]
                  else []))
      ∧ (options.raw = false →
          ∀ x : FrameCall, setsLastFrameTime log options x = (x.isMain && x.frameValid)) := by
  have hlast := flightLogParse_lastFrameTime K log options pre s
  refine ⟨?_, ?_, ?_⟩
  · intro hmode
    have hg2 := hg
    simp only [FrameCall.isValidGPS, FrameCall.isGPS, Bool.and_eq_true, decide_eq_true_eq] at hg2
    have hout := congrArg State.out
      (merge_validG K log options hmode (flightLogParse K log options s pre) c hg2.1 hg2.2)
    rw [mergeGpsFrameTime_eq, hlast] at hout
    exact ⟨_, _, hout⟩
  · intro hmode
    rw [indep_validG K log options hmode _ c hg, outputGPSFrame_out, hlast]
    simp only [List.filterMap_append]
    have h1 : ∀ (p : Prop) [Decidable p] (t : Nat) (a b d : Int),
        (if p then [Output.gpxPoint t a b d] else []).filterMap Output.gpsRowOf = [] := by
      intro p _ t a b d; split <;> rfl
    have h2 : ∀ (p : Prop) [Decidable p],
        (if p then [Output.gpsHeader] else []).filterMap Output.gpsRowOf = [] := by
      intro p _; split <;> rfl
    rw [h1, h2, List.append_nil, List.append_nil]
    congr 1
    split <;> rfl
  · intro hraw x
    simp only [setsLastFrameTime, admitsMain, hraw]
    by_cases hm : mergedMode log options = true <;> simp [hm]

/-- The callback of a valid positioning frame that arrives while a main frame is buffered,
in terms of the two buffers: what it writes with and without the flush, and what it leaves
in the buffers. -/
theorem merge_gps_after_buffered_main (K : parser_h) (log : flightLog_t)
    (options : decodeOptions_t) (hmode : mergedMode log options = true)
    (s : State) (m c : FrameCall) (mid : List FrameCall)
    (hm : admitsMain options m = true) (hmid : ∀ x ∈ mid, takesFrame options x = false)
    (hg : c.isValidGPS = true) :
    (frameReady K log options s m).haveBufferedMainFrame = true
      ∧ ((log.gpsFieldIndexes.time ≠ -1
            ∧ toU32 (rd (c.frame.getD []) log.gpsFieldIndexes.time)
                ≠ (frameReady K log options s m).lastFrameTime) →
          (frameReady K log options
            (flightLogParse K log options (frameReady K log options s m) mid) c).out
            = (frameReady K log options s m).out
              ++ [Output.mergeRow
                    (outputMainFrameFields K log options
                      (if m.frameValid
                        then toU32 (rd (m.frame.getD []) (K.FLIGHT_LOG_FIELD_INDEX_TIME : Int))
                        else UINT32_MINUS_ONE)
                      (memcpy s.bufferedMainFrame (m.frame.getD []) m.fieldCount))
                    (outputGPSFields log s.bufferedGPSFrame),
                  Output.mergeRow
                    (outputMainFrameFields K log options
                      (toU32 (rd (c.frame.getD []) log.gpsFieldIndexes.time))
                      (memcpy s.bufferedMainFrame (m.frame.getD []) m.fieldCount))
                    (outputGPSFields log
                      (memcpy s.bufferedGPSFrame (c.frame.getD []) c.fieldCount))]
              ++ (if log.gpsFieldIndexes.GPS_coord0 ≠ -1 ∧ log.gpsFieldIndexes.GPS_coord0 ≠ -1
                    ∧ log.gpsFieldIndexes.GPS_altitude ≠ -1 then
                  [Output.gpxPoint (toU32 (rd (c.frame.getD []) log.gpsFieldIndexes.time))
                    (rd (c.frame.getD []) log.gpsFieldIndexes.GPS_coord0)
                    (rd (c.frame.getD []) log.gpsFieldIndexes.GPS_coord1)
                    (rd (c.frame.getD []) log.gpsFieldIndexes.GPS_altitude)] else []))
      ∧ (¬ (log.gpsFieldIndexes.time ≠ -1
            ∧ toU32 (rd (c.frame.getD []) log.gpsFieldIndexes.time)
                ≠ (frameReady K log options s m).lastFrameTime) →
          (frameReady K log options
            (flightLogParse K log options (frameReady K log options s m) mid) c).out
            = (frameReady K log options s m).out
              ++ [Output.mergeRow
                    (outputMainFrameFields K log options
                      (frameReady K log options s m).lastFrameTime
                      (memcpy s.bufferedMainFrame (m.frame.getD []) m.fieldCount))
                    (outputGPSFields log
                      (memcpy s.bufferedGPSFrame (c.frame.getD []) c.fieldCount))]
              ++ (if log.gpsFieldIndexes.GPS_coord0 ≠ -1 ∧ log.gpsFieldIndexes.GPS_coord0 ≠ -1
                    ∧ log.gpsFieldIndexes.GPS_altitude ≠ -1 then
                  [Output.gpxPoint (frameReady K log options s m).lastFrameTime
                    (rd (c.frame.getD []) log.gpsFieldIndexes.GPS_coord0)
                    (rd (c.frame.getD []) log.gpsFieldIndexes.GPS_coord1)
                    (rd (c.frame.getD []) log.gpsFieldIndexes.GPS_altitude)] else []))
      ∧ (frameReady K log options s m).lastFrameTime
          = (if m.frameValid
              then toU32 (rd (m.frame.getD []) (K.FLIGHT_LOG_FIELD_INDEX_TIME : Int))
              else s.lastFrameTime)
      ∧ (frameReady K log options
            (flightLogParse K log options (frameReady K log options s m) mid) c).bufferedGPSFrame
          = memcpy s.bufferedGPSFrame (c.frame.getD []) c.fieldCount
      ∧ (frameReady K log options
            (flightLogParse K log options (frameReady K log options s m) mid) c).haveBufferedMainFrame
          = false := by
  rw [flightLogParse_not_taken K log options hmode mid _ hmid]
  have hg2 := hg
  simp only [FrameCall.isValidGPS, FrameCall.isGPS, Bool.and_eq_true, decide_eq_true_eq] at hg2
  have hstep := merge_validG K log options hmode (frameReady K log options s m) c hg2.1 hg2.2
  have hmain := merge_admitMain K log options hmode s m hm
  have hhave : (frameReady K log options s m).haveBufferedMainFrame = true := by rw [hmain]
  have hbm : (frameReady K log options s m).bufferedMainFrame
      = memcpy s.bufferedMainFrame (m.frame.getD []) m.fieldCount := by rw [hmain]
  have hbt : (frameReady K log options s m).bufferedFrameTime
      = (if m.frameValid
          then toU32 (rd (m.frame.getD []) (K.FLIGHT_LOG_FIELD_INDEX_TIME : Int))
          else UINT32_MINUS_ONE) := by rw [hmain]
  have hbg : (frameReady K log options s m).bufferedGPSFrame = s.bufferedGPSFrame := by
    rw [hmain]
  have hlt : (frameReady K log options s m).lastFrameTime
      = (if m.frameValid
          then toU32 (rd (m.frame.getD []) (K.FLIGHT_LOG_FIELD_INDEX_TIME : Int))
          else s.lastFrameTime) := by rw [hmain]
  have hout := congrArg State.out hstep
  simp only [hhave, hbm, hbg, mergeRowOf, hbt, Bool.and_true] at hout
  refine ⟨hhave, ?_, ?_, hlt, ?_, ?_⟩
  · intro hdiff
    have hsame : sameIteration log (frameReady K log options s m).lastFrameTime (c.frame.getD [])
        = false := by
      simp [sameIteration, hdiff.1, hdiff.2]
    have htime : mergeGpsFrameTime log (frameReady K log options s m).lastFrameTime
        (c.frame.getD []) = toU32 (rd (c.frame.getD []) log.gpsFieldIndexes.time) := by
      simp [mergeGpsFrameTime, hsame]
    rw [hout, hsame, htime]
    simp
  · intro hsame0
    have hsame : sameIteration log (frameReady K log options s m).lastFrameTime (c.frame.getD [])
        = true := by
      simp only [sameIteration, Bool.or_eq_true, decide_eq_true_eq]
      by_cases h1 : log.gpsFieldIndexes.time = -1
      · exact Or.inl h1
      · right
        by_contra h2
        exact hsame0 ⟨h1, h2⟩
    have htime : mergeGpsFrameTime log (frameReady K log options s m).lastFrameTime
        (c.frame.getD []) = (frameReady K log options s m).lastFrameTime := by
      simp [mergeGpsFrameTime, hsame]
    rw [hout, hsame, htime]
    simp
  · rw [hstep, hbg]
  · rw [hstep]


/-- C25.  In merged mode, when a valid positioning frame with the fields `g` arrives while a
main frame with the fields `f` is buffered (after the main frame only callbacks that are
dropped have been made): if the positioning stream has a time field and the embedded time
differs from the last main-frame time, the fields of `f` are first written in a row with the
main frame's own time and the positioning payload buffered before, and then again in the row
of the fields of `g`, with the embedded time; otherwise no row is written before, and the
fields of `f` are written in exactly one row with the fields of `g`, at the last main-frame
time.  In both cases the fields of `g` are stored in the positioning buffer and no main frame
is left waiting. -/
theorem gps_frame_after_buffered_main (K : parser_h) (log : flightLog_t)
    (options : decodeOptions_t) (hmode : mergedMode log options = true)
    (s : State) (m c : FrameCall) (mid : List FrameCall) (f g : List Int)
    (hm : admitsMain options m = true) (hmf : m.frame = some f)
    (hmc : log.mainFieldCount ≤ m.fieldCount) (hml : m.fieldCount ≤ f.length)
    (hmid : ∀ x ∈ mid, takesFrame options x = false)
    (hg : c.isValidGPS = true) (hcf : c.frame = some g)
    (hcc : log.gpsFieldCount ≤ c.fieldCount) (hcl : c.fieldCount ≤ g.length) :
    (frameReady K log options s m).haveBufferedMainFrame = true
      ∧ ((log.gpsFieldIndexes.time ≠ -1
            ∧ toU32 (rd g log.gpsFieldIndexes.time)
                ≠ (frameReady K log options s m).lastFrameTime) →
          (frameReady K log options
            (flightLogParse K log options (frameReady K log options s m) mid) c).out
            = (frameReady K log options s m).out
              ++ [Output.mergeRow
                    (outputMainFrameFields K log options
                      (if m.frameValid
                        then toU32 (rd f (K.FLIGHT_LOG_FIELD_INDEX_TIME : Int))
                        else UINT32_MINUS_ONE) f)
                    (outputGPSFields log s.bufferedGPSFrame),
                  Output.mergeRow
                    (outputMainFrameFields K log options
                      (toU32 (rd g log.gpsFieldIndexes.time)) f)
                    (outputGPSFields log g)]
              ++ (if log.gpsFieldIndexes.GPS_coord0 ≠ -1 ∧ log.gpsFieldIndexes.GPS_coord0 ≠ -1
                    ∧ log.gpsFieldIndexes.GPS_altitude ≠ -1 then
                  [Output.gpxPoint (toU32 (rd g log.gpsFieldIndexes.time))
                    (rd g log.gpsFieldIndexes.GPS_coord0)
                    (rd g log.gpsFieldIndexes.GPS_coord1)
                    (rd g log.gpsFieldIndexes.GPS_altitude)] else []))
      ∧ (¬ (log.gpsFieldIndexes.time ≠ -1
            ∧ toU32 (rd g log.gpsFieldIndexes.time)
                ≠ (frameReady K log options s m).lastFrameTime) →
          (frameReady K log options
            (flightLogParse K log options (frameReady K log options s m) mid) c).out
            = (frameReady K log options s m).out
              ++ [Output.mergeRow
                    (outputMainFrameFields K log options
                      (frameReady K log options s m).lastFrameTime f)
                    (outputGPSFields log g)]
              ++ (if log.gpsFieldIndexes.GPS_coord0 ≠ -1 ∧ log.gpsFieldIndexes.GPS_coord0 ≠ -1
                    ∧ log.gpsFieldIndexes.GPS_altitude ≠ -1 then
                  [Output.gpxPoint (frameReady K log options s m).lastFrameTime
                    (rd g log.gpsFieldIndexes.GPS_coord0)
                    (rd g log.gpsFieldIndexes.GPS_coord1)
                    (rd g log.gpsFieldIndexes.GPS_altitude)] else []))
      ∧ (frameReady K log options s m).lastFrameTime
          = (if m.frameValid
              then toU32 (rd f (K.FLIGHT_LOG_FIELD_INDEX_TIME : Int))
              else s.lastFrameTime)
      ∧ (∀ i, i < c.fieldCount →
          (frameReady K log options
            (flightLogParse K log options (frameReady K log options s m) mid) c
            ).bufferedGPSFrame.getD i 0 = g.getD i 0)
      ∧ (∀ i, c.fieldCount ≤ i →
          (frameReady K log options
            (flightLogParse K log options (frameReady K log options s m) mid) c
            ).bufferedGPSFrame.getD i 0 = s.bufferedGPSFrame.getD i 0)
      ∧ outputGPSFields log
          (frameReady K log options
            (flightLogParse K log options (frameReady K log options s m) mid) c
            ).bufferedGPSFrame = outputGPSFields log g
      ∧ (frameReady K log options
            (flightLogParse K log options (frameReady K log options s m) mid) c).haveBufferedMainFrame
          = false := by
  obtain ⟨h1, h2, h3, h4, h5, h6⟩ :=
    merge_gps_after_buffered_main K log options hmode s m c mid hm hmid hg
  have hf : m.frame.getD [] = f := by rw [hmf]; rfl
  have hgf : c.frame.getD [] = g := by rw [hcf]; rfl
  have hcopy : ∀ (dst src : List Int) (n i : Nat), i < n → n ≤ src.length →
      (memcpy dst src n).getD i 0 = src.getD i 0 := by
    intro dst src n i hi hn
    unfold memcpy
    have hlt : i < (src.take n).length := by rw [List.length_take]; omega
    rw [List.getD_eq_getElem?_getD, List.getD_eq_getElem?_getD,
      List.getElem?_append_left hlt, List.getElem?_take]
    simp [hi]
  have hkeep : ∀ (dst src : List Int) (n i : Nat), n ≤ i → n ≤ src.length →
      (memcpy dst src n).getD i 0 = dst.getD i 0 := by
    intro dst src n i hi hn
    unfold memcpy
    have hlen : (src.take n).length = n := by rw [List.length_take]; omega
    rw [List.getD_eq_getElem?_getD, List.getD_eq_getElem?_getD,
      List.getElem?_append_right (by omega), hlen, List.getElem?_drop]
    congr 2
    omega
  have hmain : ∀ t, outputMainFrameFields K log options t
      (memcpy s.bufferedMainFrame f m.fieldCount)
      = outputMainFrameFields K log options t f := by
    intro t
    unfold outputMainFrameFields
    congr 1
    apply List.map_congr_left
    intro i hi
    have hi2 : i < log.mainFieldCount := List.mem_range.mp hi
    rw [hcopy _ f m.fieldCount i (by omega) hml]
  have hgps : outputGPSFields log (memcpy s.bufferedGPSFrame g c.fieldCount)
      = outputGPSFields log g := by
    unfold outputGPSFields
    apply List.map_congr_left
    intro i hi
    have hi2 : i < log.gpsFieldCount := List.mem_range.mp (List.mem_filter.mp hi).1
    rw [hcopy _ g c.fieldCount i (by omega) hcl]
  rw [hf] at h4
  rw [hgf] at h2 h3 h5
  rw [hf] at h2 h3
  simp only [hmain, hgps] at h2 h3
  refine ⟨h1, h2, h3, h4, ?_, ?_, ?_, h6⟩
  · intro i hi
    rw [h5]
    exact hcopy _ g c.fieldCount i hi hcl
  · intro i hi
    rw [h5]
    exact hkeep _ g c.fieldCount i hi hcl
  · rw [h5]
    exact hgps

/-- C25 on the sample log: a main frame at time 1000 followed by a positioning frame with
the embedded time 1500 is written twice, first with its own time and the payload buffered
before (zeros at the start of the log), then with the fields of the positioning frame and
the embedded time; the buffer then starts with the fields of the positioning frame. -/
theorem gps_frame_after_buffered_main_witness :
    (frameReady exampleConsts exampleLog mergeOptions
        (flightLogParse exampleConsts exampleLog mergeOptions
          (frameReady exampleConsts exampleLog mergeOptions
            (decodeFlightLog_begin exampleConsts mergeOptions {}) (mainCall 0 1000 398))
          [undecodableFrame])
        (gpsCall 1500 515000000 (-1270000) 30)).out
      = (frameReady exampleConsts exampleLog mergeOptions
          (decodeFlightLog_begin exampleConsts mergeOptions {}) (mainCall 0 1000 398)).out
        ++ [Output.mergeRow
              { frameTime := 1000
                cells := [Cell.field 0 0, Cell.time 1000, Cell.field 2 398]
                attitude := false }
              [Cell.field 1 0, Cell.field 2 0, Cell.field 3 0],
            Output.mergeRow
              { frameTime := 1500
                cells := [Cell.field 0 0, Cell.time 1500, Cell.field 2 398]
                attitude := false }
              [Cell.field 1 515000000, Cell.field 2 (-1270000), Cell.field 3 30]]
        ++ [Output.gpxPoint 1500 515000000 (-1270000) 30]
      ∧ (frameReady exampleConsts exampleLog mergeOptions
          (flightLogParse exampleConsts exampleLog mergeOptions
            (frameReady exampleConsts exampleLog mergeOptions
              (decodeFlightLog_begin exampleConsts mergeOptions {}) (mainCall 0 1000 398))
            [undecodableFrame])
          (gpsCall 1500 515000000 (-1270000) 30)).bufferedGPSFrame.take 5
        = [1500, 515000000, -1270000, 30, 0] :=
  ⟨(gps_frame_after_buffered_main exampleConsts exampleLog mergeOptions (by decide)
      (decodeFlightLog_begin exampleConsts mergeOptions {}) (mainCall 0 1000 398)
      (gpsCall 1500 515000000 (-1270000) 30) [undecodableFrame] [0, 1000, 398]
      [1500, 515000000, -1270000, 30] (by decide) rfl (by decide) (by decide) (by decide)
      (by decide) rfl (by decide) (by decide)).2.1 (by decide),
   by decide⟩

/-- C26.  In merged mode the buffered positioning payload is replaced by a valid positioning
frame and by nothing else: writing a merge row keeps it, and so does every callback that is
not a valid positioning frame (a main frame, an invalid positioning frame, any other) and
the end-of-log flush; over a sequence of such callbacks and the flush, every merge row
written carries the same payload. -/
theorem gps_payload_kept_until_next_fix (K : parser_h) (log : flightLog_t)
    (options : decodeOptions_t) (hmode : mergedMode log options = true)
    (s : State) (calls : List FrameCall) (hcalls : ∀ c ∈ calls, c.isValidGPS = false) :
    (outputMergeFrame K log options s).bufferedGPSFrame = s.bufferedGPSFrame
      ∧ (∀ c : FrameCall, c.isValidGPS = false →
          (frameReady K log options s c).bufferedGPSFrame = s.bufferedGPSFrame)
      ∧ (decodeFlightLog_end K log options s).bufferedGPSFrame = s.bufferedGPSFrame
      ∧ (∀ c : FrameCall, c.isValidGPS = true →
          (frameReady K log options s c).bufferedGPSFrame
            = memcpy s.bufferedGPSFrame (c.frame.getD []) c.fieldCount)
      ∧ (decodeFlightLog_end K log options
          (flightLogParse K log options s calls)).bufferedGPSFrame = s.bufferedGPSFrame
      ∧ ∃ d, (decodeFlightLog_end K log options (flightLogParse K log options s calls)).out
            = s.out ++ d
          ∧ ∀ o ∈ d, ∀ m g, o = Output.mergeRow m g
              → g = outputGPSFields log s.bufferedGPSFrame := by
  have hend : ∀ s1 : State,
      (decodeFlightLog_end K log options s1).bufferedGPSFrame = s1.bufferedGPSFrame := by
    intro s1
    unfold decodeFlightLog_end
    split <;> rfl
  obtain ⟨h1, d1, hd1, hr1⟩ := merge_parse_payload K log options hmode calls s hcalls
  refine ⟨rfl, fun c hc => (merge_step_payload K log options hmode s c hc).1, hend s, ?_,
    by rw [hend, h1], ?_⟩
  · intro c hg
    simp only [FrameCall.isValidGPS, FrameCall.isGPS, Bool.and_eq_true, decide_eq_true_eq] at hg
    rw [merge_validG K log options hmode s c hg.1 hg.2]
  · unfold decodeFlightLog_end
    split
    · refine ⟨d1 ++ [mergeRowOf K log options (flightLogParse K log options s calls)], ?_, ?_⟩
      · simp only [outputMergeFrame, mergeRowOf]
        rw [hd1, List.append_assoc]
      · intro o ho m g hmg
        rw [List.mem_append] at ho
        rcases ho with ho | ho
        · exact hr1 o ho m g hmg
        · simp only [List.mem_singleton] at ho
          rw [ho, mergeRowOf, h1] at hmg
          injection hmg with e1 e2
          exact e2.symm
    · exact ⟨d1, hd1, hr1⟩

/-- C26 on the sample log: after a positioning frame, two main frames and the end of the
log leave the payload of that frame in the buffer. -/
theorem gps_payload_kept_until_next_fix_witness :
    (decodeFlightLog_end exampleConsts exampleLog mergeOptions
        (flightLogParse exampleConsts exampleLog mergeOptions
          (frameReady exampleConsts exampleLog mergeOptions
            (decodeFlightLog_begin exampleConsts mergeOptions {})
            (gpsCall 1500 515000000 (-1270000) 30))
          [mainCall 1 2000 397, mainCall 2 3000 396])).bufferedGPSFrame
      = (frameReady exampleConsts exampleLog mergeOptions
          (decodeFlightLog_begin exampleConsts mergeOptions {})
          (gpsCall 1500 515000000 (-1270000) 30)).bufferedGPSFrame :=
  (gps_payload_kept_until_next_fix exampleConsts exampleLog mergeOptions (by decide)
    (frameReady exampleConsts exampleLog mergeOptions
      (decodeFlightLog_begin exampleConsts mergeOptions {})
      (gpsCall 1500 515000000 (-1270000) 30))
    [mainCall 1 2000 397, mainCall 2 3000 396] (by decide)).2.2.2.2.1

/-- C27.  In merged mode, for every callback sequence followed by the end-of-log flush, the
number of merge rows written for the log, plus the number of valid positioning frames that
arrived while a main frame was buffered and took the same-iteration branch, equals the
number of main frames taken plus the number of valid positioning frames; so the number of
merge rows is that sum minus the number of such positioning frames. -/
theorem merge_row_count (K : parser_h) (log : flightLog_t) (options : decodeOptions_t)
    (hmode : mergedMode log options = true) (s : State) (calls : List FrameCall) :
    (mergeRows (decodeFlightLog K log options s calls).out).length
        + sameIterationMerges K log options false s.lastFrameTime calls
        = calls.countP (admitsMain options) + calls.countP FrameCall.isValidGPS
      ∧ (mergeRows (decodeFlightLog K log options s calls).out).length
        = calls.countP (admitsMain options) + calls.countP FrameCall.isValidGPS
          - sameIterationMerges K log options false s.lastFrameTime calls := by
  suffices h : (mergeRows (decodeFlightLog K log options s calls).out).length
        + sameIterationMerges K log options false s.lastFrameTime calls
      = calls.countP (admitsMain options) + calls.countP FrameCall.isValidGPS from
    ⟨h, by omega⟩
  have hm : options.mergeGPS = true := by
    simp only [mergedMode, Bool.and_eq_true] at hmode
    exact hmode.1
  have hb1 : (decodeFlightLog_begin K options s).lastFrameTime = s.lastFrameTime := by
    simp [decodeFlightLog_begin, hm]
  have hb2 : (decodeFlightLog_begin K options s).haveBufferedMainFrame = false := by
    simp [decodeFlightLog_begin, hm]
  have hp := merge_parse_rowCount K log options hmode calls (decodeFlightLog_begin K options s)
  rw [decodeFlightLog_begin_out, hb1, hb2] at hp
  have hnil : mergeRows ([] : List Output) = [] := rfl
  unfold decodeFlightLog decodeFlightLog_end
  generalize flightLogParse K log options (decodeFlightLog_begin K options s) calls = s1 at hp ⊢
  by_cases hh : s1.haveBufferedMainFrame = true
  · simp only [hm, hh, Bool.and_self, if_true, outputMergeFrame, mergeRows_append,
      mergeRows_row, List.length_append, List.length_singleton]
    simp only [hh, if_true, hnil, List.length_nil, Bool.false_eq_true, if_false] at hp
    omega
  · simp only [hh, Bool.and_false, Bool.false_eq_true, if_false]
    simp only [hh, hnil, List.length_nil, Bool.false_eq_true, if_false] at hp
    omega

/-- C27 on the sample log: three main frames and two positioning frames, the first of which
has the time of the main frame before it, give four merge rows. -/
theorem merge_row_count_witness :
    (mergeRows (decodeFlightLog exampleConsts exampleLog mergeOptions {}
          [mainCall 0 1000 398, gpsCall 1000 515000000 (-1270000) 30, mainCall 1 2000 397,
            gpsCall 2500 515000100 (-1270100) 31, mainCall 2 3000 396]).out).length
        + sameIterationMerges exampleConsts exampleLog mergeOptions false
            ({} : State).lastFrameTime
            [mainCall 0 1000 398, gpsCall 1000 515000000 (-1270000) 30, mainCall 1 2000 397,
              gpsCall 2500 515000100 (-1270100) 31, mainCall 2 3000 396]
      = [mainCall 0 1000 398, gpsCall 1000 515000000 (-1270000) 30, mainCall 1 2000 397,
            gpsCall 2500 515000100 (-1270100) 31, mainCall 2 3000 396].countP
          (admitsMain mergeOptions)
        + [mainCall 0 1000 398, gpsCall 1000 515000000 (-1270000) 30, mainCall 1 2000 397,
            gpsCall 2500 515000100 (-1270100) 31, mainCall 2 3000 396].countP
          FrameCall.isValidGPS :=
  (merge_row_count exampleConsts exampleLog mergeOptions (by decide) {}
    [mainCall 0 1000 398, gpsCall 1000 515000000 (-1270000) 30, mainCall 1 2000 397,
      gpsCall 2500 515000100 (-1270100) 31, mainCall 2 3000 396]).1

/-- C28.  Outside debug mode, when `onMetadataReady` has written the header, the header has
as many titles as the main field count, plus three when the attitude simulation is on, plus
in merged mode the number of positioning fields other than the positioning time; and every
row written to the main CSV file for the log has no debug suffix and, once written, has
exactly that number of columns. -/
theorem row_columns_match_header (K : parser_h) (cal : Calibration) (log : flightLog_t)
    (options : decodeOptions_t) (tables : Tables) (header : List String)
    (hdebug : options.debug = false)
    (hheader : (onMetadataReady K log options tables).header = some header) :
    header.length
        = log.mainFieldCount
          + (if (onMetadataReady K log options tables).options.simulateIMU then 3 else 0)
          + (if mergedMode log options then
              ((List.range log.gpsFieldCount).filter
                (fun (i : Nat) => decide (Int.ofNat i ≠ log.gpsFieldIndexes.time))).length
            else 0)
      ∧ ∀ (s : State) (calls : List FrameCall),
          ∀ o ∈ (decodeFlightLog_withMetadata K log options tables s calls).2.out,
            (∀ m d, o = Output.mainRow m d → d = none)
            ∧ ∀ cols, renderRow cal (onMetadataReady K log options tables).tables log
                (onMetadataReady K log options tables).options o = some (Except.ok cols)
              → cols.length = header.length := by
  have hlen := onMetadataReady_header_length K log options tables header hheader
  have hmm := onMetadataReady_mergedMode K log options tables
  have hdd := onMetadataReady_debug K log options tables
  refine ⟨hlen, ?_⟩
  intro s calls o ho
  have hrow := decodeFlightLog_rowOfLog K log (onMetadataReady K log options tables).options
    s calls o ho
  constructor
  · intro m d hmd
    rw [hmd] at hrow
    exact hrow.2.2 (by rw [hdd]; exact hdebug)
  · intro cols hcols
    cases o with
    | mainRow m d =>
      obtain ⟨hmode, ⟨t, f, rfl⟩, -⟩ := hrow
      rw [hmm] at hmode
      simp only [renderRow, Option.some.injEq] at hcols
      rw [renderMainFrameFields_length K cal _ log _ _ t f cols hcols, hlen, hmode]
      simp
    | mergeRow m g =>
      obtain ⟨hmode, ⟨t, f, rfl⟩, gf, rfl⟩ := hrow
      rw [hmm] at hmode
      simp only [renderRow, Option.some.injEq, renderMergeRow] at hcols
      cases h1 : renderMainFrameFields cal (onMetadataReady K log options tables).tables log
          (onMetadataReady K log options tables).options
          (outputMainFrameFields K log (onMetadataReady K log options tables).options t f) with
      | error e => rw [h1] at hcols; simp at hcols
      | ok main =>
        rw [h1] at hcols
        simp only at hcols
        cases h2 : printAll (printGPSCell (onMetadataReady K log options tables).tables
            (onMetadataReady K log options tables).options) (outputGPSFields log gf) with
        | error e => rw [h2] at hcols; simp [Except.map] at hcols
        | ok more =>
          rw [h2] at hcols
          simp only [Except.map, Except.ok.injEq] at hcols
          have hl1 := renderMainFrameFields_length K cal _ log _ _ t f main h1
          have hl2 := printAll_length _ _ _ h2
          simp only [outputGPSFields, List.length_map] at hl2
          rw [← hcols, List.length_append, hl1, hl2, hlen, hmode]
          simp
    | diagnostic a b c d => simp [renderRow] at hcols
    | gpsHeader => simp [renderRow] at hcols
    | gpsRow t g => simp [renderRow] at hcols
    | gpxPoint a b c d => simp [renderRow] at hcols
    | imuUpdate a b c d => simp [renderRow] at hcols

/-- C28 on the sample log in merged mode: the header has six titles, and so has each of the
rows written for a main frame and a positioning frame. -/
theorem row_columns_match_header_witness :
    ["loopIteration", "time", "vbatLatest (V)", "GPS_coord[0]", "GPS_coord[1]",
        "GPS_altitude"].length
        = exampleLog.mainFieldCount
          + (if (onMetadataReady exampleConsts exampleLog mergeOptions
                (Tables.initial exampleConsts)).options.simulateIMU then 3 else 0)
          + (if mergedMode exampleLog mergeOptions then
              ((List.range exampleLog.gpsFieldCount).filter
                (fun (i : Nat) => decide (Int.ofNat i ≠ exampleLog.gpsFieldIndexes.time))).length
            else 0)
      ∧ ∀ o ∈ (decodeFlightLog_withMetadata exampleConsts exampleLog mergeOptions
            (Tables.initial exampleConsts) {}
            [mainCall 0 1000 398, gpsCall 1500 515000000 (-1270000) 30]).2.out,
          (∀ m d, o = Output.mainRow m d → d = none)
          ∧ ∀ cols, renderRow exampleCalibration
              (onMetadataReady exampleConsts exampleLog mergeOptions
                (Tables.initial exampleConsts)).tables exampleLog
              (onMetadataReady exampleConsts exampleLog mergeOptions
                (Tables.initial exampleConsts)).options o = some (Except.ok cols)
            → cols.length
                = ["loopIteration", "time", "vbatLatest (V)", "GPS_coord[0]", "GPS_coord[1]",
                    "GPS_altitude"].length :=
  ⟨(row_columns_match_header exampleConsts exampleCalibration exampleLog mergeOptions
      (Tables.initial exampleConsts) _ rfl (by decide)).1,
   (row_columns_match_header exampleConsts exampleCalibration exampleLog mergeOptions
      (Tables.initial exampleConsts) _ rfl (by decide)).2 {}
      [mainCall 0 1000 398, gpsCall 1500 515000000 (-1270000) 30]⟩

/-- C30.  For every statistics snapshot and both values of the raw flag, no division of
`printStats` has the divisor zero: the average of a frame type divides by its valid count,
which is not zero; the overall average divides by a non-zero `goodFrames`; the data-rate
line divides by a positive interval in milliseconds (and by 100); and the durations and
percentages of the missing and intentionally absent iterations divide by a non-zero
`totalFrames`. -/
theorem printStats_divisors_nonzero (K : parser_h) (stats : flightLogStatistics_t)
    (raw : Bool) :
    (∀ d ∈ printStats.divisions K stats raw, d.divisor ≠ 0)
      ∧ (∀ ty n, StatDivision.frameAverage ty n ∈ printStats.divisions K stats raw →
          n = ((stats.frame ty).validCount : Int) ∧ (stats.frame ty).validCount ≠ 0)
      ∧ (∀ n, StatDivision.overallAverage n ∈ printStats.divisions K stats raw →
          n = (printStats.goodFrames stats : Int) ∧ printStats.goodFrames stats ≠ 0)
      ∧ (∀ n, StatDivision.dataRate n ∈ printStats.divisions K stats raw →
          (n = (printStats.intervalMS K stats : Int) ∨ n = 100) ∧ 0 < n
            ∧ 0 < printStats.intervalMS K stats ∧ raw = false)
      ∧ (∀ n, (StatDivision.missingShare n ∈ printStats.divisions K stats raw
            ∨ StatDivision.absentShare n ∈ printStats.divisions K stats raw) →
          n = (printStats.totalFrames K stats : Int) ∧ printStats.totalFrames K stats ≠ 0) := by
  have hrate : ∀ n ∈ (printStats.dataRate K stats raw).2,
      (n = (printStats.intervalMS K stats : Int) ∨ n = 100) ∧ 0 < n
        ∧ 0 < printStats.intervalMS K stats ∧ raw = false := by
    intro n hn
    by_cases h : 0 < printStats.intervalMS K stats ∧ raw = false
    · have hc : (decide ((printStats.intervalMS K stats : Int) > 0) && !raw) = true := by
        simp [h.1, h.2]
      simp only [printStats.dataRate, hc, if_true, List.mem_cons, List.mem_singleton,
        List.not_mem_nil, or_false] at hn
      have hpos := h.1
      rcases hn with hn | hn | hn | hn
      · exact ⟨Or.inl hn, by omega, hpos, h.2⟩
      · exact ⟨Or.inl hn, by omega, hpos, h.2⟩
      · exact ⟨Or.inl hn, by omega, hpos, h.2⟩
      · exact ⟨Or.inr hn, by omega, hpos, h.2⟩
    · have hc : (decide ((printStats.intervalMS K stats : Int) > 0) && !raw) = false := by
        by_cases h1 : 0 < printStats.intervalMS K stats
        · have h2 : raw = true := by
            cases raw
            · exact absurd ⟨h1, rfl⟩ h
            · rfl
          simp [h2]
        · simp [h1]
      simp only [printStats.dataRate, hc, Bool.false_eq_true, if_false, List.not_mem_nil] at hn
  have hfa : ∀ ty n, StatDivision.frameAverage ty n ∈ printStats.divisions K stats raw →
      n = ((stats.frame ty).validCount : Int) ∧ (stats.frame ty).validCount ≠ 0 := by
    intro ty n h
    simp only [printStats.divisions, List.mem_append, List.mem_map, List.mem_filter,
      decide_eq_true_eq] at h
    rcases h with (((h | h) | h) | h) | h
    · revert h; simp
    · obtain ⟨ty2, ⟨-, hne⟩, heq⟩ := h
      injection heq with e1 e2
      subst e1
      exact ⟨e2.symm, hne⟩
    · split at h <;> simp at h
    · obtain ⟨x, -, hx⟩ := h
      simp at hx
    · split at h
      · rw [List.mem_append] at h
        rcases h with h | h <;> split at h <;> simp at h
      · simp at h
  have hoa : ∀ n, StatDivision.overallAverage n ∈ printStats.divisions K stats raw →
      n = (printStats.goodFrames stats : Int) ∧ printStats.goodFrames stats ≠ 0 := by
    intro n h
    simp only [printStats.divisions, List.mem_append, List.mem_map, List.mem_filter,
      decide_eq_true_eq] at h
    rcases h with (((h | h) | h) | h) | h
    · revert h; simp
    · obtain ⟨ty2, -, heq⟩ := h
      simp at heq
    · split at h
      · rename_i hne
        simp only [List.mem_singleton, StatDivision.overallAverage.injEq] at h
        exact ⟨h, hne⟩
      · simp at h
    · obtain ⟨x, -, hx⟩ := h
      simp at hx
    · split at h
      · rw [List.mem_append] at h
        rcases h with h | h <;> split at h <;> simp at h
      · simp at h
  have hdr : ∀ n, StatDivision.dataRate n ∈ printStats.divisions K stats raw →
      (n = (printStats.intervalMS K stats : Int) ∨ n = 100) ∧ 0 < n
        ∧ 0 < printStats.intervalMS K stats ∧ raw = false := by
    intro n h
    simp only [printStats.divisions, List.mem_append, List.mem_map, List.mem_filter,
      decide_eq_true_eq] at h
    rcases h with (((h | h) | h) | h) | h
    · revert h; simp
    · obtain ⟨ty2, -, heq⟩ := h
      simp at heq
    · split at h <;> simp at h
    · obtain ⟨x, hx1, hx⟩ := h
      injection hx with e
      subst e
      exact hrate x hx1
    · split at h
      · rw [List.mem_append] at h
        rcases h with h | h <;> split at h <;> simp at h
      · simp at h
  have hsh : ∀ n, (StatDivision.missingShare n ∈ printStats.divisions K stats raw
        ∨ StatDivision.absentShare n ∈ printStats.divisions K stats raw) →
      n = (printStats.totalFrames K stats : Int) ∧ printStats.totalFrames K stats ≠ 0 := by
    intro n h
    simp only [printStats.divisions, List.mem_append, List.mem_map, List.mem_filter,
      decide_eq_true_eq] at h
    rcases h with h | h <;> rcases h with (((h | h) | h) | h) | h
    all_goals first
      | (revert h; simp; done)
      | (split at h <;> simp at h; done)
      | skip
    all_goals
      split at h
      · rename_i hg
        have hne : printStats.totalFrames K stats ≠ 0 := by
          intro h0; apply hg.1; rw [h0]; rfl
        rw [List.mem_append] at h
        rcases h with h | h <;> split at h <;>
          first | (simp at h; done) | (simp at h; exact ⟨h, hne⟩)
      · simp at h
  refine ⟨?_, hfa, hoa, hdr, hsh⟩
  intro d hd
  cases d with
  | timeSplit n =>
    simp only [printStats.divisions, List.mem_append, List.mem_map, List.mem_filter,
      decide_eq_true_eq] at hd
    simp only [StatDivision.divisor]
    rcases hd with (((h | h) | h) | h) | h
    · simp at h
      rcases h with h | h | h | h <;> omega
    · obtain ⟨x, -, hx⟩ := h
      simp at hx
    · split at h <;> simp at h
    · obtain ⟨x, -, hx⟩ := h
      simp at hx
    · split at h
      · rw [List.mem_append] at h
        rcases h with h | h <;> split at h <;> simp at h
      · simp at h
  | frameAverage ty n =>
    obtain ⟨h1, h2⟩ := hfa ty n hd
    simp only [StatDivision.divisor]
    omega
  | overallAverage n =>
    obtain ⟨h1, h2⟩ := hoa n hd
    simp only [StatDivision.divisor]
    omega
  | dataRate n =>
    obtain ⟨-, h2, -⟩ := hdr n hd
    simp only [StatDivision.divisor]
    omega
  | missingShare n =>
    obtain ⟨h1, h2⟩ := hsh n (Or.inl hd)
    simp only [StatDivision.divisor]
    omega
  | absentShare n =>
    obtain ⟨h1, h2⟩ := hsh n (Or.inr hd)
    simp only [StatDivision.divisor]
    omega

/-- C30 on the statistics of an ordinary log and on those of a log in which no time
elapses. -/
theorem printStats_divisors_nonzero_witness :
    (∀ d ∈ printStats.divisions exampleConsts statsOrdinary false, d.divisor ≠ 0)
      ∧ (∀ d ∈ printStats.divisions exampleConsts statsNoTime false, d.divisor ≠ 0) :=
  ⟨(printStats_divisors_nonzero exampleConsts statsOrdinary false).1,
   (printStats_divisors_nonzero exampleConsts statsNoTime false).1⟩

end BlackboxDecode
